import Mathlib

/-!  Shallow embedding of the clinic-booking core of the HEALTH repository
(`core/calendar_manager.py`, `core/validators.py`, `core/datetime_validator.py`,
`core/lite_secretary.py`), together with proofs about it.

Modelling conventions:
* dates are proleptic-Gregorian triples `(year, month, day)` as in Python
  `datetime.date`; ordering and `timedelta` arithmetic go through the Python
  ordinal (`date.toordinal`), which agrees with lexicographic comparison on
  valid dates;
* a datetime is a date plus minutes since midnight; Python datetime
  comparison is modelled by the absolute minute count.  The Django
  aware/naive timezone distinction is not modelled: all datetimes live in the
  single clinic-local timezone that `TimezoneManager.get_current_time`
  produces (the code never compares datetimes from two different zones);
* "current time" (`timezone.now()` / `TimezoneManager.get_current_time`) is
  passed in explicitly as a parameter;
* machine integers do not overflow here (Python ints are unbounded), so Nat
  is used throughout.
-/

namespace Health

/-- Calendar date, as Python `datetime.date` (proleptic Gregorian). -/
structure Date where
  year : Nat
  month : Nat
  day : Nat
deriving DecidableEq, Repr

/-- Gregorian leap-year rule (as `calendar.isleap`). -/
def isLeapYear (y : Nat) : Bool :=
  (y % 4 == 0 && y % 100 != 0) || y % 400 == 0

/-- Number of days in month `m` of year `y`. -/
def daysInMonth (y m : Nat) : Nat :=
  if m = 2 then (if isLeapYear y then 29 else 28)
  else if m = 4 ∨ m = 6 ∨ m = 9 ∨ m = 11 then 30
  else 31

/-- Days in the months `1 .. m-1` of year `y`. -/
def daysBeforeMonth (y m : Nat) : Nat :=
  (List.range m).foldl (fun acc k => if k = 0 then acc else acc + daysInMonth y k) 0

/-- Python `date.toordinal`: day number with `0001-01-01 = 1`. -/
def Date.toOrdinal (d : Date) : Nat :=
  365 * (d.year - 1) + (d.year - 1) / 4 + (d.year - 1) / 400 - (d.year - 1) / 100
    + daysBeforeMonth d.year d.month + d.day

/-- Python `date.weekday()`: Monday = 0 … Sunday = 6
(`0001-01-01` was a Monday). -/
def Date.weekday (d : Date) : Nat :=
  (d.toOrdinal + 6) % 7

/-- The day after `d` (Python `d + timedelta(days=1)`). -/
def Date.succ (d : Date) : Date :=
  if d.day < daysInMonth d.year d.month then { d with day := d.day + 1 }
  else if d.month < 12 then { year := d.year, month := d.month + 1, day := 1 }
  else { year := d.year + 1, month := 1, day := 1 }

/-- Python `d + timedelta(days=k)` for `k ≥ 0`. -/
def Date.addDays (d : Date) : Nat → Date
  | 0 => d
  | k + 1 => (d.addDays k).succ

/-- A structurally valid calendar date. -/
def Date.Valid (d : Date) : Prop :=
  1 ≤ d.year ∧ 1 ≤ d.month ∧ d.month ≤ 12 ∧ 1 ≤ d.day ∧ d.day ≤ daysInMonth d.year d.month

instance (d : Date) : Decidable d.Valid := by
  unfold Date.Valid; infer_instance

/-- Zero-padded two-digit decimal rendering. -/
def pad2 (n : Nat) : String :=
  if n < 10 then "0" ++ toString n else toString n

/-- Zero-padded four-digit decimal rendering. -/
def pad4 (n : Nat) : String :=
  if n < 10 then "000" ++ toString n
  else if n < 100 then "00" ++ toString n
  else if n < 1000 then "0" ++ toString n
  else toString n

/-- `strftime('%d.%m.%Y')`. -/
def Date.fmtDMY (d : Date) : String :=
  pad2 d.day ++ "." ++ pad2 d.month ++ "." ++ pad4 d.year

/-- `strftime('%Y-%m-%d')`. -/
def Date.fmtYMD (d : Date) : String :=
  pad4 d.year ++ "-" ++ pad2 d.month ++ "-" ++ pad2 d.day

/-- `strftime('%A')` (English locale weekday name). -/
def Date.weekdayName (d : Date) : String :=
  match d.weekday with
  | 0 => "Monday"
  | 1 => "Tuesday"
  | 2 => "Wednesday"
  | 3 => "Thursday"
  | 4 => "Friday"
  | 5 => "Saturday"
  | _ => "Sunday"

/-- `strftime('%H:%M')` of a minutes-since-midnight value. -/
def fmtHM (m : Nat) : String :=
  pad2 (m / 60 % 24) ++ ":" ++ pad2 (m % 60)

/-!  `core/datetime_validator.py` — `HolidayManager`  -/

/-- `HolidayManager.FIXED_HOLIDAYS[country]` ( `[]` for an unknown country). -/
def fixedHolidays (country : String) : List (Nat × Nat) :=
  if country = "IL" then [(1, 1), (5, 14), (9, 30), (10, 9)]
  else if country = "RU" then
    [(1, 1), (1, 2), (1, 3), (1, 4), (1, 5), (1, 6), (1, 7), (1, 8),
     (2, 23), (3, 8), (5, 1), (5, 9), (6, 12), (11, 4)]
  else if country = "UA" then
    [(1, 1), (1, 7), (3, 8), (5, 1), (5, 9), (6, 28), (8, 24)]
  else if country = "US" then [(1, 1), (7, 4), (12, 25)]
  else []

/-- The holiday-name table of `HolidayManager.is_holiday`. -/
def holidayName (country : String) (t : Nat × Nat) : String :=
  if country = "IL" then
    match t with
    | (1, 1) => "Новый год"
    | (5, 14) => "День независимости Израиля"
    | (9, 30) => "Рош ха-Шана"
    | (10, 9) => "Йом Кипур"
    | _ => "Праздник"
  else if country = "RU" then
    match t with
    | (1, 1) => "Новый год"
    | (2, 23) => "День защитника Отечества"
    | (3, 8) => "Международный женский день"
    | (5, 1) => "Праздник Весны и Труда"
    | (5, 9) => "День Победы"
    | (6, 12) => "День России"
    | (11, 4) => "День народного единства"
    | (1, _) => "Новогодние каникулы"
    | _ => "Праздник"
  else if country = "UA" then
    match t with
    | (1, 1) => "Новый год"
    | (1, 7) => "Рождество"
    | (3, 8) => "Международный женский день"
    | (5, 1) => "День труда"
    | (5, 9) => "День победы над нацизмом"
    | (6, 28) => "День Конституции"
    | (8, 24) => "День независимости"
    | _ => "Праздник"
  else if country = "US" then
    match t with
    | (1, 1) => "New Year's Day"
    | (7, 4) => "Independence Day"
    | (12, 25) => "Christmas Day"
    | _ => "Праздник"
  else "Праздник"

/-- `HolidayManager.is_holiday`. -/
def isHoliday (checkDate : Date) (country : String) : Bool × String :=
  if (checkDate.month, checkDate.day) ∈ fixedHolidays country then
    (true, holidayName country (checkDate.month, checkDate.day))
  else (false, "")

/-- `HolidayManager.is_weekend`: Friday/Saturday for IL, Saturday/Sunday
otherwise. -/
def isWeekend (checkDate : Date) (country : String) : Bool :=
  let w := checkDate.weekday
  if country = "IL" then w = 4 ∨ w = 5 else w = 5 ∨ w = 6

/-- `HolidayManager.get_next_working_day` (at most 14 probes, then the
fallback `start + 1 day`). -/
def getNextWorkingDay (start : Date) (country : String) : Date :=
  go start 14
where
  go (cur : Date) : Nat → Date
    | 0 => start.addDays 1
    | fuel + 1 =>
      let nxt := cur.succ
      if ¬ isWeekend nxt country ∧ ¬ (isHoliday nxt country).1 then nxt
      else go nxt fuel

/-!  `DateTimeValidator.validate_date`.  `today` stands for
`TimezoneManager.get_current_time(country).date()`. -/

/-- `DateTimeValidator.validate_date` : `(is_valid, error_message)`. -/
def validateDate (country : String) (today checkDate : Date) : Bool × String :=
  if checkDate.toOrdinal < today.toOrdinal then
    (false, "Нельзя записаться на прошедшую дату")
  else if checkDate.toOrdinal > today.toOrdinal + 365 then
    (false, "Нельзя записаться более чем на год вперед")
  else if isWeekend checkDate country then
    (false, "Центр не работает в выходные дни. Ближайший рабочий день: "
      ++ (getNextWorkingDay checkDate country).fmtDMY)
  else if (isHoliday checkDate country).1 then
    (false, "Центр не работает в праздничные дни ("
      ++ (isHoliday checkDate country).2 ++ "). Ближайший рабочий день: "
      ++ (getNextWorkingDay checkDate country).fmtDMY)
  else (true, "OK")

/-!  Data model (`core/models.py`), restricted to the fields the booking
core reads or writes. -/

/-- A datetime: date plus minutes since midnight (0 … 1439). -/
structure DT where
  date : Date
  min : Nat
deriving DecidableEq, Repr

/-- Absolute minute count; Python datetime comparison is comparison of
this value. -/
def DT.abs (t : DT) : Nat := 1440 * t.date.toOrdinal + t.min

/-- `t + timedelta(minutes=k)`. -/
def DT.addMinutes (t : DT) (k : Nat) : DT :=
  ⟨t.date.addDays ((t.min + k) / 1440), (t.min + k) % 1440⟩

structure Patient where
  id : Nat
  name : String
  phone : String
  country : String
  city : String
deriving DecidableEq, Repr

structure Service where
  id : Nat
  name : String
  duration : Nat
deriving DecidableEq, Repr

structure Specialist where
  id : Nat
  name : String
  isActive : Bool
deriving DecidableEq, Repr

structure Appointment where
  id : Nat
  patientId : Nat
  specialistId : Nat
  serviceId : Nat
  startTime : DT
  endTime : DT
  status : String
  channel : String
  notes : String
deriving DecidableEq, Repr

/-- The database rows the booking core touches.  `nextId` models the
auto-increment primary key counter (Django ids start at 1). -/
structure DB where
  patients : List Patient
  services : List Service
  specialists : List Specialist
  appointments : List Appointment
  nextId : Nat
deriving DecidableEq, Repr

/-- `status__in=['pending', 'confirmed']`. -/
def statusActive (s : String) : Bool :=
  s == "pending" || s == "confirmed"

/-!  `core/calendar_manager.py` — `InternalCalendar`  -/

/-- One element of the list `InternalCalendar.get_available_slots` returns. -/
structure CalSlot where
  startTime : DT
  endTime : DT
  formattedTime : String
  formattedDate : String
deriving DecidableEq, Repr

/-- `InternalCalendar._get_busy_slots`: active appointments of the
specialist whose `start_time` falls on `date` (the `order_by` is dropped:
the busy list is only consumed by the `any`-shaped overlap check below). -/
def getBusySlots (db : DB) (specId : Nat) (date : Date) : List (Nat × Nat) :=
  (db.appointments.filter (fun a =>
    a.specialistId == specId && a.startTime.date == date && statusActive a.status)).map
    (fun a => (a.startTime.abs, a.endTime.abs))

/-- `InternalCalendar._is_slot_busy`. -/
def isSlotBusy (slotStart slotEnd : Nat) (busy : List (Nat × Nat)) : Bool :=
  busy.any (fun b => slotStart < b.2 && slotEnd > b.1)

/-- The slot-generation `while` loop of
`InternalCalendar.get_available_slots`: work hours 9:00–19:00 (minutes 540
and 1140), candidate starts every 30 minutes.  The loop guard allows at
most 21 iterations (starts 540, 570, …, 1140), so the fuel argument —
always instantiated with 21 — only makes the recursion structural and
never cuts the loop short. -/
def slotLoop (date : Date) (dur : Nat) (busy : List (Nat × Nat)) :
    Nat → Nat → List CalSlot
  | 0, _ => []
  | fuel + 1, cur =>
    if cur + dur ≤ 1140 then
      (if isSlotBusy (DT.abs ⟨date, cur⟩) (DT.abs ⟨date, cur + dur⟩) busy then
        ([] : List CalSlot)
       else [⟨⟨date, cur⟩, ⟨date, cur + dur⟩, fmtHM cur, date.fmtDMY⟩])
        ++ slotLoop date dur busy fuel (cur + 30)
    else []

/-- `InternalCalendar.get_available_slots`. -/
def internalGetAvailableSlots (db : DB) (specId : Nat) (date : Date)
    (dur : Nat) : List CalSlot :=
  slotLoop date dur (getBusySlots db specId date) 21 540

/-- `InternalCalendar.check_conflict`. -/
def internalCheckConflict (db : DB) (specId : Nat) (startAbs endAbs : Nat) :
    Bool :=
  !(db.appointments.filter (fun a =>
    a.specialistId == specId && a.startTime.abs < endAbs
      && a.endTime.abs > startAbs && statusActive a.status)).isEmpty

/-!  `core/validators.py` — `ConflictValidator`  -/

/-- Name of the patient row with id `pid` (`select_related('patient')`;
the FK is always resolvable in a well-formed database). -/
def patientNameOf (db : DB) (pid : Nat) : String :=
  ((db.patients.find? (fun p => p.id == pid)).map Patient.name).getD ""

/-- Name of the service row with id `sid`. -/
def serviceNameOf (db : DB) (sid : Nat) : String :=
  ((db.services.find? (fun s => s.id == sid)).map Service.name).getD ""

/-- Name of the specialist row with id `sid`. -/
def specialistNameOf (db : DB) (sid : Nat) : String :=
  ((db.specialists.find? (fun s => s.id == sid)).map Specialist.name).getD ""

/-- The conflict filter shared by `check_appointment_conflicts` and
`check_patient_double_booking`: active status, `start_time < end`,
`end_time > start`, and the truthiness-guarded
`if exclude_appointment_id: query.exclude(id=...)`. -/
def applyExclude (l : List Appointment) (excl : Option Nat) : List Appointment :=
  match excl with
  | some i => if i ≠ 0 then l.filter (fun a => a.id ≠ i) else l
  | none => l

/-- The base `conflict_query` of `check_appointment_conflicts`. -/
def conflictQuery (db : DB) (specId : Nat) (startAbs endAbs : Nat) :
    List Appointment :=
  db.appointments.filter (fun a =>
    a.specialistId == specId && statusActive a.status
      && a.startTime.abs < endAbs && a.endTime.abs > startAbs)

/-- The `conflict_desc` string built for each conflicting appointment. -/
def conflictDesc (db : DB) (a : Appointment) : String :=
  "Конфликт с записью: " ++ patientNameOf db a.patientId
    ++ " (" ++ serviceNameOf db a.serviceId ++ ") с "
    ++ fmtHM a.startTime.min ++ " до " ++ fmtHM a.endTime.min

/-- `ConflictValidator.check_appointment_conflicts`:
`(has_conflicts, conflict_descriptions)`. -/
def checkAppointmentConflicts (db : DB) (specId : Nat) (startAbs endAbs : Nat)
    (excl : Option Nat) : Bool × List String :=
  (decide (((applyExclude (conflictQuery db specId startAbs endAbs) excl).map
      (conflictDesc db)).length > 0),
   (applyExclude (conflictQuery db specId startAbs endAbs) excl).map
      (conflictDesc db))

/-- `Patient.objects.filter(phone=patient_phone)`. -/
def patientsWithPhone (db : DB) (phone : String) : List Patient :=
  db.patients.filter (fun p => p.phone == phone)

/-- The base query of `check_patient_double_booking`
(`patient__in=patients`, active status, strict overlap). -/
def doubleBookingQuery (db : DB) (phone : String) (startAbs endAbs : Nat) :
    List Appointment :=
  db.appointments.filter (fun a =>
    (patientsWithPhone db phone).any (fun p => p.id == a.patientId)
      && statusActive a.status && a.startTime.abs < endAbs
      && a.endTime.abs > startAbs)

/-- `ConflictValidator.check_patient_double_booking`. -/
def checkPatientDoubleBooking (db : DB) (phone : String) (startAbs endAbs : Nat)
    (excl : Option Nat) : Bool × String :=
  if (patientsWithPhone db phone).isEmpty then (false, "")
  else
    match applyExclude (doubleBookingQuery db phone startAbs endAbs) excl with
    | [] => (false, "")
    | a :: _ =>
      (true, "У вас уже есть запись на это время: "
        ++ specialistNameOf db a.specialistId
        ++ " (" ++ serviceNameOf db a.serviceId ++ ") с "
        ++ fmtHM a.startTime.min ++ " до " ++ fmtHM a.endTime.min)

/-!  Theorems: claims C1, C2, C3  -/

/-- Everything `slotLoop` returns lies on the 30-minute grid at or after
`cur`, fits before 19:00, and passed the busy check. -/
theorem slotLoop_mem {date : Date} {dur : Nat} {busy : List (Nat × Nat)} :
    ∀ fuel cur s, s ∈ slotLoop date dur busy fuel cur →
      cur ≤ s.startTime.min ∧ s.startTime.min + dur ≤ 1140 ∧
      (s.startTime.min - cur) % 30 = 0 ∧ s.startTime.date = date ∧
      s.endTime = ⟨date, s.startTime.min + dur⟩ ∧
      isSlotBusy s.startTime.abs s.endTime.abs busy = false := by
  intro fuel
  induction fuel with
  | zero => intro cur s hs; simp [slotLoop] at hs
  | succ n ih =>
    intro cur s hs
    simp only [slotLoop] at hs
    split at hs
    · rename_i hguard
      rw [List.mem_append] at hs
      rcases hs with hs | hs
      · split at hs
        · simp at hs
        · rename_i hbusy
          simp only [List.mem_singleton] at hs
          subst hs
          refine ⟨Nat.le_refl _, hguard, by simp, rfl, rfl, ?_⟩
          simpa using hbusy
      · obtain ⟨h1, h2, h3, h4, h5, h6⟩ := ih (cur + 30) s hs
        exact ⟨by omega, h2, by omega, h4, h5, h6⟩
    · simp at hs

/-- **C1, amended.**  Every slot returned by
`InternalCalendar.get_available_slots` starts at or after 09:00, ends by
19:00, sits on the 30-minute candidate grid, and does not strictly overlap
any `pending`/`confirmed` appointment of that specialist *whose start lies
on the requested date* (the busy query filters on `start_time__date`, so
only those appointments are consulted — see the counterexample for why the
date restriction is necessary). -/
theorem c1_available_slots (db : DB) (specId : Nat) (date : Date) (dur : Nat) :
    ∀ s ∈ internalGetAvailableSlots db specId date dur,
      540 ≤ s.startTime.min ∧ s.startTime.min + dur ≤ 1140 ∧
      s.startTime.min % 30 = 0 ∧ s.startTime.date = date ∧
      s.endTime.abs = s.startTime.abs + dur ∧
      ∀ a ∈ db.appointments, a.specialistId = specId →
        a.startTime.date = date →
        (a.status = "pending" ∨ a.status = "confirmed") →
        ¬ (a.startTime.abs < s.endTime.abs ∧ a.endTime.abs > s.startTime.abs) := by
  intro s hs
  obtain ⟨h1, h2, h3, h4, h5, h6⟩ := slotLoop_mem 21 540 s hs
  refine ⟨h1, h2, by omega, h4, ?_, ?_⟩
  · rw [h5]; simp [DT.abs, h4]; ring
  · intro a ha haspec hadate hastat hover
    have hmem : (a.startTime.abs, a.endTime.abs) ∈ getBusySlots db specId date := by
      unfold getBusySlots
      rw [List.mem_map]
      refine ⟨a, ?_, rfl⟩
      rw [List.mem_filter]
      refine ⟨ha, ?_⟩
      simp [haspec, hadate, statusActive]
      rcases hastat with h | h <;> simp [h]
    rw [isSlotBusy, List.any_eq_false] at h6
    have := h6 _ hmem
    simp at this
    omega

/-- The date used in the C1 counterexample (a Wednesday). -/
def dateC1 : Date := ⟨2025, 10, 22⟩

/-- A pending appointment of specialist 1 that starts the *previous*
evening and runs until 18:00 on `dateC1`. -/
def aptC1 : Appointment :=
  ⟨1, 1, 1, 1, ⟨⟨2025, 10, 21⟩, 1380⟩, ⟨⟨2025, 10, 22⟩, 1080⟩, "pending", "web", ""⟩

def dbC1 : DB := ⟨[], [], [], [aptC1], 2⟩

/-- The 09:00–10:00 slot on `dateC1`. -/
def slotC1 : CalSlot := ⟨⟨dateC1, 540⟩, ⟨dateC1, 600⟩, "09:00", "22.10.2025"⟩

/-- **C1, counterexample.**  The busy query of `get_available_slots`
filters on `start_time__date = date`, so a pending appointment of the same
specialist that starts the previous day and extends into the requested day
is ignored: the 09:00 slot is returned although that appointment strictly
overlaps it.  This refutes C1 as stated (which forbids overlap with *any*
pending/confirmed appointment of the specialist). -/
theorem c1_counterexample :
    slotC1 ∈ internalGetAvailableSlots dbC1 1 dateC1 60 ∧
    aptC1 ∈ dbC1.appointments ∧ aptC1.specialistId = 1 ∧
    aptC1.status = "pending" ∧
    aptC1.startTime.abs < slotC1.endTime.abs ∧
    aptC1.endTime.abs > slotC1.startTime.abs := by
  refine ⟨?_, by decide, by decide, by decide, by decide, by decide⟩
  decide

/-- Witness for C1: the amended theorem applied to the returned 09:00 slot
of `dbC1`. -/
theorem c1_witness :
    540 ≤ slotC1.startTime.min ∧ slotC1.startTime.min + 60 ≤ 1140 ∧
    slotC1.startTime.min % 30 = 0 ∧ slotC1.startTime.date = dateC1 ∧
    slotC1.endTime.abs = slotC1.startTime.abs + 60 ∧
    ∀ a ∈ dbC1.appointments, a.specialistId = 1 →
      a.startTime.date = dateC1 →
      (a.status = "pending" ∨ a.status = "confirmed") →
      ¬ (a.startTime.abs < slotC1.endTime.abs ∧
         a.endTime.abs > slotC1.startTime.abs) :=
  c1_available_slots dbC1 1 dateC1 60 slotC1 (by decide)

/-- Membership after the truthiness-guarded `exclude(id=...)`, assuming the
excluded id is a real Django primary key (they start at 1). -/
theorem applyExclude_mem {l : List Appointment} {excl : Option Nat}
    {a : Appointment} (hpos : ∀ i, excl = some i → 0 < i) :
    a ∈ applyExclude l excl ↔ a ∈ l ∧ excl ≠ some a.id := by
  cases excl with
  | none => simp [applyExclude]
  | some i =>
    have hi : 0 < i := hpos i rfl
    have : i ≠ 0 := by omega
    simp only [applyExclude, if_pos this, List.mem_filter, decide_eq_true_eq]
    constructor
    · rintro ⟨hm, hne⟩
      exact ⟨hm, by simpa [eq_comm] using hne⟩
    · rintro ⟨hm, hne⟩
      exact ⟨hm, by simpa [eq_comm] using hne⟩

/-- **C2.**  With a genuine (positive) or absent `exclude_appointment_id`:
`check_appointment_conflicts` reports a conflict exactly when some
non-excluded `pending`/`confirmed` appointment of the same specialist
strictly overlaps the requested interval, and
`check_patient_double_booking` reports one exactly when some non-excluded
active appointment of a patient with the given phone strictly overlaps it.
Touching intervals (`end_time = start` or `start_time = end`) fail the
strict inequalities, hence are never reported. -/
theorem c2_conflict_checks (db : DB) (specId : Nat) (phone : String)
    (startAbs endAbs : Nat) (excl : Option Nat)
    (hpos : ∀ i, excl = some i → 0 < i) :
    ((checkAppointmentConflicts db specId startAbs endAbs excl).1 = true ↔
      ∃ a ∈ db.appointments, a.specialistId = specId ∧
        (a.status = "pending" ∨ a.status = "confirmed") ∧
        a.startTime.abs < endAbs ∧ a.endTime.abs > startAbs ∧
        excl ≠ some a.id) ∧
    ((checkPatientDoubleBooking db phone startAbs endAbs excl).1 = true ↔
      ∃ a ∈ db.appointments,
        (∃ p ∈ db.patients, p.id = a.patientId ∧ p.phone = phone) ∧
        (a.status = "pending" ∨ a.status = "confirmed") ∧
        a.startTime.abs < endAbs ∧ a.endTime.abs > startAbs ∧
        excl ≠ some a.id) := by
  have hmemq : ∀ a : Appointment,
      a ∈ applyExclude (doubleBookingQuery db phone startAbs endAbs) excl ↔
        (a ∈ db.appointments ∧
          (∃ p ∈ db.patients, p.id = a.patientId ∧ p.phone = phone) ∧
          (a.status = "pending" ∨ a.status = "confirmed") ∧
          a.startTime.abs < endAbs ∧ a.endTime.abs > startAbs ∧
          excl ≠ some a.id) := by
    intro a
    rw [applyExclude_mem hpos]
    unfold doubleBookingQuery patientsWithPhone
    rw [List.mem_filter]
    simp only [Bool.and_eq_true, List.any_eq_true, List.mem_filter,
      beq_iff_eq, decide_eq_true_eq, statusActive, Bool.or_eq_true]
    constructor
    · rintro ⟨⟨ha, ⟨⟨⟨p, ⟨hp, hphone⟩, hpid⟩, hstat⟩, hlt⟩, hgt⟩, hne⟩
      exact ⟨ha, ⟨p, hp, hpid, hphone⟩, hstat, hlt, hgt, hne⟩
    · rintro ⟨ha, ⟨p, hp, hpid, hphone⟩, hstat, hlt, hgt, hne⟩
      exact ⟨⟨ha, ⟨⟨⟨p, ⟨hp, hphone⟩, hpid⟩, hstat⟩, hlt⟩, hgt⟩, hne⟩
  have hmemc : ∀ a : Appointment,
      a ∈ applyExclude (conflictQuery db specId startAbs endAbs) excl ↔
        (a ∈ db.appointments ∧ a.specialistId = specId ∧
          (a.status = "pending" ∨ a.status = "confirmed") ∧
          a.startTime.abs < endAbs ∧ a.endTime.abs > startAbs ∧
          excl ≠ some a.id) := by
    intro a
    rw [applyExclude_mem hpos]
    unfold conflictQuery
    rw [List.mem_filter]
    simp only [Bool.and_eq_true, beq_iff_eq, decide_eq_true_eq,
      statusActive, Bool.or_eq_true]
    constructor
    · rintro ⟨⟨ha, ⟨⟨hspec, hstat⟩, hlt⟩, hgt⟩, hne⟩
      exact ⟨ha, hspec, hstat, hlt, hgt, hne⟩
    · rintro ⟨ha, hspec, hstat, hlt, hgt, hne⟩
      exact ⟨⟨ha, ⟨⟨hspec, hstat⟩, hlt⟩, hgt⟩, hne⟩
  constructor
  · unfold checkAppointmentConflicts
    simp only [decide_eq_true_eq, List.length_map]
    have hlen : 0 < (applyExclude (conflictQuery db specId startAbs endAbs) excl).length ↔
        ∃ a, a ∈ applyExclude (conflictQuery db specId startAbs endAbs) excl := by
      cases applyExclude (conflictQuery db specId startAbs endAbs) excl <;> simp
    rw [gt_iff_lt, hlen]
    constructor
    · rintro ⟨a, ha⟩
      obtain ⟨h1, h2, h3, h4, h5, h6⟩ := (hmemc a).mp ha
      exact ⟨a, h1, h2, h3, h4, h5, h6⟩
    · rintro ⟨a, h1, h2, h3, h4, h5, h6⟩
      exact ⟨a, (hmemc a).mpr ⟨h1, h2, h3, h4, h5, h6⟩⟩
  · unfold checkPatientDoubleBooking
    split
    · rename_i hemp
      rw [List.isEmpty_iff] at hemp
      unfold patientsWithPhone at hemp
      rw [List.filter_eq_nil_iff] at hemp
      simp only [Bool.false_eq_true, false_iff]
      rintro ⟨a, -, ⟨p, hp, -, hphone⟩, -⟩
      exact absurd (by simp [hphone]) (hemp p hp)
    · cases hq : applyExclude (doubleBookingQuery db phone startAbs endAbs) excl with
      | nil =>
        show false = true ↔ _
        simp only [Bool.false_eq_true, false_iff]
        rintro ⟨a, ha, hpat, hstat, hlt, hgt, hne⟩
        have hmm : a ∈ applyExclude (doubleBookingQuery db phone startAbs endAbs) excl :=
          (hmemq a).mpr ⟨ha, hpat, hstat, hlt, hgt, hne⟩
        rw [hq] at hmm
        simp at hmm
      | cons b rest =>
        show true = true ↔ _
        simp only [true_iff]
        have hb : b ∈ applyExclude (doubleBookingQuery db phone startAbs endAbs) excl := by
          rw [hq]; exact List.mem_cons_self _ _
        obtain ⟨ha, hpat, hstat, hlt, hgt, hne⟩ := (hmemq b).mp hb
        exact ⟨b, ha, hpat, hstat, hlt, hgt, hne⟩

/-- The pending appointment used in the C2 witness (absolute minutes
2040–2100: 10:00–11:00 on day 1 of year 1). -/
def aptC2 : Appointment :=
  ⟨1, 1, 1, 1, ⟨⟨1, 1, 1⟩, 600⟩, ⟨⟨1, 1, 1⟩, 660⟩, "pending", "web", ""⟩

def patC2 : Patient := ⟨1, "Мария", "0501234567", "Israel", "Иерусалим"⟩

/-- Database for the C2 witness. -/
def dbC2 : DB :=
  ⟨[patC2], [⟨1, "Консультация остеопата", 60⟩], [⟨1, "Екатерина", true⟩],
   [aptC2], 2⟩

/-- Witness for C2: on `dbC2` both conflict checks fire for the interval
2070–2130, which strictly overlaps the stored 2040–2100 appointment. -/
theorem c2_witness :
    (checkAppointmentConflicts dbC2 1 2070 2130 none).1 = true ∧
    (checkPatientDoubleBooking dbC2 "0501234567" 2070 2130 none).1 = true := by
  obtain ⟨h1, h2⟩ :=
    c2_conflict_checks dbC2 1 "0501234567" 2070 2130 none (fun i h => by cases h)
  constructor
  · rw [h1]
    exact ⟨aptC2, by decide, by decide, Or.inl (by decide), by decide, by decide,
      by decide⟩
  · rw [h2]
    exact ⟨aptC2, by decide, ⟨patC2, by decide, by decide, by decide⟩,
      Or.inl (by decide), by decide, by decide, by decide⟩

/-- **C3.**  `DateTimeValidator.validate_date` accepts a date exactly when
it is not before the (country-local) current date, at most 365 days ahead,
not on that country's weekend (Friday/Saturday for IL, Saturday/Sunday
otherwise; Python weekday numbering, Monday = 0), and not in the country's
fixed holiday table. -/
theorem c3_validate_date (country : String) (today d : Date) :
    (validateDate country today d).1 = true ↔
      (today.toOrdinal ≤ d.toOrdinal ∧ d.toOrdinal ≤ today.toOrdinal + 365 ∧
        (if country = "IL" then d.weekday ≠ 4 ∧ d.weekday ≠ 5
         else d.weekday ≠ 5 ∧ d.weekday ≠ 6) ∧
        (d.month, d.day) ∉ fixedHolidays country) := by
  have hhol : ((isHoliday d country).1 = true) ↔
      (d.month, d.day) ∈ fixedHolidays country := by
    unfold isHoliday
    split <;> simp_all
  unfold validateDate
  by_cases h1 : d.toOrdinal < today.toOrdinal
  · rw [if_pos h1]
    simp only [Bool.false_eq_true, false_iff]
    rintro ⟨hle, -, -, -⟩
    omega
  · rw [if_neg h1]
    by_cases h2 : d.toOrdinal > today.toOrdinal + 365
    · rw [if_pos h2]
      simp only [Bool.false_eq_true, false_iff]
      rintro ⟨-, hle, -, -⟩
      omega
    · rw [if_neg h2]
      by_cases h3 : isWeekend d country = true
      · rw [if_pos h3]
        simp only [Bool.false_eq_true, false_iff]
        rintro ⟨-, -, hnw, -⟩
        unfold isWeekend at h3
        by_cases hc : country = "IL" <;> simp [hc] at h3 hnw <;> omega
      · rw [if_neg h3]
        by_cases h4 : (isHoliday d country).1 = true
        · rw [if_pos h4]
          simp only [Bool.false_eq_true, false_iff]
          rintro ⟨-, -, -, hnh⟩
          exact hnh (hhol.mp h4)
        · rw [if_neg h4]
          constructor
          · rintro -
            refine ⟨by omega, by omega, ?_, fun hm => h4 (hhol.mpr hm)⟩
            unfold isWeekend at h3
            by_cases hc : country = "IL" <;> simp [hc] at h3 ⊢ <;> omega
          · rintro -
            rfl

/-!  String and character utilities shared by the entity extractors and
validators.  Regular expressions from the source are compiled by hand into
scanners over `List Char` with Python `re.search` semantics (leftmost
match, greedy quantifiers with the backtracking each pattern actually
needs).  Character classes are modelled over the alphabets the dialogue
actually uses (ASCII, Cyrillic, Hebrew); Python's Unicode classes are
wider, but only on characters these inputs never produce. -/

/-- Python `\s` (ASCII part). -/
def isSpacePy (c : Char) : Bool :=
  c == ' ' || c == '\t' || c == '\n' || c == '\r'
    || c == Char.ofNat 11 || c == Char.ofNat 12

/-- ASCII digit (`\d`). -/
def isDigitC (c : Char) : Bool := '0' ≤ c && c ≤ '9'

/-- Lower-case Cyrillic letter incl. `ё` (the class `[а-яё]`). -/
def isCyrLower (c : Char) : Bool := ('а' ≤ c && c ≤ 'я') || c == 'ё'

/-- Upper-case Cyrillic letter incl. `Ё`. -/
def isCyrUpper (c : Char) : Bool := ('А' ≤ c && c ≤ 'Я') || c == 'Ё'

def isLatLower (c : Char) : Bool := 'a' ≤ c && c ≤ 'z'

def isLatUpper (c : Char) : Bool := 'A' ≤ c && c ≤ 'Z'

/-- Hebrew letter block `֐-׿`. -/
def isHebrewC (c : Char) : Bool := 0x590 ≤ c.toNat && c.toNat ≤ 0x5FF

/-- Python `str.lower()` on the alphabets in use (ASCII + Cyrillic). -/
def toLowerRu (c : Char) : Char :=
  if isLatUpper c then Char.ofNat (c.toNat + 32)
  else if 'А' ≤ c && c ≤ 'Я' then Char.ofNat (c.toNat + 32)
  else if c == 'Ё' then 'ё'
  else c

/-- Python `str.upper()` on the alphabets in use. -/
def toUpperRu (c : Char) : Char :=
  if isLatLower c then Char.ofNat (c.toNat - 32)
  else if 'а' ≤ c && c ≤ 'я' then Char.ofNat (c.toNat - 32)
  else if c == 'ё' then 'Ё'
  else c

/-- A cased letter (drives `str.title()`; Hebrew letters are uncased). -/
def isCasedC (c : Char) : Bool :=
  isLatLower c || isLatUpper c || isCyrLower c || isCyrUpper c

def lowerL (l : List Char) : List Char := l.map toLowerRu

def lowerS (s : String) : String := String.mk (lowerL s.data)

/-- Python `str.title()`: upper-case every cased letter that follows a
non-cased character, lower-case the rest. -/
def titleL : List Char → Bool → List Char
  | [], _ => []
  | c :: t, prevCased =>
    (if isCasedC c then (if prevCased then toLowerRu c else toUpperRu c) else c)
      :: titleL t (isCasedC c)

def titleS (s : String) : String := String.mk (titleL s.data false)

/-- Python `str.strip()`. -/
def stripL (l : List Char) : List Char :=
  ((l.dropWhile isSpacePy).reverse.dropWhile isSpacePy).reverse

def stripS (s : String) : String := String.mk (stripL s.data)

/-- `needle` is a prefix of `hay` (character-wise). -/
def isPrefixC : List Char → List Char → Bool
  | [], _ => true
  | _ :: _, [] => false
  | a :: as, b :: bs => a == b && isPrefixC as bs

/-- Python `needle in hay` (substring containment). -/
def containsSub (needle : List Char) : List Char → Bool
  | [] => isPrefixC needle []
  | c :: t => isPrefixC needle (c :: t) || containsSub needle t

/-- Substring containment on `String` (Python `sub in s`). -/
def strContains (s sub : String) : Bool := containsSub sub.data s.data

/-- The remainder of `hay` after the first occurrence of `needle`
(`none` when absent). -/
def dropAfterFirst (needle : List Char) : List Char → Option (List Char)
  | [] => if isPrefixC needle [] then some [] else none
  | c :: t =>
    if isPrefixC needle (c :: t) then some ((c :: t).drop needle.length)
    else dropAfterFirst needle t

/-- Accumulator pass behind `splitWsL`. -/
def splitWsAux : List Char → List Char → List (List Char)
  | [], acc => if acc.isEmpty then [] else [acc.reverse]
  | c :: t, acc =>
    if isSpacePy c then
      (if acc.isEmpty then splitWsAux t [] else acc.reverse :: splitWsAux t [])
    else splitWsAux t (c :: acc)

/-- Python `str.split()` (split on whitespace runs, dropping empties). -/
def splitWsL (l : List Char) : List (List Char) := splitWsAux l []

/-- Digits → the number they denote in base 10. -/
def digitsToNat (l : List Char) : Nat :=
  l.foldl (fun acc c => acc * 10 + (c.toNat - '0'.toNat)) 0

/-- Generic `re.search` driver: try the position matcher at every suffix,
leftmost first. -/
def searchWith (m : List Char → Option (List Char)) : List Char → Option (List Char)
  | [] => m []
  | c :: t =>
    match m (c :: t) with
    | some r => some r
    | none => searchWith m t

/-!  `core/lite_secretary.py` — `LiteEntityExtractor`  -/

/-- The class `[0-9\s\-]` of the phone patterns. -/
def isPhoneRunC (c : Char) : Bool := isDigitC c || isSpacePy c || c == '-'

/-- `re.sub(r'[^\d\+\-\s]', '', text)` in `extract_phone`. -/
def cleanPhoneText (l : List Char) : List Char :=
  l.filter (fun c => isDigitC c || c == '+' || c == '-' || isSpacePy c)

/-- Position matcher for `\+?972[0-9\s\-]{8,12}` (greedy run, nothing
follows, so the run takes at most 12 and needs at least 8). -/
def matchIsraelIntlAt (l : List Char) : Option (List Char) :=
  match l with
  | '+' :: '9' :: '7' :: '2' :: rest =>
    if 8 ≤ (rest.takeWhile isPhoneRunC).length then
      some ('+' :: '9' :: '7' :: '2' :: (rest.takeWhile isPhoneRunC).take 12)
    else none
  | '9' :: '7' :: '2' :: rest =>
    if 8 ≤ (rest.takeWhile isPhoneRunC).length then
      some ('9' :: '7' :: '2' :: (rest.takeWhile isPhoneRunC).take 12)
    else none
  | _ => none

/-- Position matcher for `0[5-9][0-9\s\-]{8}`. -/
def matchIsraelLocalAt (l : List Char) : Option (List Char) :=
  match l with
  | '0' :: c :: rest =>
    if '5' ≤ c ∧ c ≤ '9' ∧ (rest.take 8).length = 8 ∧ (rest.take 8).all isPhoneRunC
    then some ('0' :: c :: rest.take 8) else none
  | _ => none

/-- Position matcher for `\+?[0-9\s\-]{9,15}`. -/
def matchGenericPhoneAt (l : List Char) : Option (List Char) :=
  match l with
  | '+' :: rest =>
    if 9 ≤ (rest.takeWhile isPhoneRunC).length then
      some ('+' :: (rest.takeWhile isPhoneRunC).take 15)
    else none
  | l2 =>
    if 9 ≤ (l2.takeWhile isPhoneRunC).length then
      some ((l2.takeWhile isPhoneRunC).take 15)
    else none

/-- `re.sub(r'[\s\-]', '', match.group())`. -/
def stripSpaceDash (l : List Char) : List Char :=
  l.filter (fun c => !(isSpacePy c || c == '-'))

/-- One `for`-iteration of `extract_phone`: search the pattern, strip
separators, keep the result only if its length is 9–15. -/
def phoneAttempt (m : List Char → Option (List Char)) (clean : List Char) :
    Option String :=
  match searchWith m clean with
  | some g =>
    if 9 ≤ (stripSpaceDash g).length ∧ (stripSpaceDash g).length ≤ 15 then
      some (String.mk (stripSpaceDash g))
    else none
  | none => none

/-- `LiteEntityExtractor.extract_phone`. -/
def extractPhone (text : String) : Option String :=
  match phoneAttempt matchIsraelIntlAt (cleanPhoneText text.data) with
  | some p => some p
  | none =>
    match phoneAttempt matchIsraelLocalAt (cleanPhoneText text.data) with
    | some p => some p
    | none => phoneAttempt matchGenericPhoneAt (cleanPhoneText text.data)

/-- Position matcher for `(\d{1,2}):(\d{2})` and the `в/на/к`-prefixed
variants: greedy 1–2 digit hour, separator, exactly two digit minutes.
`sep` generalises over the optional surrounding whitespace of pattern 2. -/
def matchHourColonMinAt (allowWs : Bool) (l : List Char) : Option (String × String) :=
  let afterHour := fun (hour : List Char) (rest : List Char) =>
    let rest2 := if allowWs then rest.dropWhile isSpacePy else rest
    match rest2 with
    | ':' :: r2 =>
      let r3 := if allowWs then r2.dropWhile isSpacePy else r2
      match r3 with
      | m1 :: m2 :: _ =>
        if isDigitC m1 && isDigitC m2 then some (String.mk hour, String.mk [m1, m2])
        else none
      | _ => none
    | _ => none
  match l with
  | a :: b :: rest =>
    if isDigitC a && isDigitC b then
      match afterHour [a, b] rest with
      | some r => some r
      | none => if isDigitC a then afterHour [a] (b :: rest) else none
    else if isDigitC a then afterHour [a] (b :: rest)
    else none
  | [a] => if isDigitC a then afterHour [a] [] else none
  | [] => none

/-- `re.search` over every position for `matchHourColonMinAt`. -/
def searchHourColonMin (allowWs : Bool) : List Char → Option (String × String)
  | [] => none
  | c :: t =>
    match matchHourColonMinAt allowWs (c :: t) with
    | some r => some r
    | none => searchHourColonMin allowWs t

/-- Position matcher for `lit\s+(\d{1,2}):(\d{2})` (patterns 3–5 of
`extract_time`), case-insensitive literal. -/
def matchLitTimeAt (lit : List Char) (l : List Char) : Option (String × String) :=
  if isPrefixC lit (l.map toLowerRu) then
    let rest := l.drop lit.length
    let ws := rest.takeWhile isSpacePy
    if ws.isEmpty then none
    else matchHourColonMinAt false (rest.drop ws.length)
  else none

def searchLitTime (lit : List Char) : List Char → Option (String × String)
  | [] => none
  | c :: t =>
    match matchLitTimeAt lit (c :: t) with
    | some r => some r
    | none => searchLitTime lit t

/-- Anchored matcher for `^(\d{1,2})\s*ч` / `^(\d{1,2})\s+час`
(`needWs` selects `\s+` over `\s*`). -/
def matchHourWordStart (needWs : Bool) (lit : List Char) (l : List Char) :
    Option String :=
  let tryHour := fun (hour : List Char) (rest : List Char) =>
    let ws := rest.takeWhile isSpacePy
    if needWs && ws.isEmpty then none
    else if isPrefixC lit ((rest.drop ws.length).map toLowerRu) then
      some (String.mk hour)
    else none
  match l with
  | a :: b :: rest =>
    if isDigitC a && isDigitC b then
      match tryHour [a, b] rest with
      | some r => some r
      | none => tryHour [a] (b :: rest)
    else if isDigitC a then tryHour [a] (b :: rest)
    else none
  | [a] => if isDigitC a then tryHour [a] [] else none
  | [] => none

/-- `LiteEntityExtractor.extract_time`: the seven patterns in source
order; two-group patterns yield `f"{int(hour)}:{minute}"`, one-group
patterns yield `f"{int(hour)}:00"`. -/
def extractTime (text : String) : Option String :=
  let tc := stripL text.data
  let render2 := fun (r : String × String) =>
    toString (digitsToNat r.1.data) ++ ":" ++ r.2
  match searchHourColonMin false tc with
  | some r => some (render2 r)
  | none =>
  match searchHourColonMin true tc with
  | some r => some (render2 r)
  | none =>
  match searchLitTime "в".data tc with
  | some r => some (render2 r)
  | none =>
  match searchLitTime "на".data tc with
  | some r => some (render2 r)
  | none =>
  match searchLitTime "к".data tc with
  | some r => some (render2 r)
  | none =>
  match matchHourWordStart false "ч".data tc with
  | some h => some (toString (digitsToNat h.data) ++ ":00")
  | none =>
  match matchHourWordStart true "час".data tc with
  | some h => some (toString (digitsToNat h.data) ++ ":00")
  | none => none

/-- Position matcher for the ISO pattern `(\d{4})-(\d{2})-(\d{2})`
(`group(0)` is returned). -/
def matchIsoDateAt (l : List Char) : Option String :=
  match l with
  | y1 :: y2 :: y3 :: y4 :: '-' :: m1 :: m2 :: '-' :: d1 :: d2 :: _ =>
    if [y1, y2, y3, y4, m1, m2, d1, d2].all isDigitC then
      some (String.mk [y1, y2, y3, y4, '-', m1, m2, '-', d1, d2])
    else none
  | _ => none

def searchIsoDate : List Char → Option String
  | [] => none
  | c :: t =>
    match matchIsoDateAt (c :: t) with
    | some r => some r
    | none => searchIsoDate t

/-- Position matcher for `(\d{1,2})\.(\d{1,2})` → `f"{day}.{month}"`. -/
def matchDayDotMonthAt (l : List Char) : Option String :=
  let afterDay := fun (day : List Char) (rest : List Char) =>
    match rest with
    | '.' :: r2 =>
      match r2 with
      | a :: b :: _ =>
        if isDigitC a && isDigitC b then some (String.mk day ++ "." ++ String.mk [a, b])
        else if isDigitC a then some (String.mk day ++ "." ++ String.mk [a])
        else none
      | [a] => if isDigitC a then some (String.mk day ++ "." ++ String.mk [a]) else none
      | [] => none
    | _ => none
  match l with
  | a :: b :: rest =>
    if isDigitC a && isDigitC b then
      match afterDay [a, b] rest with
      | some r => some r
      | none => if isDigitC a then afterDay [a] (b :: rest) else none
    else if isDigitC a then afterDay [a] (b :: rest)
    else none
  | _ => none

def searchDayDotMonth : List Char → Option String
  | [] => none
  | c :: t =>
    match matchDayDotMonthAt (c :: t) with
    | some r => some r
    | none => searchDayDotMonth t

/-- Week-day words of `extract_date`, with Python weekday numbers. -/
def weekdayWords : List (String × Nat) :=
  [("понедельник", 0), ("вторник", 1), ("среду", 2), ("четверг", 3),
   ("пятницу", 4), ("субботу", 5), ("воскресенье", 6)]

/-- `days_ahead` logic shared by the extractors: the next strictly future
occurrence of `weekday`. -/
def daysUntilWeekday (today : Date) (weekday : Nat) : Nat :=
  if weekday ≤ today.weekday then weekday + 7 - today.weekday
  else weekday - today.weekday

/-- `LiteEntityExtractor.extract_date` (needs `today` because the source
reads `timezone.now().date()`).  Exact formats are tried before relative
words; note that the word `послезавтра` contains `завтра`, and the
source's dict iteration checks `завтра` first. -/
def extractDate (today : Date) (text : String) : Option String :=
  let tl := stripL (lowerL text.data)
  match searchIsoDate text.data with
  | some iso => some iso
  | none =>
  match searchDayDotMonth text.data with
  | some dm => some dm
  | none =>
  if containsSub "сегодня".data tl then some today.fmtYMD
  else if containsSub "завтра".data tl then some (today.addDays 1).fmtYMD
  else if containsSub "послезавтра".data tl then some (today.addDays 2).fmtYMD
  else
    match weekdayWords.find? (fun w => containsSub w.1.data tl) with
    | some w => some ((today.addDays (daysUntilWeekday today w.2)).fmtYMD)
    | none => none

/-- The `services` keyword table of `extract_service`, in source order. -/
def servicesCatalog : List (String × List String) :=
  [("Лечебный массаж (женщины) - классический шведский",
    ["массаж для женщин", "женский массаж", "массаж женщинам"]),
   ("Лечебный массаж (мужчины) - классический шведский",
    ["массаж для мужчин", "мужской массаж", "массаж мужчинам"]),
   ("Лечебный массаж (мужчины) - спортивный",
    ["спортивный массаж", "массаж спортивный"]),
   ("Лечебный массаж (мужчины) - лечебный",
    ["лечебный массаж", "массаж лечебный"]),
   ("Детский массаж", ["детский массаж", "массаж детям", "массаж ребенку"]),
   ("Массаж для грудных детей",
    ["массаж грудничкам", "массаж младенцам", "массаж грудным"]),
   ("Массаж для беременных",
    ["массаж беременным", "беременным массаж", "для беременных"]),
   ("Консультация остеопата",
    ["остеопат", "кости", "суставы", "позвоночник", "остео", "к остеопату"]),
   ("Консультация реабилитолога",
    ["реабилитация", "восстановление", "травма", "реабилитолог", "к реабилитологу"]),
   ("Консультация нутрициолога",
    ["питание", "диета", "вес", "нутрициолог", "к нутрициологу"]),
   ("Диагностика биорезонансным сканированием (базовая)",
    ["диагностика базовая", "базовая диагностика", "сканирование базовое"]),
   ("Диагностика биорезонансным сканированием (расширенная)",
    ["диагностика расширенная", "расширенная диагностика", "сканирование расширенное"]),
   ("Диагностика биорезонансным сканированием (VIP)",
    ["диагностика vip", "vip диагностика", "сканирование vip"]),
   ("Кинезиотейпирование", ["кинезио", "тейпирование", "тейпы", "кинезиотейп"]),
   ("Подбор и демонстрация комплекса упражнений",
    ["упражнения", "комплекс", "гимнастика", "лфк"])]

/-- `LiteEntityExtractor.extract_service`: full names first, then the
keyword lists, both in source order. -/
def extractService (text : String) : Option String :=
  let tl := lowerL text.data
  match servicesCatalog.find? (fun p => containsSub (lowerL p.1.data) tl) with
  | some p => some p.1
  | none =>
    match servicesCatalog.find?
        (fun p => p.2.any (fun k => containsSub k.data tl)) with
    | some p => some p.1
    | none => none

/-- The direct-name table of `extract_specialist`, in source order. -/
def specialistsTable : List (String × String) :=
  [("авраам", "Авраам"), ("екатерина", "Екатерина"), ("римма", "Римма"),
   ("аврааму", "Авраам"), ("екатерине", "Екатерина"), ("римме", "Римма")]

/-- Position matcher for `lit\s+([а-яё]+)` (patterns `к …`, `у …`). -/
def matchLitThenCyrAt (lit : List Char) (l : List Char) : Option (List Char) :=
  if isPrefixC lit l then
    let rest := l.drop lit.length
    let ws := rest.takeWhile isSpacePy
    if ws.isEmpty then none
    else
      let run := (rest.drop ws.length).takeWhile isCyrLower
      if run.isEmpty then none else some run
  else none

def searchLitThenCyr (lit : List Char) : List Char → Option (List Char)
  | [] => none
  | c :: t =>
    match matchLitThenCyrAt lit (c :: t) with
    | some r => some r
    | none => searchLitThenCyr lit t

/-- Position matcher for `([а-яё]+)\s+lit` (patterns `… специалист` etc.):
the greedy Cyrillic run, whitespace, then the literal. -/
def matchCyrThenLitAt (lit : List Char) (l : List Char) : Option (List Char) :=
  let run := l.takeWhile isCyrLower
  if run.isEmpty then none
  else
    let rest := l.drop run.length
    let ws := rest.takeWhile isSpacePy
    if ws.isEmpty then none
    else if isPrefixC lit (rest.drop ws.length) then some run else none

def searchCyrThenLit (lit : List Char) : List Char → Option (List Char)
  | [] => none
  | c :: t =>
    match matchCyrThenLitAt lit (c :: t) with
    | some r => some r
    | none => searchCyrThenLit lit t

/-- The five regex patterns of `extract_specialist`, in source order. -/
def specialistPatternSearch (tl : List Char) : Option (List Char) :=
  match searchLitThenCyr "к".data tl with
  | some r => some r
  | none =>
  match searchLitThenCyr "у".data tl with
  | some r => some r
  | none =>
  match searchCyrThenLit "специалист".data tl with
  | some r => some r
  | none =>
  match searchCyrThenLit "врач".data tl with
  | some r => some r
  | none => searchCyrThenLit "доктор".data tl

/-- `LiteEntityExtractor.extract_specialist`. -/
def extractSpecialist (text : String) : Option String :=
  let tl := stripL (lowerL text.data)
  match specialistsTable.find? (fun p => containsSub p.1.data tl) with
  | some p => some p.2
  | none =>
    match specialistPatternSearch tl with
    | some run =>
      let nm := String.mk (stripL run)
      if nm = "специалист" ∨ nm = "врач" ∨ nm = "доктор" ∨ nm = "к" ∨ nm = "у"
      then none
      else
        match specialistsTable.find? (fun p => p.1 == nm) with
        | some p => some p.2
        | none => some (titleS nm)
    | none => none

/-!  `LiteEntityExtractor.extract_name`.  The five patterns carry
`re.IGNORECASE`; since every candidate is passed through
`.strip().title()` and all filters compare lower-cased text, matching on
the lower-cased input yields the same final results, so the scanners below
run on the lower-cased text. -/

/-- The class `[а-яёa-z]` (on lower-cased text). -/
def isNameLetter (c : Char) : Bool := isCyrLower c || isLatLower c

/-- The class `[а-яёa-z\s]` of the capture groups. -/
def isNameGroupC (c : Char) : Bool := isNameLetter c || isSpacePy c

/-- Position matcher for `lit\s+([а-яёa-z\s]+)` (patterns 1–2): the group
class contains `\s`, so after the literal the greedy `\s+` keeps the
maximal whitespace prefix of the letters-and-spaces run unless the group
would be empty, in which case it backtracks by one character. -/
def matchLitNameAt (lit : List Char) (l : List Char) : Option (List Char) :=
  if isPrefixC lit l then
    let rest := l.drop lit.length
    let run := rest.takeWhile isNameGroupC
    let p := (run.takeWhile isSpacePy).length
    if p = 0 then none
    else if p < run.length then some (run.drop p)
    else if 2 ≤ p then some (run.drop (p - 1))
    else none
  else none

def searchLitName (lit : List Char) : List Char → Option (List Char)
  | [] => none
  | c :: t =>
    match matchLitNameAt lit (c :: t) with
    | some r => some r
    | none => searchLitName lit t

/-- `\s*` followed by a literal: only the full whitespace strip can
precede a non-whitespace literal. -/
def wsStarThenLit (lit : List Char) (l : List Char) : Option (List Char) :=
  let rest := l.dropWhile isSpacePy
  if isPrefixC lit rest then some (rest.drop lit.length) else none

/-- `\s+` followed by a literal. -/
def wsPlusThenLit (lit : List Char) (l : List Char) : Option (List Char) :=
  if (l.takeWhile isSpacePy).isEmpty then none else wsStarThenLit lit l

/-- Backtracking loop for pattern 3,
`^([а-яёa-z][а-яёa-z\s]{1,30})\s*мое\s+имя`: group lengths are tried
greedily from `n + 1` characters downward. -/
def nameP3Try (l : List Char) : Nat → Option (List Char)
  | 0 => none
  | n + 1 =>
    let grp := l.take (n + 2)
    if grp.length = n + 2 ∧ grp.all isNameGroupC then
      match wsStarThenLit "мое".data (l.drop (n + 2)) with
      | some rest =>
        match wsPlusThenLit "имя".data rest with
        | some _ => some grp
        | none => nameP3Try l n
      | none => nameP3Try l n
    else nameP3Try l n

/-- Pattern 3 (anchored at the start of the text). -/
def matchNameP3 (l : List Char) : Option (List Char) :=
  match l with
  | c :: _ => if isNameLetter c then nameP3Try l 30 else none
  | [] => none

/-- Pattern 4, `^([а-яёa-z]+\s+[а-яёa-z]+)$`: exactly two letter words
separated by whitespace. -/
def matchNameP4 (l : List Char) : Option (List Char) :=
  let run1 := l.takeWhile isNameLetter
  if run1.isEmpty then none
  else
    let rest := l.drop run1.length
    let ws := rest.takeWhile isSpacePy
    if ws.isEmpty then none
    else
      let rest2 := rest.drop ws.length
      let run2 := rest2.takeWhile isNameLetter
      if run2.isEmpty then none
      else if (rest2.drop run2.length).isEmpty then some (run1 ++ ws ++ run2)
      else none

/-- Pattern 5, `^([а-яёa-z0-9]{2,20})$`. -/
def matchNameP5 (l : List Char) : Option (List Char) :=
  if 2 ≤ l.length ∧ l.length ≤ 20 ∧ l.all (fun c => isNameLetter c || isDigitC c)
  then some l else none

/-- The `exclude_phrases` list of `extract_name`, in source order. -/
def nameExcludePhrases : List String :=
  ["да", "нет", "хорошо", "ладно", "привет", "спасибо",
   "уже говорил", "уже сказал", "свое имя", "тебе говорил",
   "я же", "не помню", "забыл", "повторяю",
   "на массаж", "на прием", "на сканирование", "на диагностику",
   "на консультацию", "консультацию",
   "к аврааму", "к марии", "у авраама", "у марии",
   "массаж", "сканирование", "диагностика", "лечение",
   "консультация", "консультацию",
   "нутрициолога", "остеопата", "реабилитолога",
   "массажиста", "врача", "доктора", "специалиста",
   "авраам", "екатерина", "римма",
   "аврааму", "екатерине", "римме",
   "завтра", "сегодня", "послезавтра",
   "понедельник", "вторник", "среда", "четверг", "пятница", "суббота",
   "воскресенье",
   "массаж детский", "массаж грудным", "массаж беременным", "массаж после",
   "консультация остеопата", "консультация реабилитолога",
   "консультация нутрициолога",
   "диагностика организма", "кинезиотейпирование", "тейпирование",
   "подбор комплекса", "упражнений", "комплекса", "подбор",
   "лечебный массаж", "классический", "шведский", "биорезонансным"]

/-- The filter applied to each candidate name: `len >= 2`, not excluded
(exact match for multi-word names, substring match for single words),
at most three words. -/
def nameCandidateOk (name : String) : Bool :=
  let nameLower := lowerL name.data
  let words := splitWsL name.data
  let isExcluded :=
    if 2 ≤ words.length then
      nameExcludePhrases.any (fun ph => ph.data == nameLower)
    else
      nameExcludePhrases.any (fun ph => containsSub ph.data nameLower)
  2 ≤ name.data.length && !isExcluded && words.length ≤ 3

/-- One pattern attempt of `extract_name`: build
`match.group(1).strip().title()` and filter it. -/
def nameAttempt (g : Option (List Char)) : Option String :=
  match g with
  | some grp =>
    let name := String.mk (titleL (stripL grp) false)
    if nameCandidateOk name then some name else none
  | none => none

/-- `LiteEntityExtractor.extract_name`: the five patterns in source order;
a pattern that matches but fails the filter falls through to the next
pattern. -/
def extractName (text : String) : Option String :=
  let tc := stripL (lowerL text.data)
  match nameAttempt (searchLitName "меня зовут".data tc) with
  | some n => some n
  | none =>
  match nameAttempt (searchLitName "имя".data tc) with
  | some n => some n
  | none =>
  match nameAttempt (matchNameP3 tc) with
  | some n => some n
  | none =>
  match nameAttempt (matchNameP4 tc) with
  | some n => some n
  | none => nameAttempt (matchNameP5 tc)

/-!  `core/lite_secretary.py` — `LiteSessionManager`.  The module-level
`_global_sessions` dict is modelled as an explicit association list
threaded through every operation (Python dict: insertion order, in-place
value replacement). -/

structure HistEntry where
  role : String
  message : String
  timestamp : DT
deriving DecidableEq, Repr

/-- The `entities` dict of a session.  `appointmentId` models the
`appointment_id` key that `create_appointment` adds on success. -/
structure Entities where
  name : Option String
  phone : Option String
  service : Option String
  specialist : Option String
  date : Option String
  time : Option String
  appointmentId : Option Nat
deriving DecidableEq, Repr

def emptyEntities : Entities := ⟨none, none, none, none, none, none, none⟩

structure Session where
  state : String
  entities : Entities
  history : List HistEntry
  createdAt : DT
  lastUpdate : DT
deriving DecidableEq, Repr

abbrev Store := List (String × Session)

def lookupSession (st : Store) (sid : String) : Option Session :=
  (st.find? (fun p => p.1 == sid)).map Prod.snd

/-- `self.sessions[session_id] = s` (replace in place or append). -/
def storeSet : Store → String → Session → Store
  | [], sid, s => [(sid, s)]
  | (k, v) :: t, sid, s =>
    if k == sid then (k, s) :: t else (k, v) :: storeSet t sid s

/-- The fresh session dict `get_session` creates
(state `GREETING`, empty entities, empty history). -/
def defaultSession (now : DT) : Session :=
  ⟨"greeting", emptyEntities, [], now, now⟩

/-- `LiteSessionManager.get_session`: create-if-absent, then return the
stored record. -/
def getSession (st : Store) (sid : String) (now : DT) : Session × Store :=
  match lookupSession st sid with
  | some s => (s, st)
  | none => (defaultSession now, storeSet st sid (defaultSession now))

/-- Python truthiness of an entity value (`None` and `""` are unset). -/
def truthy : Option String → Bool
  | some s => !(s == "")
  | none => false

/-- One field step of `update_entities`: extract only when the field is
still unset, fill only a truthy extraction result. -/
def fillName (msg : String) (p : Entities × List (String × String)) :
    Entities × List (String × String) :=
  if truthy p.1.name then p
  else match extractName msg with
    | some v =>
      if v = "" then p
      else ({ p.1 with name := some v }, p.2 ++ [("name", v)])
    | none => p

def fillPhone (msg : String) (p : Entities × List (String × String)) :
    Entities × List (String × String) :=
  if truthy p.1.phone then p
  else match extractPhone msg with
    | some v =>
      if v = "" then p
      else ({ p.1 with phone := some v }, p.2 ++ [("phone", v)])
    | none => p

def fillService (msg : String) (p : Entities × List (String × String)) :
    Entities × List (String × String) :=
  if truthy p.1.service then p
  else match extractService msg with
    | some v =>
      if v = "" then p
      else ({ p.1 with service := some v }, p.2 ++ [("service", v)])
    | none => p

def fillSpecialist (msg : String) (p : Entities × List (String × String)) :
    Entities × List (String × String) :=
  if truthy p.1.specialist then p
  else match extractSpecialist msg with
    | some v =>
      if v = "" then p
      else ({ p.1 with specialist := some v }, p.2 ++ [("specialist", v)])
    | none => p

def fillDate (today : Date) (msg : String) (p : Entities × List (String × String)) :
    Entities × List (String × String) :=
  if truthy p.1.date then p
  else match extractDate today msg with
    | some v =>
      if v = "" then p
      else ({ p.1 with date := some v }, p.2 ++ [("date", v)])
    | none => p

def fillTime (msg : String) (p : Entities × List (String × String)) :
    Entities × List (String × String) :=
  if truthy p.1.time then p
  else match extractTime msg with
    | some v =>
      if v = "" then p
      else ({ p.1 with time := some v }, p.2 ++ [("time", v)])
    | none => p

/-- The extraction pass of `LiteSessionManager.update_entities`, in source
order (name, phone, service, specialist, date, time); returns the updated
entities and the `extracted` dict. -/
def updateEntitiesPure (today : Date) (e : Entities) (msg : String) :
    Entities × List (String × String) :=
  fillTime msg (fillDate today msg
    (fillSpecialist msg (fillService msg (fillPhone msg (fillName msg (e, []))))))

/-- `LiteSessionManager.update_entities` on the store (also refreshes
`last_update`). -/
def updateEntitiesStore (st : Store) (sid : String) (msg : String)
    (today : Date) (now : DT) : List (String × String) × Store :=
  ((updateEntitiesPure today (getSession st sid now).1.entities msg).2,
   storeSet (getSession st sid now).2 sid
     { (getSession st sid now).1 with
         entities := (updateEntitiesPure today (getSession st sid now).1.entities msg).1,
         lastUpdate := now })

def requiredOrder : List String :=
  ["service", "specialist", "name", "phone", "date", "time"]

/-- `entities.get(field)`. -/
def entityGet (e : Entities) (f : String) : Option String :=
  if f = "service" then e.service
  else if f = "specialist" then e.specialist
  else if f = "name" then e.name
  else if f = "phone" then e.phone
  else if f = "date" then e.date
  else if f = "time" then e.time
  else none

/-- `LiteSessionManager.get_next_required_field` (entity level). -/
def getNextRequiredField (e : Entities) : Option String :=
  requiredOrder.find? (fun f => !truthy (entityGet e f))

/-- `[-10:]` trimming of `add_to_history`. -/
def pushHistory (h : List HistEntry) (entry : HistEntry) : List HistEntry :=
  if (h ++ [entry]).length > 10 then
    (h ++ [entry]).drop ((h ++ [entry]).length - 10)
  else h ++ [entry]

/-- `LiteSessionManager.add_to_history` on the store. -/
def addToHistory (st : Store) (sid role msg : String) (now : DT) : Store :=
  storeSet (getSession st sid now).2 sid
    { (getSession st sid now).1 with
        history := pushHistory (getSession st sid now).1.history
          ⟨role, msg, now⟩ }

def progressRequired : List String := ["service", "name", "phone", "date", "time"]

/-- `LiteSessionManager.get_progress` (entity level): filled fields among
service, name, phone, date, time over 5, as an exact rational (the Python
float arithmetic `k/5` is exact for `k = 0 … 5` in the properties stated
here). -/
def getProgress (e : Entities) : ℚ :=
  ((progressRequired.filter (fun f => truthy (entityGet e f))).length : ℚ) / 5

/-!  Theorems: claims C6, C7, C9, C10  -/

/-- `fill_name` either leaves the record untouched or sets the (previously
unset) name field. -/
theorem fillName_cases (msg : String) (p : Entities × List (String × String)) :
    (fillName msg p).1 = p.1 ∨
    (truthy p.1.name = false ∧
      ∃ v, (fillName msg p).1 = { p.1 with name := some v }) := by
  unfold fillName
  split
  · exact Or.inl rfl
  · rename_i h
    split
    · rename_i v hveq
      split
      · exact Or.inl rfl
      · exact Or.inr ⟨by simpa using h, v, rfl⟩
    · exact Or.inl rfl

theorem fillPhone_cases (msg : String) (p : Entities × List (String × String)) :
    (fillPhone msg p).1 = p.1 ∨
    (truthy p.1.phone = false ∧
      ∃ v, (fillPhone msg p).1 = { p.1 with phone := some v }) := by
  unfold fillPhone
  split
  · exact Or.inl rfl
  · rename_i h
    split
    · rename_i v hveq
      split
      · exact Or.inl rfl
      · exact Or.inr ⟨by simpa using h, v, rfl⟩
    · exact Or.inl rfl

theorem fillService_cases (msg : String) (p : Entities × List (String × String)) :
    (fillService msg p).1 = p.1 ∨
    (truthy p.1.service = false ∧
      ∃ v, (fillService msg p).1 = { p.1 with service := some v }) := by
  unfold fillService
  split
  · exact Or.inl rfl
  · rename_i h
    split
    · rename_i v hveq
      split
      · exact Or.inl rfl
      · exact Or.inr ⟨by simpa using h, v, rfl⟩
    · exact Or.inl rfl

theorem fillSpecialist_cases (msg : String) (p : Entities × List (String × String)) :
    (fillSpecialist msg p).1 = p.1 ∨
    (truthy p.1.specialist = false ∧
      ∃ v, (fillSpecialist msg p).1 = { p.1 with specialist := some v }) := by
  unfold fillSpecialist
  split
  · exact Or.inl rfl
  · rename_i h
    split
    · rename_i v hveq
      split
      · exact Or.inl rfl
      · exact Or.inr ⟨by simpa using h, v, rfl⟩
    · exact Or.inl rfl

theorem fillDate_cases (today : Date) (msg : String)
    (p : Entities × List (String × String)) :
    (fillDate today msg p).1 = p.1 ∨
    (truthy p.1.date = false ∧
      ∃ v, (fillDate today msg p).1 = { p.1 with date := some v }) := by
  unfold fillDate
  split
  · exact Or.inl rfl
  · rename_i h
    split
    · rename_i v hveq
      split
      · exact Or.inl rfl
      · exact Or.inr ⟨by simpa using h, v, rfl⟩
    · exact Or.inl rfl

theorem fillTime_cases (msg : String) (p : Entities × List (String × String)) :
    (fillTime msg p).1 = p.1 ∨
    (truthy p.1.time = false ∧
      ∃ v, (fillTime msg p).1 = { p.1 with time := some v }) := by
  unfold fillTime
  split
  · exact Or.inl rfl
  · rename_i h
    split
    · rename_i v hveq
      split
      · exact Or.inl rfl
      · exact Or.inr ⟨by simpa using h, v, rfl⟩
    · exact Or.inl rfl

/-- **C6.**  `get_next_required_field` walks the fixed order
service → specialist → name → phone → date → time and returns the first
unset field (`None` exactly when all six are set); the extraction pass of
`update_entities` never overwrites a field that is already set. -/
theorem c6_field_order (e : Entities) (today : Date) (msg : String) :
    (getNextRequiredField e =
      (if truthy e.service = false then some "service"
       else if truthy e.specialist = false then some "specialist"
       else if truthy e.name = false then some "name"
       else if truthy e.phone = false then some "phone"
       else if truthy e.date = false then some "date"
       else if truthy e.time = false then some "time"
       else none)) ∧
    (getNextRequiredField e = none ↔
      truthy e.service = true ∧ truthy e.specialist = true ∧
      truthy e.name = true ∧ truthy e.phone = true ∧
      truthy e.date = true ∧ truthy e.time = true) ∧
    (truthy e.service = true →
      ((updateEntitiesPure today e msg).1).service = e.service) ∧
    (truthy e.specialist = true →
      ((updateEntitiesPure today e msg).1).specialist = e.specialist) ∧
    (truthy e.name = true → ((updateEntitiesPure today e msg).1).name = e.name) ∧
    (truthy e.phone = true → ((updateEntitiesPure today e msg).1).phone = e.phone) ∧
    (truthy e.date = true → ((updateEntitiesPure today e msg).1).date = e.date) ∧
    (truthy e.time = true → ((updateEntitiesPure today e msg).1).time = e.time) := by
  refine ⟨?_, ?_, ?_, ?_, ?_, ?_, ?_, ?_⟩
  · unfold getNextRequiredField requiredOrder
    cases h1 : truthy (entityGet e "service") <;>
      cases h2 : truthy (entityGet e "specialist") <;>
      cases h3 : truthy (entityGet e "name") <;>
      cases h4 : truthy (entityGet e "phone") <;>
      cases h5 : truthy (entityGet e "date") <;>
      cases h6 : truthy (entityGet e "time") <;>
      simp_all [List.find?, entityGet]
  · unfold getNextRequiredField requiredOrder
    cases h1 : truthy (entityGet e "service") <;>
      cases h2 : truthy (entityGet e "specialist") <;>
      cases h3 : truthy (entityGet e "name") <;>
      cases h4 : truthy (entityGet e "phone") <;>
      cases h5 : truthy (entityGet e "date") <;>
      cases h6 : truthy (entityGet e "time") <;>
      simp_all [List.find?, entityGet]
  all_goals {
    intro h
    unfold updateEntitiesPure
    rcases fillName_cases msg (e, []) with hA | ⟨hA0, vA, hA⟩ <;>
      rcases fillPhone_cases msg (fillName msg (e, [])) with hB | ⟨hB0, vB, hB⟩ <;>
      rcases fillService_cases msg
        (fillPhone msg (fillName msg (e, []))) with hC | ⟨hC0, vC, hC⟩ <;>
      rcases fillSpecialist_cases msg
        (fillService msg (fillPhone msg (fillName msg (e, [])))) with
        hD | ⟨hD0, vD, hD⟩ <;>
      rcases fillDate_cases today msg
        (fillSpecialist msg (fillService msg (fillPhone msg (fillName msg (e, [])))))
        with hE | ⟨hE0, vE, hE⟩ <;>
      rcases fillTime_cases msg
        (fillDate today msg (fillSpecialist msg (fillService msg
          (fillPhone msg (fillName msg (e, [])))))) with hF | ⟨hF0, vF, hF⟩ <;>
      simp_all
  }

/-- Entities used by the C6 witness: everything set. -/
def entitiesC6 : Entities :=
  ⟨some "Иван", some "0501234567", some "Консультация остеопата",
   some "Екатерина", some "2025-10-22", some "15:00", none⟩

/-- Witness for C6: on fully-set entities the next required field is
`none` and the set name survives an extraction pass. -/
theorem c6_witness :
    getNextRequiredField entitiesC6 = none ∧
    ((updateEntitiesPure ⟨2025, 10, 20⟩ entitiesC6 "меня зовут пётр").1).name =
      entitiesC6.name := by
  obtain ⟨h1, h2, h3, h4, h5, h6, h7, h8⟩ :=
    c6_field_order entitiesC6 ⟨2025, 10, 20⟩ "меня зовут пётр"
  refine ⟨?_, h5 (by decide)⟩
  rw [h2]
  refine ⟨by decide, by decide, by decide, by decide, by decide, by decide⟩

/-- `lookupSession` after `storeSet` at the same key. -/
theorem lookupSession_storeSet_self (st : Store) (sid : String) (s : Session) :
    lookupSession (storeSet st sid s) sid = some s := by
  induction st with
  | nil => simp [storeSet, lookupSession, List.find?]
  | cons kv t ih =>
    obtain ⟨k, v⟩ := kv
    unfold storeSet
    split
    · rename_i hk
      simp [lookupSession, List.find?, hk]
    · rename_i hk
      simp only [lookupSession, List.find?] at ih ⊢
      rw [show (k == sid) = false by simpa using hk]
      exact ih

/-- `lookupSession` after `storeSet` at a different key. -/
theorem lookupSession_storeSet_other (st : Store) (sid sid2 : String)
    (s : Session) (h : sid2 ≠ sid) :
    lookupSession (storeSet st sid s) sid2 = lookupSession st sid2 := by
  induction st with
  | nil =>
    have hb : (sid == sid2) = false := by
      rw [beq_eq_false_iff_ne]
      exact fun he => h he.symm
    simp [storeSet, lookupSession, List.find?, hb]
  | cons kv t ih =>
    obtain ⟨k, v⟩ := kv
    unfold storeSet
    split
    · rename_i hk
      have hks : k = sid := by simpa using hk
      have hb : (k == sid2) = false := by
        rw [beq_eq_false_iff_ne]
        intro he
        exact h (by rw [← he, hks])
      simp [lookupSession, List.find?, hb]
    · simp only [lookupSession, List.find?] at ih ⊢
      cases hk2 : (k == sid2) with
      | true => simp
      | false => simpa [hk2] using ih

/-- `pushHistory` keeps at most the last 10 entries. -/
theorem pushHistory_spec (h : List HistEntry) (entry : HistEntry) :
    (pushHistory h entry).length ≤ 10 ∧
    pushHistory h entry =
      (h ++ [entry]).drop ((h ++ [entry]).length - 10) := by
  unfold pushHistory
  split
  · rename_i hlen
    constructor
    · rw [List.length_drop]
      omega
    · rfl
  · rename_i hlen
    constructor
    · simp only [List.length_append, List.length_singleton] at hlen ⊢
      omega
    · rw [Nat.sub_eq_zero_of_le (by omega), List.drop_zero]

/-- **C7.**  After every `add_to_history` call the stored history has
length at most 10 and equals the last ten entries (in order) of the old
history extended by the new entry. -/
theorem c7_history_bound (st : Store) (sid role msg : String) (now : DT) :
    ∃ s, lookupSession (addToHistory st sid role msg now) sid = some s ∧
      s.history.length ≤ 10 ∧
      s.history =
        ((((lookupSession st sid).map Session.history).getD []) ++
            [(⟨role, msg, now⟩ : HistEntry)]).drop
          (((((lookupSession st sid).map Session.history).getD []) ++
            [(⟨role, msg, now⟩ : HistEntry)]).length - 10) := by
  unfold addToHistory getSession
  cases hl : lookupSession st sid with
  | some s =>
    refine ⟨{ s with history := pushHistory s.history ⟨role, msg, now⟩ },
      ?_, ?_, ?_⟩
    · exact lookupSession_storeSet_self st sid _
    · exact (pushHistory_spec s.history ⟨role, msg, now⟩).1
    · simpa using (pushHistory_spec s.history ⟨role, msg, now⟩).2
  | none =>
    refine ⟨{ defaultSession now with
        history := pushHistory (defaultSession now).history ⟨role, msg, now⟩ },
      ?_, ?_, ?_⟩
    · exact lookupSession_storeSet_self _ sid _
    · exact (pushHistory_spec (defaultSession now).history ⟨role, msg, now⟩).1
    · simpa [defaultSession] using
        (pushHistory_spec (defaultSession now).history ⟨role, msg, now⟩).2

/-- Characters produced by the three phone matchers: digits, `+`, `-` or
whitespace. -/
def phoneMatchChar (c : Char) : Prop :=
  isDigitC c = true ∨ c = '+' ∨ c = '-' ∨ isSpacePy c = true

/-- Members of a (truncated) `takeWhile isPhoneRunC` run. -/
theorem phoneRun_chars (n : Nat) (m : List Char) (c : Char)
    (hc : c ∈ (m.takeWhile isPhoneRunC).take n) : phoneMatchChar c := by
  have := List.mem_takeWhile_imp (List.mem_of_mem_take hc)
  unfold isPhoneRunC at this
  simp only [Bool.or_eq_true, beq_iff_eq] at this
  unfold phoneMatchChar
  tauto

theorem matchIsraelIntlAt_chars (l g : List Char)
    (h : matchIsraelIntlAt l = some g) : ∀ c ∈ g, phoneMatchChar c := by
  unfold matchIsraelIntlAt at h
  split at h
  · rename_i rest
    split at h
    · cases h
      intro c hc
      simp only [List.mem_cons] at hc
      rcases hc with rfl | rfl | rfl | rfl | hc
      · exact Or.inr (Or.inl rfl)
      · exact Or.inl (by decide)
      · exact Or.inl (by decide)
      · exact Or.inl (by decide)
      · exact phoneRun_chars 12 rest c hc
    · cases h
  · rename_i rest
    split at h
    · cases h
      intro c hc
      simp only [List.mem_cons] at hc
      rcases hc with rfl | rfl | rfl | hc
      · exact Or.inl (by decide)
      · exact Or.inl (by decide)
      · exact Or.inl (by decide)
      · exact phoneRun_chars 12 rest c hc
    · cases h
  · cases h

theorem matchIsraelLocalAt_chars (l g : List Char)
    (h : matchIsraelLocalAt l = some g) : ∀ c ∈ g, phoneMatchChar c := by
  unfold matchIsraelLocalAt at h
  split at h
  · rename_i c0 rest
    split at h
    · rename_i hcond
      cases h
      intro c hc
      simp only [List.mem_cons] at hc
      rcases hc with rfl | rfl | hc
      · exact Or.inl (by decide)
      · refine Or.inl ?_
        have h5 := hcond.1
        have h0 : ('0' : Char) ≤ c := le_trans (by decide) h5
        have h9 := hcond.2.1
        simp [isDigitC, h0, h9]
      · have := List.all_eq_true.mp hcond.2.2.2 c hc
        unfold isPhoneRunC at this
        simp only [Bool.or_eq_true, beq_iff_eq] at this
        unfold phoneMatchChar
        tauto
    · cases h
  · cases h

theorem matchGenericPhoneAt_chars (l g : List Char)
    (h : matchGenericPhoneAt l = some g) : ∀ c ∈ g, phoneMatchChar c := by
  unfold matchGenericPhoneAt at h
  split at h
  · rename_i rest
    split at h
    · cases h
      intro c hc
      simp only [List.mem_cons] at hc
      rcases hc with rfl | hc
      · exact Or.inr (Or.inl rfl)
      · exact phoneRun_chars 15 rest c hc
    · cases h
  · split at h
    · cases h
      intro c hc
      exact phoneRun_chars 15 l c hc
    · cases h

/-- `searchWith` only returns what its matcher returns somewhere. -/
theorem searchWith_some (m : List Char → Option (List Char)) :
    ∀ l g, searchWith m l = some g → ∃ l2, m l2 = some g := by
  intro l
  induction l with
  | nil => intro g h; exact ⟨[], h⟩
  | cons c t ih =>
    intro g h
    unfold searchWith at h
    split at h
    · rename_i r hr
      cases h
      exact ⟨c :: t, hr⟩
    · exact ih g h

/-- The per-pattern attempt yields only 9–15 character strings over the
digits/`+`/`-` alphabet. -/
theorem phoneAttempt_shape (m : List Char → Option (List Char))
    (hm : ∀ l g, m l = some g → ∀ c ∈ g, phoneMatchChar c)
    (clean : List Char) (p : String)
    (h : phoneAttempt m clean = some p) :
    9 ≤ p.length ∧ p.length ≤ 15 ∧
    ∀ c ∈ p.data, isDigitC c = true ∨ c = '+' ∨ c = '-' := by
  unfold phoneAttempt at h
  split at h
  · rename_i g hg
    split at h
    · rename_i hlen
      cases h
      obtain ⟨l2, hl2⟩ := searchWith_some m clean g hg
      have hchar := hm l2 g hl2
      refine ⟨hlen.1, hlen.2, ?_⟩
      intro c hc
      replace hc : c ∈ stripSpaceDash g := hc
      unfold stripSpaceDash at hc
      rw [List.mem_filter] at hc
      obtain ⟨hcg, hkeep⟩ := hc
      have hks : isSpacePy c = false ∧ (c == '-') = false := by
        cases h1 : isSpacePy c <;> cases h2 : (c == '-') <;> simp_all
      rcases hchar c hcg with hd | hp | hmn | hs
      · exact Or.inl hd
      · exact Or.inr (Or.inl hp)
      · exact absurd hks.2 (by subst hmn; decide)
      · exact absurd hs (by simp [hks.1])
    · cases h
  · cases h

/-- **C9.**  Every extractor is a total function (they are Lean functions
over arbitrary strings); in particular `extract_phone` returns `None` or a
string of 9–15 characters drawn from digits, `+` and `-` (the code strips
`\s` and `-` from the match and re-checks the length, so `-` in fact never
survives, which is within the claimed alphabet). -/
theorem c9_extract_phone_shape (s : String) :
    extractPhone s = none ∨
    ∃ p, extractPhone s = some p ∧ 9 ≤ p.length ∧ p.length ≤ 15 ∧
      ∀ c ∈ p.data, isDigitC c = true ∨ c = '+' ∨ c = '-' := by
  unfold extractPhone
  cases h1 : phoneAttempt matchIsraelIntlAt (cleanPhoneText s.data) with
  | some p =>
    exact Or.inr ⟨p, rfl,
      phoneAttempt_shape _ matchIsraelIntlAt_chars _ p h1⟩
  | none =>
    cases h2 : phoneAttempt matchIsraelLocalAt (cleanPhoneText s.data) with
    | some p =>
      exact Or.inr ⟨p, rfl,
        phoneAttempt_shape _ matchIsraelLocalAt_chars _ p h2⟩
    | none =>
      cases h3 : phoneAttempt matchGenericPhoneAt (cleanPhoneText s.data) with
      | some p =>
        exact Or.inr ⟨p, rfl,
          phoneAttempt_shape _ matchGenericPhoneAt_chars _ p h3⟩
      | none => exact Or.inl rfl

/-- Entities for the C10 witness: the five counted fields set, specialist
unset. -/
def entitiesC10 : Entities :=
  ⟨some "Иван", some "0501234567", some "Консультация остеопата", none,
   some "2025-10-22", some "15:00", none⟩

/-- **C10.**  `get_progress` counts exactly service, name, phone, date and
time (not specialist) out of 5, always lands in `[0, 1]`, and is `1` on
`entitiesC10` although the specialist is still unset and
`get_next_required_field` still asks for it. -/
theorem c10_get_progress (e : Entities) :
    getProgress e =
      (((if truthy e.service then 1 else 0) + (if truthy e.name then 1 else 0) +
        (if truthy e.phone then 1 else 0) + (if truthy e.date then 1 else 0) +
        (if truthy e.time then 1 else 0) : ℕ) : ℚ) / 5 ∧
    0 ≤ getProgress e ∧ getProgress e ≤ 1 ∧
    getProgress entitiesC10 = 1 ∧ entitiesC10.specialist = none ∧
    getNextRequiredField entitiesC10 = some "specialist" := by
  have hval : ∀ e2 : Entities, getProgress e2 =
      (((if truthy e2.service then 1 else 0) + (if truthy e2.name then 1 else 0) +
        (if truthy e2.phone then 1 else 0) + (if truthy e2.date then 1 else 0) +
        (if truthy e2.time then 1 else 0) : ℕ) : ℚ) / 5 := by
    intro e2
    unfold getProgress progressRequired
    cases h1 : truthy e2.service <;> cases h2 : truthy e2.name <;>
      cases h3 : truthy e2.phone <;> cases h4 : truthy e2.date <;>
      cases h5 : truthy e2.time <;>
      simp [List.filter, entityGet, h1, h2, h3, h4, h5]
  refine ⟨hval e, ?_, ?_, ?_, rfl, by decide⟩
  · rw [hval e]
    positivity
  · rw [hval e]
    rw [div_le_one (by norm_num)]
    have : ((if truthy e.service then 1 else 0) + (if truthy e.name then 1 else 0) +
        (if truthy e.phone then 1 else 0) + (if truthy e.date then 1 else 0) +
        (if truthy e.time then 1 else 0) : ℕ) ≤ 5 := by
      split_ifs <;> norm_num
    exact_mod_cast this
  · rw [hval entitiesC10]
    have h5 : ((if truthy entitiesC10.service then 1 else 0) +
        (if truthy entitiesC10.name then 1 else 0) +
        (if truthy entitiesC10.phone then 1 else 0) +
        (if truthy entitiesC10.date then 1 else 0) +
        (if truthy entitiesC10.time then 1 else 0) : ℕ) = 5 := by decide
    rw [h5]
    norm_num

/-!  `core/datetime_validator.py` — parsing (`parse_date_string`,
`parse_time_string`) and the remaining validation entry points.  Python
`strptime` field regexes are compiled by hand: `%Y` is exactly four
digits, `%d`/`%m`/`%H`/`%M` are one or two digits within range (two-digit
form preferred, with the one-digit fallback on failure), and the whole
string must be consumed. -/

/-- Two-digit value of chars `a b`. -/
def dd (a b : Char) : Nat := (a.toNat - 48) * 10 + (b.toNat - 48)

/-- One field that is 1–2 digits: the alternatives in preference order
(two digits first), each with the remaining input. -/
def field2or1 (ok2 ok1 : Nat → Bool) (l : List Char) : List (Nat × List Char) :=
  (match l with
   | a :: b :: rest =>
     if isDigitC a && isDigitC b && ok2 (dd a b) then [(dd a b, rest)] else []
   | _ => []) ++
  (match l with
   | a :: rest => if isDigitC a && ok1 (a.toNat - 48) then [(a.toNat - 48, rest)] else []
   | _ => [])

/-- Try the alternatives left to right. -/
def firstSome {α β : Type} (l : List α) (k : α → Option β) : Option β :=
  match l with
  | [] => none
  | a :: t =>
    match k a with
    | some r => some r
    | none => firstSome t k

/-- `%d`: `3[01]|[12]\d|0[1-9]` or `[1-9]`. -/
def dayField (l : List Char) : List (Nat × List Char) :=
  field2or1 (fun v => 1 ≤ v && v ≤ 31) (fun v => 1 ≤ v && v ≤ 9) l

/-- `%m`: `1[0-2]|0[1-9]` or `[1-9]`. -/
def monthField (l : List Char) : List (Nat × List Char) :=
  field2or1 (fun v => 1 ≤ v && v ≤ 12) (fun v => 1 ≤ v && v ≤ 9) l

/-- `%H`: `2[0-3]|[0-1]\d|\d`. -/
def hourField (l : List Char) : List (Nat × List Char) :=
  field2or1 (fun v => v ≤ 23) (fun _ => true) l

/-- `%M`: `[0-5]\d|\d`. -/
def minuteField (l : List Char) : List (Nat × List Char) :=
  field2or1 (fun v => v ≤ 59) (fun _ => true) l

/-- Exactly four digits (`%Y`). -/
def parseYear4 (l : List Char) : Option (Nat × List Char) :=
  match l with
  | a :: b :: c :: d :: rest =>
    if isDigitC a && isDigitC b && isDigitC c && isDigitC d then
      some ((((a.toNat - 48) * 10 + (b.toNat - 48)) * 10 + (c.toNat - 48)) * 10
        + (d.toNat - 48), rest)
    else none
  | _ => none

/-- A separator character in a `strptime` format (whitespace in a format
matches a whitespace run). -/
def expectSep (sep : Char) (l : List Char) : Option (List Char) :=
  if sep = ' ' then
    if (l.takeWhile isSpacePy).isEmpty then none
    else some (l.dropWhile isSpacePy)
  else
    match l with
    | c :: t => if c = sep then some t else none
    | _ => none

/-- `strptime` against `%Y sep %m sep %d` (full consumption), including
the `datetime.date` range check. -/
def parseFmtYMD (sep : Char) (l : List Char) : Option Date :=
  match parseYear4 l with
  | some (y, r1) =>
    match expectSep sep r1 with
    | some r2 =>
      firstSome (monthField r2) (fun mr =>
        match expectSep sep mr.2 with
        | some r3 =>
          firstSome (dayField r3) (fun dr =>
            if dr.2 = [] ∧ Date.Valid ⟨y, mr.1, dr.1⟩ ∧ 1 ≤ y ∧ y ≤ 9999 then
              some ⟨y, mr.1, dr.1⟩
            else none)
        | none => none)
    | none => none
  | none => none

/-- `strptime` against `%d sep %m sep %Y`. -/
def parseFmtDMY (sep : Char) (l : List Char) : Option Date :=
  firstSome (dayField l) (fun dr =>
    match expectSep sep dr.2 with
    | some r1 =>
      firstSome (monthField r1) (fun mr =>
        match expectSep sep mr.2 with
        | some r2 =>
          match parseYear4 r2 with
          | some (y, []) =>
            if Date.Valid ⟨y, mr.1, dr.1⟩ ∧ 1 ≤ y ∧ y ≤ 9999 then
              some ⟨y, mr.1, dr.1⟩
            else none
          | _ => none
        | none => none)
    | none => none)

/-- `strptime` against `%d sep %m` (default year 1900, which is then
replaced by the current year; a Feb-29 input already fails at the 1900
stage, so the replacement never fails). -/
def parseFmtDM (sep : Char) (year : Nat) (l : List Char) : Option Date :=
  firstSome (dayField l) (fun dr =>
    match expectSep sep dr.2 with
    | some r1 =>
      firstSome (monthField r1) (fun mr =>
        if mr.2 = [] ∧ Date.Valid ⟨1900, mr.1, dr.1⟩ then
          some ⟨year, mr.1, dr.1⟩
        else none)
    | none => none)

/-- One step of `re.sub(r'\s*\([^)]*\)', '', s)`: the length of a match
starting at this position, if any. -/
def parenMatchLen (l : List Char) : Option Nat :=
  match l.drop (l.takeWhile isSpacePy).length with
  | '(' :: rest2 =>
    match rest2.drop (rest2.takeWhile (fun c => c ≠ ')')).length with
    | ')' :: _ =>
      some ((l.takeWhile isSpacePy).length + 1
        + (rest2.takeWhile (fun c => c ≠ ')')).length + 1)
    | _ => none
  | _ => none

/-- `re.sub(r'\s*\([^)]*\)', '', s)` (the fuel starts at the input length
and every step consumes at least one character). -/
def removeParensGo : Nat → List Char → List Char
  | 0, l => l
  | fuel + 1, [] => []
  | fuel + 1, c :: t =>
    if isSpacePy c || c == '(' then
      match parenMatchLen (c :: t) with
      | some n => removeParensGo fuel ((c :: t).drop n)
      | none => c :: removeParensGo fuel t
    else c :: removeParensGo fuel t

def removeParens (l : List Char) : List Char := removeParensGo l.length l

/-- The `relative_dates` table of `parse_date_string`, in source order. -/
def relativeDateWords (today : Date) : List (String × Date) :=
  [("сегодня", today), ("завтра", today.addDays 1),
   ("послезавтра", today.addDays 2), ("today", today),
   ("tomorrow", today.addDays 1)]

/-- The `weekdays` table of `parse_date_string` (Russian then English). -/
def parseWeekdayWords : List (String × Nat) :=
  [("понедельник", 0), ("вторник", 1), ("среду", 2), ("четверг", 3),
   ("пятницу", 4), ("субботу", 5), ("воскресенье", 6),
   ("monday", 0), ("tuesday", 1), ("wednesday", 2), ("thursday", 3),
   ("friday", 4), ("saturday", 5), ("sunday", 6)]

/-- `DateTimeValidator.parse_date_string`:
`(success, parsed_date, error_message)`.  `today` models
`TimezoneManager.get_current_time(country).date()`. -/
def parseDateString (today : Date) (dateStr : String) : Option Date × String :=
  if (stripL dateStr.data).isEmpty then (none, "Дата не может быть пустой")
  else
    let dc := stripL (removeParens (lowerL (stripL dateStr.data)))
    match (relativeDateWords today).find? (fun p => p.1.data == dc) with
    | some p => (some p.2, "")
    | none =>
      match parseWeekdayWords.find? (fun p => containsSub p.1.data dc) with
      | some w => (some (today.addDays (daysUntilWeekday today w.2)), "")
      | none =>
        match parseFmtYMD '-' dc with
        | some d => (some d, "")
        | none =>
        match parseFmtDMY '.' dc with
        | some d => (some d, "")
        | none =>
        match parseFmtDMY '/' dc with
        | some d => (some d, "")
        | none =>
        match parseFmtDMY '-' dc with
        | some d => (some d, "")
        | none =>
        match parseFmtDM '.' today.year dc with
        | some d => (some d, "")
        | none =>
        match parseFmtDM '/' today.year dc with
        | some d => (some d, "")
        | none =>
          (none, "Неверный формат даты: " ++ dateStr
            ++ ". Используйте: ГГГГ-ММ-ДД, ДД.ММ.ГГГГ, \x27сегодня\x27, \x27завтра\x27 или день недели")

/-- Python `int(s)` for the `%H` branch of `parse_time_string`:
optional sign after stripping, at least one digit, nothing else. -/
def pyIntOpt (l : List Char) : Option Int :=
  match stripL l with
  | [] => none
  | '+' :: rest =>
    if rest ≠ [] ∧ rest.all isDigitC then some (digitsToNat rest) else none
  | '-' :: rest =>
    if rest ≠ [] ∧ rest.all isDigitC then some (-(digitsToNat rest : Int)) else none
  | rest =>
    if rest.all isDigitC then some (digitsToNat rest) else none

/-- One `strptime` attempt of `parse_time_string` against `%H sep %M`:
returns minutes since midnight. -/
def parseTimeFmt (sep : Char) (l : List Char) : Option Nat :=
  firstSome (hourField l) (fun hr =>
    match expectSep sep hr.2 with
    | some r1 =>
      firstSome (minuteField r1) (fun mr =>
        if mr.2 = [] then some (hr.1 * 60 + mr.1) else none)
    | none => none)

/-- `DateTimeValidator.parse_time_string`:
`(success, minutes, error_message)`. -/
def parseTimeString (timeStr : String) : Option Nat × String :=
  if (stripL timeStr.data).isEmpty then (none, "Время не может быть пустым")
  else
    let tc := stripL timeStr.data
    match parseTimeFmt ':' tc with
    | some m => (some m, "")
    | none =>
    match parseTimeFmt '.' tc with
    | some m => (some m, "")
    | none =>
    match parseTimeFmt '-' tc with
    | some m => (some m, "")
    | none =>
    match parseTimeFmt ' ' tc with
    | some m => (some m, "")
    | none =>
      match pyIntOpt tc with
      | some h =>
        if 0 ≤ h ∧ h ≤ 23 then (some (h.toNat * 60), "")
        else (none, "Неверный формат времени: " ++ timeStr
          ++ ". Используйте: ЧЧ:ММ (например, 15:30)")
      | none =>
        (none, "Неверный формат времени: " ++ timeStr
          ++ ". Используйте: ЧЧ:ММ (например, 15:30)")

/-- The `working_hours` table of `DateTimeValidator`
(start, end, break_start, break_end). -/
def workingHours (country : String) : Nat × Nat × Nat × Nat :=
  if country = "IL" then (9, 19, 13, 14)
  else if country = "RU" then (9, 18, 13, 14)
  else if country = "UA" then (9, 18, 13, 14)
  else if country = "US" then (9, 17, 12, 13)
  else (9, 19, 13, 14)

/-- `DateTimeValidator.validate_time` (hours-based checks plus the
one-hour preparation buffer for same-day bookings; the buffer time wraps
at midnight exactly as Python `.time()` does; second-level precision of
the buffer is below the model's minute granularity). -/
def validateTime (country : String) (now : DT) (checkMin : Nat)
    (checkDate : Date) : Bool × String :=
  let wh := workingHours country
  if checkMin / 60 < wh.1 ∨ checkMin / 60 ≥ wh.2.1 then
    (false, "Центр работает с " ++ pad2 wh.1 ++ ":00 до " ++ pad2 wh.2.1 ++ ":00")
  else if wh.2.2.1 ≤ checkMin / 60 ∧ checkMin / 60 < wh.2.2.2 then
    (false, "Обеденный перерыв с " ++ pad2 wh.2.2.1 ++ ":00 до "
      ++ pad2 wh.2.2.2 ++ ":00")
  else if checkDate = now.date ∧ checkMin ≤ (now.min + 60) % 1440 then
    (false, "Нельзя записаться на время ранее " ++ fmtHM ((now.min + 60) % 1440)
      ++ " (нужно время для подготовки)")
  else (true, "OK")

/-- The result record of `DateTimeValidator.validate_datetime`. -/
structure DTValidation where
  isValid : Bool
  errors : List String
  parsedDate : Option Date
  parsedMin : Option Nat
  parsedDT : Option DT
deriving DecidableEq, Repr

/-- `DateTimeValidator.validate_datetime`. -/
def validateDatetime (country : String) (now : DT) (dateStr timeStr : String) :
    DTValidation :=
  let dp := parseDateString now.date dateStr
  let dateErrors :=
    match dp.1 with
    | none => ["Дата: " ++ dp.2]
    | some d =>
      if (validateDate country now.date d).1 then []
      else ["Дата: " ++ (validateDate country now.date d).2]
  let tp := parseTimeString timeStr
  let timeErrors :=
    match tp.1 with
    | none => ["Время: " ++ tp.2]
    | some m =>
      match dp.1 with
      | some d =>
        if (validateTime country now m d).1 then []
        else ["Время: " ++ (validateTime country now m d).2]
      | none => []
  { isValid := dateErrors.isEmpty && timeErrors.isEmpty,
    errors := dateErrors ++ timeErrors,
    parsedDate := dp.1,
    parsedMin := tp.1,
    parsedDT :=
      match dp.1, tp.1 with
      | some d, some m => some ⟨d, m⟩
      | _, _ => none }

/-- One element of `get_available_time_slots`. -/
structure TimeSlot where
  time : String
  dt : DT
  available : Bool
  duration : Nat
deriving DecidableEq, Repr

/-- The slot loop of `DateTimeValidator.get_available_time_slots`
(`continue` over the lunch break and over same-day slots within the
one-hour buffer, `break` when the procedure would spill past closing). -/
def dtvSlotsLoop (country : String) (now : DT) (checkDate : Date)
    (dur : Nat) : Nat → Nat → List TimeSlot
  | 0, _ => []
  | fuel + 1, cur =>
    let wh := workingHours country
    if cur < wh.2.1 * 60 then
      if wh.2.2.1 ≤ cur / 60 ∧ cur / 60 < wh.2.2.2 then
        dtvSlotsLoop country now checkDate dur fuel (cur + 30)
      else if (cur + dur) % 1440 > wh.2.1 * 60 then []
      else if checkDate = now.date ∧ (DT.abs ⟨checkDate, cur⟩) ≤ now.abs + 60 then
        dtvSlotsLoop country now checkDate dur fuel (cur + 30)
      else
        ⟨fmtHM cur, ⟨checkDate, cur⟩, true, dur⟩
          :: dtvSlotsLoop country now checkDate dur fuel (cur + 30)
    else []

/-- `DateTimeValidator.get_available_time_slots` (at most 21 candidate
starts for every configured working day, so fuel 21 never truncates). -/
def getAvailableTimeSlots (country : String) (now : DT) (checkDate : Date)
    (dur : Nat) : List TimeSlot :=
  if (validateDate country now.date checkDate).1 then
    dtvSlotsLoop country now checkDate dur 21 ((workingHours country).1 * 60)
  else []

/-- One suggestion of `suggest_alternative_dates` (note: it has no
`time` key, which matters for `get_validation_summary`). -/
structure AltDate where
  date : Date
  dateStr : String
  weekday : String
  availableSlots : Nat
  firstSlot : Option String
  lastSlot : Option String
deriving DecidableEq, Repr

/-- `DateTimeValidator.suggest_alternative_dates` (default
`days_ahead = 7`, default slot duration 60). -/
def suggestAlternativeDates (country : String) (now : DT)
    (originalDate : Date) : List AltDate :=
  let start :=
    if (now.date.addDays 1).toOrdinal ≥ originalDate.toOrdinal then
      now.date.addDays 1
    else originalDate
  ((List.range 7).filterMap (fun i =>
    let check := start.addDays i
    if (validateDate country now.date check).1 then
      match getAvailableTimeSlots country now check 60 with
      | [] => none
      | slots =>
        some ⟨check, check.fmtDMY, check.weekdayName, slots.length,
          slots.head?.map TimeSlot.time, slots.getLast?.map TimeSlot.time⟩
    else none))

/-- One alternative of `ConflictValidator.find_alternative_slots`
(this one does have a `time` key). -/
structure AltSlot where
  date : Date
  time : String
  dt : DT
  dateStr : String
  weekday : String
deriving DecidableEq, Repr

/-- `ConflictValidator.find_alternative_slots`: scan seven days of base
slots, keep the conflict-free ones, stop after `num` (the source returns
as soon as the list reaches `num_alternatives`, which equals taking the
first `num` of the full enumeration). -/
def findAlternativeSlots (db : DB) (country : String) (now : DT)
    (specId : Nat) (preferredDate : Date) (dur : Nat) (num : Nat) :
    List AltSlot :=
  (((List.range 7).flatMap (fun off =>
    let check := preferredDate.addDays off
    (getAvailableTimeSlots country now check dur).filterMap (fun slot =>
      if (checkAppointmentConflicts db specId slot.dt.abs
            (slot.dt.abs + dur) none).1 then none
      else some (⟨check, slot.time, slot.dt, check.fmtDMY,
        check.weekdayName⟩ : AltSlot)))).take num)

/-- `AvailabilityValidator.check_availability`: re-format, re-parse and
re-validate the date and time, then check specialist conflicts.  The
`except`-wrapper of the source only fires on runtime faults that the pure
model cannot produce. -/
def checkAvailability (db : DB) (country : String) (now : DT)
    (specId : Nat) (date : Date) (timeMin : Nat) (dur : Nat) : Bool × String :=
  let r := validateDatetime country now date.fmtYMD (fmtHM timeMin)
  if ¬ r.isValid then (false, String.intercalate "; " r.errors)
  else
    match r.parsedDT with
    | some st =>
      match checkAppointmentConflicts db specId st.abs (st.abs + dur) none with
      | (true, descs) => (false, descs.headD "")
      | (false, _) => (true, "OK")
    | none => (false, "Ошибка проверки доступности: no parsed datetime")

/-- One slot of `AvailabilityValidator.get_available_slots`. -/
structure AvSlot where
  time : String
  datetimeIso : String
  available : Bool
  duration : Nat
deriving DecidableEq, Repr

/-- `AvailabilityValidator.get_available_slots` (the five-minute cache is
pure memoisation and is not modelled; `isoformat` is rendered without the
timezone suffix, and only the `time` field is ever read downstream). -/
def availabilityGetSlots (db : DB) (country : String) (now : DT)
    (specId : Nat) (date : Date) (dur : Nat) : List AvSlot :=
  (getAvailableTimeSlots country now date dur).filterMap (fun slot =>
    if (checkAppointmentConflicts db specId slot.dt.abs
          (slot.dt.abs + dur) none).1 then none
    else some ⟨slot.time, slot.dt.date.fmtYMD ++ "T" ++ fmtHM slot.dt.min ++ ":00",
      true, dur⟩)

/-!  `core/validators.py` — `NameValidator`  -/

/-- `FORBIDDEN_WORDS['ru']`. -/
def forbiddenRu : List String :=
  ["на", "к", "у", "для", "запись", "прием", "консультация",
   "массаж", "диагностика", "остеопат", "специалист", "врач",
   "на массаж", "на консультацию", "на диагностику", "на прием",
   "тест", "тестовый", "проверка", "админ", "администратор",
   "пользователь", "клиент", "пациент", "человек", "мужчина", "женщина",
   "ааа", "ббб", "ввв", "ггг", "ддд", "еее", "жжж", "ззз",
   "iii", "ooo", "uuu", "yyy", "xxx", "zzz", "aaa", "bbb", "ccc",
   "асд", "фыв", "йцу", "qwe", "asd", "zxc", "qaz", "wsx", "edc",
   "номер", "телефон", "звонок", "связь", "контакт", "информация"]

/-- `FORBIDDEN_WORDS['en']`. -/
def forbiddenEn : List String :=
  ["test", "testing", "admin", "administrator", "user", "client",
   "patient", "person", "man", "woman", "name", "surname",
   "appointment", "booking", "massage", "consultation", "doctor",
   "specialist", "therapy", "treatment", "service", "medical",
   "aaa", "bbb", "ccc", "ddd", "eee", "fff", "ggg", "hhh",
   "iii", "jjj", "kkk", "lll", "mmm", "nnn", "ooo", "ppp",
   "qqq", "rrr", "sss", "ttt", "uuu", "vvv", "www", "xxx", "yyy", "zzz",
   "qwe", "asd", "zxc", "qaz", "wsx", "edc", "rfv", "tgb", "yhn", "ujm"]

/-- `FORBIDDEN_WORDS['he']`. -/
def forbiddenHe : List String :=
  ["בדיקה", "טסט", "מנהל", "משתמש", "לקוח", "חולה", "איש", "אישה",
   "תור", "הזמנה", "עיסוי", "יעוץ", "רופא", "מומחה", "טיפול", "שירות"]

def forbiddenWords (lang : String) : List String :=
  if lang = "ru" then forbiddenRu
  else if lang = "en" then forbiddenEn
  else if lang = "he" then forbiddenHe
  else []

/-- `NameValidator.detect_language`. -/
def detectLanguage (text : String) : String :=
  let tl := lowerL text.data
  if tl.any isCyrLower then "ru"
  else if text.data.any isHebrewC then "he"
  else if tl.any isLatLower then "en"
  else "unknown"

/-- `NameValidator.normalize_name`. -/
def normalizeName (name : String) : String :=
  if name.data.isEmpty then ""
  else
    let joined := String.intercalate " " ((splitWsL name.data).map String.mk)
    if (lowerL joined.data).any isNameLetter then titleS joined else joined

def keyboardSequences : List String :=
  ["qwerty", "asdfgh", "zxcvbn", "йцукен", "фывапр", "ячсмит",
   "123456", "абвгде", "abcdef"]

def vowelsRuEn : List Char := "аеёиоуыэюяaeiouy".data

def consonantsRuEn : List Char := "бвгджзйклмнпрстфхцчшщbcdfghjklmnpqrstvwxyz".data

/-- The vowel/consonant run scan of `is_realistic_name`:
`(max_vowels, max_consonants)`. -/
def vcRuns : List Char → Nat → Nat → Nat → Nat → Nat × Nat
  | [], _, _, mv, mc => (mv, mc)
  | c :: t, vc, cc, mv, mc =>
    if vowelsRuEn.contains c then
      vcRuns t (vc + 1) 0 (Nat.max mv (vc + 1)) mc
    else if consonantsRuEn.contains c then
      vcRuns t 0 (cc + 1) mv (Nat.max mc (cc + 1))
    else vcRuns t 0 0 mv mc

/-- `NameValidator.is_realistic_name`. -/
def isRealisticName (name : String) (lang : String) : Bool × String :=
  let nl := lowerL name.data
  if name.data.length < 2 then (false, "Имя слишком короткое")
  else if name.data.length > 50 then (false, "Имя слишком длинное")
  else if nl.eraseDups.length < 2 then
    (false, "Имя не может состоять из одинаковых символов")
  else if keyboardSequences.any (fun s =>
      containsSub s.data nl || containsSub s.data.reverse nl) then
    (false, "Имя не может быть последовательностью клавиш")
  else if lang = "ru" ∨ lang = "en" then
    if (vcRuns nl 0 0 0 0).1 > 4 then (false, "Слишком много гласных подряд")
    else if (vcRuns nl 0 0 0 0).2 > 5 then
      (false, "Слишком много согласных подряд")
    else (true, "OK")
  else (true, "OK")

/-- The class `[а-яёa-z֐-׿\s\-\']` with `re.IGNORECASE`. -/
def isAllowedNameChar (c : Char) : Bool :=
  isCyrLower c || isCyrUpper c || isLatLower c || isLatUpper c || isHebrewC c
    || isSpacePy c || c == '-' || c == Char.ofNat 39

/-- `NameValidator.validate_name`: `(is_valid, error_message)`. -/
def validateName (name : String) : Bool × String :=
  if (stripL name.data).isEmpty then (false, "Имя не может быть пустым")
  else
    let nc := stripL name.data
    if nc.length < 2 then (false, "Имя должно содержать минимум 2 символа")
    else if nc.length > 50 then (false, "Имя не может быть длиннее 50 символов")
    else
      let lang := detectLanguage (String.mk nc)
      if lang = "unknown" then
        (false, "Имя должно содержать буквы (русские, английские или иврит)")
      else
        let hasCyr := (lowerL nc).any isCyrLower
        let hasHeb := nc.any isHebrewC
        let hasLat := (lowerL nc).any isLatLower
        if 1 < (if hasCyr then 1 else 0) + (if hasHeb then 1 else 0)
            + (if hasLat then 1 else 0) then
          (false, "Имя должно быть на одном языке (русский, английский или иврит)")
        else if ¬ nc.all isAllowedNameChar then
          (false, "Имя может содержать только буквы, пробелы, дефисы и апострофы")
        else
          let nlow := lowerL nc
          if (forbiddenWords lang).any (fun w => w.data == nlow) then
            (false, "Это не похоже на имя. Пожалуйста, укажите ваше настоящее имя")
          else if (forbiddenWords lang).any (fun w =>
              w.data.length > 3 && containsSub w.data nlow) then
            (false, "Имя не может содержать служебные слова")
          else
            let realistic := isRealisticName (String.mk nc) lang
            if ¬ realistic.1 then (false, realistic.2)
            else (true, "OK")
            -- the common-names pass of the source computes
            -- `has_common_part` and then accepts regardless, so it has
            -- no observable effect and is omitted

/-!  `core/validators.py` — `PhoneValidator`  -/

/-- `PhoneValidator.clean_phone`. -/
def cleanPhone (phone : String) : List Char :=
  let c := (stripL phone.data).filter (fun c => isDigitC c || c == '+')
  match c with
  | '+' :: '+' :: _ => '+' :: c.dropWhile (fun x => x == '+')
  | _ => c

/-- `COUNTRY_OPERATORS['RU']['mobile_prefixes']`. -/
def ruMobilePre : List String :=
  ["900", "901", "902", "903", "904", "905", "906", "908", "909",
   "910", "911", "912", "913", "914", "915", "916", "917", "918", "919",
   "920", "921", "922", "923", "924", "925", "926", "927", "928", "929",
   "930", "931", "932", "933", "934", "936", "937", "938", "939",
   "950", "951", "952", "953", "954", "955", "956", "958", "960", "961",
   "962", "963", "964", "965", "966", "967", "968", "969", "970", "971",
   "977", "978", "980", "981", "982", "983", "984", "985", "986", "987",
   "988", "989", "991", "992", "993", "994", "995", "996", "997", "999"]

def ilMobilePre : List String :=
  ["50", "51", "52", "53", "54", "55", "56", "57", "58", "59"]

def ilLandPre : List String := ["02", "03", "04", "08", "09"]

def uaMobilePre : List String :=
  ["50", "63", "66", "67", "68", "73", "91", "92", "93", "94", "95",
   "96", "97", "98", "99"]

def uaLandPre : List String :=
  ["32", "33", "34", "35", "36", "37", "38", "41", "43", "44", "45",
   "46", "47", "48", "49"]

/-- Expected national-number length per country. -/
def countryLen (country : String) : Nat :=
  if country = "IL" then 9
  else if country = "RU" then 10
  else if country = "UA" then 9
  else 10

def countryCode (country : String) : String :=
  if country = "IL" then "+972"
  else if country = "RU" then "+7"
  else if country = "UA" then "+380"
  else "+1"

/-- `PhoneValidator.detect_country_by_phone`: the `elif` chain in source
order (the `'0' and len == 10` Ukrainian branch is dead code, shadowed by
the earlier `'0' and len >= 9` Israeli branch, and is kept as written). -/
def detectCountryByPhone (pc : List Char) : String × List Char :=
  if isPrefixC "+972".data pc then ("IL", pc.drop 4)
  else if isPrefixC "972".data pc then ("IL", pc.drop 3)
  else if isPrefixC "0".data pc ∧ pc.length ≥ 9 then ("IL", pc.drop 1)
  else if pc.length = 9 ∧ pc.headD ' ' ∈ ['5', '2', '3', '4', '8', '9'] then
    ("IL", pc)
  else if isPrefixC "+7".data pc then ("RU", pc.drop 2)
  else if isPrefixC "7".data pc ∧ pc.length = 11 then ("RU", pc.drop 1)
  else if isPrefixC "8".data pc ∧ pc.length = 11 then ("RU", pc.drop 1)
  else if isPrefixC "+380".data pc then ("UA", pc.drop 4)
  else if isPrefixC "380".data pc then ("UA", pc.drop 3)
  else if isPrefixC "0".data pc ∧ pc.length = 10
      ∧ uaMobilePre.any (fun p => isPrefixC p.data (pc.drop 1)) then
    ("UA", pc.drop 1)
  else if isPrefixC "+1".data pc then ("US", pc.drop 2)
  else if isPrefixC "1".data pc ∧ pc.length = 11 then ("US", pc.drop 1)
  else ("UNKNOWN", pc)

/-- `PhoneValidator.validate_phone_by_country`. -/
def validatePhoneByCountry (country : String) (digits : List Char) :
    Bool × String :=
  if country ≠ "IL" ∧ country ≠ "RU" ∧ country ≠ "UA" ∧ country ≠ "US" then
    (false, "Неподдерживаемая страна: " ++ country)
  else if digits.length ≠ countryLen country then
    (false, "Неверная длина номера для " ++ country ++ ". Ожидается "
      ++ toString (countryLen country) ++ " цифр, получено "
      ++ toString digits.length)
  else if country = "IL" then
    if ilMobilePre.any (fun p => p.data == digits.take 2)
        || ilLandPre.any (fun p => p.data == digits.take 2) then (true, "OK")
    else (false, "Неизвестный код оператора " ++ String.mk (digits.take 2)
      ++ " для Израиля")
  else if country = "RU" then
    if ruMobilePre.any (fun p => p.data == digits.take 3) then (true, "OK")
    else if isPrefixC "4".data (digits.take 3) ∨ isPrefixC "8".data (digits.take 3)
        ∨ (["495", "496", "498", "499"].any (fun p => p.data == digits.take 3)) then
      (true, "OK")
    else (false, "Неизвестный код оператора " ++ String.mk (digits.take 3)
      ++ " для России")
  else if country = "UA" then
    if uaMobilePre.any (fun p => p.data == digits.take 2)
        || uaLandPre.any (fun p => p.data == digits.take 2) then (true, "OK")
    else (false, "Неизвестный код оператора " ++ String.mk (digits.take 2)
      ++ " для Украины")
  else
    if digits.headD ' ' ∈ ['0', '1'] then
      (false, "Номер в США не может начинаться с 0 или 1")
    else if (digits.drop 1).headD ' ' ∈ ['0', '1'] then
      (false, "Неверный код региона " ++ String.mk (digits.take 3) ++ " для США")
    else (true, "OK")

/-- `PhoneValidator.validate_phone`:
`(is_valid, country, formatted_or_error)`. -/
def validatePhone (phone : String) : Bool × String × String :=
  if (stripL phone.data).isEmpty then
    (false, "UNKNOWN", "Телефон не может быть пустым")
  else
    let pc := cleanPhone phone
    let det := detectCountryByPhone pc
    if det.1 = "UNKNOWN" then (false, "UNKNOWN", "Не удалось определить страну")
    else
      let v := validatePhoneByCountry det.1 det.2
      if v.1 then (true, det.1, countryCode det.1 ++ String.mk det.2)
      else (false, det.1, v.2)

/-!  `core/validators.py` — `ServiceValidator`.  Django `objects.get`
raises `MultipleObjectsReturned` when several rows match; that exception
is modelled through `Except String` with the message the caller would see
in `str(e)`. -/

/-- Case-insensitive string equality (`name__iexact`). -/
def iexactEq (a b : String) : Bool := lowerL a.data == lowerL b.data

/-- Case-insensitive containment (`name__icontains`): the field value
contains the search string. -/
def icontains (field value : String) : Bool :=
  containsSub (lowerL value.data) (lowerL field.data)

/-- `ServiceValidator.validate_specialist`:
`(is_valid, message, specialist)`, or a raised `MultipleObjectsReturned`
from the `iexact` get. -/
def validateSpecialist (db : DB) (name : String) :
    Except String (Bool × String × Option Specialist) :=
  if name.data.isEmpty then Except.ok (false, "Специалист не указан", none)
  else
    match db.specialists.filter (fun sp => iexactEq sp.name (stripS name)) with
    | [sp] => Except.ok (true, "OK", some sp)
    | [] =>
      match db.specialists.filter (fun sp => icontains sp.name (stripS name)) with
      | [] =>
        Except.ok (false, "Специалист \x27" ++ name ++ "\x27 не найден. Доступны: "
          ++ String.intercalate ", " (db.specialists.map Specialist.name), none)
      | sp :: _ => Except.ok (true, "Найден специалист: " ++ sp.name, some sp)
    | l =>
      Except.error ("get() returned more than one Specialist -- it returned "
        ++ toString l.length ++ "!")

/-- `ServiceValidator.validate_service`. -/
def validateService (db : DB) (name : String) :
    Except String (Bool × String × Option Service) :=
  if name.data.isEmpty then Except.ok (false, "Услуга не указана", none)
  else
    match db.services.filter (fun sv => iexactEq sv.name (stripS name)) with
    | [sv] => Except.ok (true, "OK", some sv)
    | [] =>
      match db.services.filter (fun sv => icontains sv.name (stripS name)) with
      | [] =>
        Except.ok (false, "Услуга \x27" ++ name ++ "\x27 не найдена. Доступны: "
          ++ String.intercalate ", " (db.services.map Service.name), none)
      | sv :: _ => Except.ok (true, "Найдена услуга: " ++ sv.name, some sv)
    | l =>
      Except.error ("get() returned more than one Service -- it returned "
        ++ toString l.length ++ "!")

/-!  Correction-suggestion helpers (they only feed message text).  -/

/-- `COMMON_NAMES['ru']`. -/
def commonNamesRu : List String :=
  ["александр", "алексей", "андрей", "антон", "артем", "владимир", "дмитрий",
   "евгений", "иван", "игорь", "кирилл", "максим", "михаил", "николай",
   "олег", "павел", "роман", "сергей", "станислав", "юрий", "ярослав",
   "анна", "анастасия", "валентина", "виктория", "галина", "дарья", "елена",
   "екатерина", "ирина", "кристина", "людмила", "марина", "мария", "наталья",
   "ольга", "полина", "светлана", "татьяна", "юлия", "яна"]

/-- `COMMON_NAMES['en']`. -/
def commonNamesEn : List String :=
  ["alexander", "andrew", "anthony", "benjamin", "charles", "christopher",
   "daniel", "david", "edward", "james", "john", "joseph", "matthew",
   "michael", "robert", "thomas", "william", "alex", "mike", "dave", "tom",
   "ben", "chris", "dan", "amanda", "amy", "angela", "anna", "ashley",
   "barbara", "betty", "brenda", "carol", "carolyn", "cynthia", "deborah",
   "donna", "dorothy", "elizabeth", "emily", "helen", "jennifer", "jessica",
   "karen", "kimberly", "linda", "lisa", "maria", "mary", "michelle",
   "nancy", "patricia", "ruth", "sandra", "sarah", "sharon", "susan"]

/-- `COMMON_NAMES['he']`. -/
def commonNamesHe : List String :=
  ["אברהם", "אדם", "אהרון", "אורי", "איתן", "אלכס", "אמיר", "אריה", "אשר",
   "בנימין", "גיל", "דוד", "דן", "הלל", "זאב", "חיים", "יוסף", "יעקב",
   "ישראל", "כהן", "לוי", "מיכאל", "משה", "נתן", "עמוס", "פטר", "צבי",
   "רון", "שמואל", "אביגיל", "אדית", "אורנה", "איילת", "אלונה", "אנה",
   "בת שבע", "גילה", "דינה", "הדס", "חנה", "יעל", "כרמל", "לאה", "מירב",
   "מרים", "נעמי", "עדינה", "פנינה", "רחל", "רות", "שרה", "תמר"]

def commonNames (lang : String) : List String :=
  if lang = "ru" then commonNamesRu
  else if lang = "en" then commonNamesEn
  else if lang = "he" then commonNamesHe
  else []

/-- `NameValidator.suggest_corrections`. -/
def nameSuggestCorrections (name : String) : List String :=
  if (stripL name.data).isEmpty then ["Пожалуйста, введите ваше имя"]
  else
    let nc := String.mk (stripL name.data)
    let lang := detectLanguage nc
    let s1 :=
      if normalizeName nc ≠ nc then
        ["Возможно, вы имели в виду: " ++ normalizeName nc]
      else []
    let nlow := lowerL nc.data
    let similar := (commonNames lang).filter (fun cn =>
      nlow.length ≥ 2 && isPrefixC (nlow.take 2) cn.data)
    let s2 :=
      if lang = "ru" ∨ lang = "en" ∨ lang = "he" then
        if similar.isEmpty then []
        else ["Похожие имена: "
          ++ String.intercalate ", " ((similar.take 5).map titleS)]
      else []
    s1 ++ s2

/-- `PhoneValidator.suggest_corrections`. -/
def phoneSuggestCorrections (phone : String) : List String :=
  if (stripL phone.data).isEmpty then ["Пожалуйста, введите номер телефона"]
  else
    let pc := cleanPhone phone
    let s1 :=
      if pc.length < 9 then
        ["Номер слишком короткий. Добавьте код страны (+972, +7, +380, +1)"]
      else []
    let s2 :=
      if pc ≠ [] ∧ pc.all isDigitC then
        if pc.length = 9 then ["Возможно: +972" ++ String.mk pc ++ " (Израиль)"]
        else if pc.length = 10 then
          ["Возможно: +7" ++ String.mk pc ++ " (Россия)",
           "Возможно: +380" ++ String.mk (pc.drop 1)
             ++ " (Украина, если начинается с 0)",
           "Возможно: +1" ++ String.mk pc ++ " (США)"]
        else if pc.length = 11 then
          if isPrefixC "7".data pc then ["Возможно: +" ++ String.mk pc ++ " (Россия)"]
          else if isPrefixC "1".data pc then ["Возможно: +" ++ String.mk pc ++ " (США)"]
          else []
        else []
      else []
    let s3 :=
      if isPrefixC "00".data pc then
        ["Уберите лишний 0: +" ++ String.mk (pc.drop 2)]
      else []
    let s4 :=
      if (pc.filter (fun c => c == '+')).length > 1 then
        ["Уберите лишние +: +" ++ String.mk (pc.filter (fun c => ¬ c = '+'))]
      else []
    s1 ++ s2 ++ s3 ++ s4

/-- `phone_info['type']` of `PhoneValidator.get_phone_info`. -/
def phoneTypeOf (country : String) (digits : List Char) : String :=
  if country = "IL" then
    if ilMobilePre.any (fun p => p.data == digits.take 2) then "mobile"
    else if ilLandPre.any (fun p => p.data == digits.take 2) then "landline"
    else "unknown"
  else if country = "UA" then
    if uaMobilePre.any (fun p => p.data == digits.take 2) then "mobile"
    else if uaLandPre.any (fun p => p.data == digits.take 2) then "landline"
    else "unknown"
  else if country = "RU" then
    if ruMobilePre.any (fun p => p.data == digits.take 3) then "mobile"
    else "landline"
  else if country = "US" then "mobile_or_landline"
  else "unknown"

/-!  `ValidationManager.validate_appointment_data`  -/

/-- An entry of `result['alternatives']`: either a
`suggest_alternative_dates` dict (no `time` key) or a
`find_alternative_slots` dict (with `time`). -/
inductive AltItem
  | dateAlt (a : AltDate)
  | slotAlt (a : AltSlot)
deriving DecidableEq, Repr

/-- `result['data']` of `validate_appointment_data`. -/
structure VData where
  name : Option String
  phone : Option String
  phoneCountry : Option String
  phoneType : Option String
  service : Option Service
  specialist : Option Specialist
  date : Option Date
  timeMin : Option Nat
  dtime : Option DT
  duration : Option Nat
deriving DecidableEq, Repr

def emptyVData : VData :=
  ⟨none, none, none, none, none, none, none, none, none, none⟩

/-- `result` of `validate_appointment_data`. -/
structure VResult where
  isValid : Bool
  errors : List String
  warnings : List String
  data : VData
  suggestions : List String
  alternatives : List AltItem
deriving DecidableEq, Repr

/-- Steps 5–7 of `validate_appointment_data` (date and time parsing,
availability, patient double booking), returning
`(ok, errors, data, suggestions, alternatives)`; `pvMsg` is the
normalised phone from step 2 (empty when phone validation failed). -/
def vstep5 (db : DB) (country : String) (now : DT)
    (dateStr timeStr : String) (excl : Option Nat) (pvMsg : String)
    (sv : Bool × String × Option Service)
    (spv : Bool × String × Option Specialist) (data4 : VData) :
    Bool × List String × VData × List String × List AltItem :=
    if spv.2.2.isSome && sv.2.2.isSome && !(dateStr == "") && !(timeStr == "") then
      match validateDatetime country now dateStr timeStr with
      | ⟨dtvValid, dtvErrs, dtvDate, dtvMin, dtvDT⟩ =>
      if !dtvValid then
        (false, dtvErrs, data4, ([] : List String),
          match dtvDate with
          | some pd =>
            (suggestAlternativeDates country now pd).map AltItem.dateAlt
          | none => [])
      else
        match dtvDate, dtvMin, dtvDT, sv.2.2, spv.2.2 with
        | some pd, some pt, some pdt, some servObj, some specObj =>
          match checkAvailability db country now specObj.id pd pt
              servObj.duration with
          | (avOk, avMsg) =>
          if !avOk then
            (false, ["Время: " ++ avMsg], data4,
              ((availabilityGetSlots db country now specObj.id pd
                servObj.duration).take 5).map AvSlot.time,
              (findAlternativeSlots db country now specObj.id pd
                servObj.duration 5).map AltItem.slotAlt)
          else
            match (if !(pvMsg == "") then
                checkPatientDoubleBooking db pvMsg pdt.abs
                  (pdt.abs + servObj.duration) excl
              else (false, "")) with
            | (dblConf, dblMsg) =>
            if dblConf then
              (false, ["Конфликт записей: " ++ dblMsg], data4,
                ([] : List String), ([] : List AltItem))
            else
              (true, [],
                { data4 with
                    date := some pd
                    timeMin := some pt
                    dtime := some pdt
                    duration := some servObj.duration },
                ([] : List String), ([] : List AltItem))
        | _, _, _, _, _ =>
          (true, [], data4, ([] : List String), ([] : List AltItem))
    else (true, [], data4, ([] : List String), ([] : List AltItem))

/-- `ValidationManager.validate_appointment_data` (country `IL` as
instantiated by `LiteSmartSecretary`); raises (`Except.error`) exactly
where Django `objects.get` would raise `MultipleObjectsReturned`. -/
def validateAppointmentData (db : DB) (country : String) (now : DT)
    (name phone serviceName specialistName dateStr timeStr : String)
    (excl : Option Nat) : Except String VResult :=
  -- 1. name
  let (ok1, errs1, warns1, data1, sugg1) :=
    if !(validateName name).1 then
      (false, ["Имя: " ++ (validateName name).2], ([] : List String), emptyVData,
        nameSuggestCorrections name)
    else
      (true, [], (if !(normalizeName (stripS name) == stripS name) then
          ["Имя нормализовано: " ++ normalizeName (stripS name)] else []),
        { emptyVData with name := some (normalizeName (stripS name)) },
        [])
  -- 2. phone
  let (pvOk, pvCountry, pvMsg) := validatePhone phone
  let (ok2, errs2, data2, sugg2) :=
    if !pvOk then
      (false, ["Телефон: " ++ pvMsg], data1, phoneSuggestCorrections phone)
    else
      (true, [],
        { data1 with
            phone := some pvMsg
            phoneCountry := some pvCountry
            phoneType := some (phoneTypeOf
              (detectCountryByPhone (cleanPhone phone)).1
              (detectCountryByPhone (cleanPhone phone)).2) },
        [])
  -- 3. service
  match validateService db serviceName with
  | Except.error e => Except.error e
  | Except.ok sv =>
  let (ok3, errs3, warns3, data3) :=
    if !sv.1 then (false, ["Услуга: " ++ sv.2.1], ([] : List String), data2)
    else
      (true, [], (if !(sv.2.1 == "OK") then ["Услуга: " ++ sv.2.1] else []),
        { data2 with service := sv.2.2 })
  -- 4. specialist
  match validateSpecialist db specialistName with
  | Except.error e => Except.error e
  | Except.ok spv =>
  let (ok4, errs4, warns4, data4) :=
    if !spv.1 then
      (false, ["Специалист: " ++ spv.2.1], ([] : List String), data3)
    else
      (true, [], (if !(spv.2.1 == "OK") then ["Специалист: " ++ spv.2.1] else []),
        { data3 with specialist := spv.2.2 })
  -- 5.–7. date, time, availability, double booking
  let (ok5, errs5, data5, sugg5, alts5) :=
    vstep5 db country now dateStr timeStr excl pvMsg sv spv data4
  Except.ok
    { isValid := ok1 && ok2 && ok3 && ok4 && ok5,
      errors := errs1 ++ errs2 ++ errs3 ++ errs4 ++ errs5,
      warnings := warns1 ++ warns3 ++ warns4,
      data := data5,
      suggestions := if sugg5 ≠ [] then sugg5 else sugg1 ++ sugg2,
      alternatives := alts5 }

/-- `ValidationManager.get_validation_summary`; iterating the first three
alternatives reads `alt['time']`, which raises `KeyError` on a
`suggest_alternative_dates` entry. -/
def getValidationSummary (vr : VResult) : Except String String :=
  if vr.isValid then
    Except.ok ("✅ Все данные корректны!"
      ++ (if vr.warnings ≠ [] then
            "\n⚠️ Предупреждения: " ++ String.intercalate "; " vr.warnings
          else ""))
  else do
    let base := "❌ Обнаружены ошибки:\n"
      ++ String.join (vr.errors.map (fun e => "• " ++ e ++ "\n"))
    let withSugg :=
      if vr.suggestions ≠ [] then
        base ++ "\n💡 Рекомендуемые времена: "
          ++ String.intercalate ", " vr.suggestions
      else base
    let altLines ← (vr.alternatives.take 3).foldlM (fun acc alt =>
      match alt with
      | AltItem.slotAlt a =>
        Except.ok (acc ++ "\n  • " ++ a.dateStr ++ " (" ++ a.weekday ++ ") в "
          ++ a.time)
      | AltItem.dateAlt _ => Except.error "\x27time\x27") ""
    let full :=
      if vr.alternatives ≠ [] then
        withSugg ++ "\n📅 Альтернативные даты:" ++ altLines
      else withSugg
    Except.ok (stripS full)

/-!  `LiteSmartSecretary.create_appointment` and its simplified fallback.
Exceptions flow as `Except.error str(e)`: Django `MultipleObjectsReturned`
from duplicate-name/phone rows, the `KeyError` from
`get_validation_summary`, and the `IndexError` from `split()[0]` on an
empty service name.  The `transaction.atomic` decorator never rolls back
here because every exception is caught inside the function, so partial
writes (the patient row) survive an error return exactly as in Django. -/

inductive CreateResult
  | ok (aptId : Nat)
  | err (msg : String)
deriving DecidableEq, Repr

/-- `Patient.objects.get_or_create(phone=...)`: reuse the unique existing
row, create otherwise, raise on duplicates. -/
def getOrCreatePatient (db : DB) (phone name country city : String) :
    Except String (Patient × Bool × DB) :=
  match db.patients.filter (fun p => p.phone == phone) with
  | [p] => Except.ok (p, false, db)
  | [] =>
    Except.ok (⟨db.nextId, name, phone, country, city⟩, true,
      { db with
          patients := db.patients ++ [⟨db.nextId, name, phone, country, city⟩]
          nextId := db.nextId + 1 })
  | l =>
    Except.error ("get() returned more than one Patient -- it returned "
      ++ toString l.length ++ "!")

/-- The `service`-resolution step of the pre-check: `some (some s)` /
`some none` for a (possibly missing) service, `none` when the lookup
raised (`MultipleObjectsReturned` on the exact `get`, `IndexError` on
`split()[0]` of an empty name) and the blanket `except` aborts the
pre-check. -/
def preCheckService (db : DB) (serviceName : String) : Option (Option Service) :=
  match db.services.filter (fun sv => sv.name == serviceName) with
  | [sv] => some (some sv)
  | [] =>
    match splitWsL serviceName.data with
    | [] => none
    | w :: _ =>
      match db.services.filter (fun sv => icontains sv.name (String.mk w)) with
      | [] => some none
      | sv :: _ => some (some sv)
  | _ => none

/-- The `сегодня`-with-past-time pre-check at the top of
`create_appointment`.  `some msg` is an early `(False, msg)` return;
`none` falls through to the normal validation (any exception inside the
pre-check is swallowed by its blanket `except`). -/
def createPreCheck (db : DB) (country : String) (now : DT)
    (specialistName serviceName day time : String) : Option String :=
  if lowerL (stripL (removeParens (stripL day.data))) == "сегодня".data
      || lowerL (stripL (removeParens (stripL day.data))) == "today".data then
    match parseTimeFmt ':' time.data with
    | some t =>
      if t ≤ (now.min + 60) % 1440 then
        match db.specialists.filter (fun sp => icontains sp.name specialistName) with
        | [sp] =>
          match preCheckService db serviceName with
          | none => none
          | some so =>
            match availabilityGetSlots db country now sp.id now.date
                ((so.map Service.duration).getD 60) with
            | [] =>
              some "⚠️ На сегодня все слоты заняты. Попробуйте выбрать другой день."
            | s :: rest =>
              some ("⚠️ Время " ++ time ++ " уже прошло или слишком близко."
                ++ "\n\n✅ Доступные слоты на сегодня: "
                ++ String.intercalate ", " (((s :: rest).take 5).map AvSlot.time)
                ++ "\n\nВыберите удобное время:")
        | _ => none
      else none
    | none => none
  else none

/-- The phone normalisation at the top of `_create_simple_appointment`. -/
def simplePhone (phone : String) : String :=
  if isPrefixC "+".data (stripS phone).data then stripS phone
  else if isPrefixC "0".data (stripS phone).data then
    "+972" ++ String.mk ((stripS phone).data.drop 1)
  else if (stripS phone).data.length = 10 then "+972" ++ stripS phone
  else "+" ++ stripS phone

/-- The flexible service lookup of `_create_simple_appointment` (exact
`get`, then first-word `icontains`, then the first `массаж` service);
`Except.error` where a Python exception escapes to the fallback's own
`except` (duplicate exact names, `split()[0]` of an empty string). -/
def simpleServiceLookup (db : DB) (serviceName : String) :
    Except String (Option Service) :=
  match db.services.filter (fun sv => sv.name == serviceName) with
  | [sv] => Except.ok (some sv)
  | [] =>
    match splitWsL serviceName.data with
    | [] => Except.error "list index out of range"
    | w :: _ =>
      match db.services.filter (fun sv => icontains sv.name (String.mk w)) with
      | [] =>
        Except.ok ((db.services.filter
          (fun sv => icontains sv.name "массаж")).head?)
      | sv :: _ => Except.ok (some sv)
  | l =>
    Except.error ("get() returned more than one Service -- it returned "
      ++ toString l.length ++ "!")

/-- The specialist lookup of `_create_simple_appointment` (`icontains`
`get`, falling back to the first active specialist). -/
def simpleSpecialistLookup (db : DB) (specialistName : String) :
    Except String (Option Specialist) :=
  match db.specialists.filter (fun sp => icontains sp.name specialistName) with
  | [sp] => Except.ok (some sp)
  | [] => Except.ok ((db.specialists.filter Specialist.isActive).head?)
  | l =>
    Except.error ("get() returned more than one Specialist -- it returned "
      ++ toString l.length ++ "!")

/-- The fallback's date resolution: `сегодня`/`today` → today, anything
else (including `завтра`) → tomorrow. -/
def simpleDate (now : DT) (day : String) : Date :=
  if containsSub "сегодня".data (lowerL day.data)
      || containsSub "today".data (lowerL day.data) then now.date
  else if containsSub "завтра".data (lowerL day.data)
      || containsSub "tomorrow".data (lowerL day.data) then now.date.addDays 1
  else now.date.addDays 1

/-- `LiteSmartSecretary._create_simple_appointment` (the fallback used
when the main path raises).  It never touches the session store. -/
def createSimpleAppointment (db : DB) (now : DT) (sid : String)
    (name phone serviceName specialistName day time : String) :
    CreateResult × DB :=
  match getOrCreatePatient db (simplePhone phone) (titleS (stripS name))
      "Israel" "Иерусалим" with
  | Except.error e => (CreateResult.err ("Не удалось создать запись: " ++ e), db)
  | Except.ok (patient, _, db2) =>
    match simpleServiceLookup db2 serviceName with
    | Except.error e =>
      (CreateResult.err ("Не удалось создать запись: " ++ e), db2)
    | Except.ok none =>
      (CreateResult.err "Не удалось найти подходящую услугу", db2)
    | Except.ok (some sv) =>
      match simpleSpecialistLookup db2 specialistName with
      | Except.error e =>
        (CreateResult.err ("Не удалось создать запись: " ++ e), db2)
      | Except.ok none => (CreateResult.err "Не удалось найти специалиста", db2)
      | Except.ok (some sp) =>
        (CreateResult.ok db2.nextId,
         { db2 with
             appointments := db2.appointments ++
               [⟨db2.nextId, patient.id, sp.id, sv.id,
                 ⟨simpleDate now day, (parseTimeFmt ':' time.data).getD 600⟩,
                 DT.addMinutes
                   ⟨simpleDate now day, (parseTimeFmt ':' time.data).getD 600⟩
                   sv.duration,
                 "pending", "web",
                 "Упрощенная запись через ИИ-чат (сессия: " ++ sid ++ ")"⟩]
             nextId := db2.nextId + 1 })

/-- The `"Ошибка валидации: отсутствуют данные ..."` message listing the
keys absent from `validation_result[\x27data\x27]`. -/
def missingDataMsg (vd : VData) : String :=
  "Ошибка валидации: отсутствуют данные " ++ String.intercalate ", "
    ((if vd.date.isNone then ["date"] else [])
      ++ (if vd.timeMin.isNone then ["time"] else []))

/-- `LiteSmartSecretary.create_appointment` (the `ValidationManager` is
constructed with the default country `IL`). -/
def createAppointment (db : DB) (st : Store) (now : DT) (sid : String)
    (name phone serviceName specialistName day time : String) :
    CreateResult × DB × Store :=
  match createPreCheck db "IL" now specialistName serviceName day time with
  | some msg => (CreateResult.err msg, db, st)
  | none =>
  match validateAppointmentData db "IL" now name phone serviceName
      specialistName day time none with
  | Except.error _ =>
    match createSimpleAppointment db now sid name phone serviceName
        specialistName day time with
    | (r1, r2) => (r1, r2, st)
  | Except.ok vr =>
    if !vr.isValid then
      -- The time-conflict / weekend branch (source lines 976-1000) can never
      -- return: it joins `available_slots[:5]` — a list of dicts, with no
      -- [\x27time\x27] projection unlike the pre-check — so a nonempty slot
      -- list raises TypeError, absorbed by the `except` at line 999, and an
      -- empty list skips the `return`.  Control always falls through to
      -- get_validation_summary, so the branch is omitted here.
      match getValidationSummary vr with
      | Except.ok m => (CreateResult.err m, db, st)
      | Except.error _ =>
        match createSimpleAppointment db now sid name phone serviceName
            specialistName day time with
        | (r1, r2) => (r1, r2, st)
    else
      match getOrCreatePatient db (vr.data.phone.getD "") (vr.data.name.getD "")
          (vr.data.phoneCountry.getD "Israel") "Иерусалим" with
      | Except.error _ =>
        match createSimpleAppointment db now sid name phone serviceName
            specialistName day time with
        | (r1, r2) => (r1, r2, st)
      | Except.ok (patient, _, db2) =>
        match vr.data.service, vr.data.specialist with
        | some sv, some sp =>
          if vr.data.date.isNone || vr.data.timeMin.isNone then
            (CreateResult.err (missingDataMsg vr.data), db2, st)
          else
            match vr.data.date, vr.data.timeMin with
            | some d, some tmin =>
              (CreateResult.ok db2.nextId,
               { db2 with
                   appointments := db2.appointments ++
                     [⟨db2.nextId, patient.id, sp.id, sv.id, ⟨d, tmin⟩,
                       DT.addMinutes ⟨d, tmin⟩ sv.duration, "pending", "web",
                       "Запись через ИИ-чат (сессия: " ++ sid ++ ")"⟩]
                   nextId := db2.nextId + 1 },
               storeSet (getSession st sid now).2 sid
                 { (getSession st sid now).1 with
                     entities := { (getSession st sid now).1.entities with
                       appointmentId := some db2.nextId }
                     state := "completed" })
            | _, _ => (CreateResult.err "", db2, st)
        | _, _ =>
          match createSimpleAppointment db2 now sid name phone serviceName
              specialistName day time with
          | (r1, r2) => (r1, r2, st)


/-!  Concrete scenarios for the `create_appointment` theorems.  -/

/-- A database with one service, one active specialist and no patients. -/
def dbC4 : DB :=
  { patients := []
    services := [⟨1, "Массаж спины", 60⟩]
    specialists := [⟨1, "Анна Петрова", true⟩]
    appointments := []
    nextId := 1 }

/-- Tuesday 2025-10-14, 08:00. -/
def nowC4 : DT := ⟨⟨2025, 10, 14⟩, 480⟩

/-- The validation result of a fully valid booking request against
`dbC4` (name, phone, service, specialist, Wednesday 2025-10-15, 12:00). -/
def vrC4 : VResult :=
  match validateAppointmentData dbC4 "IL" nowC4 "Иван" "+972501234567"
      "Массаж спины" "Анна Петрова" "2025-10-15" "12:00" none with
  | Except.ok v => v
  | Except.error _ => ⟨false, [], [], emptyVData, [], []⟩

/-- The same clinic database, for the failure scenario. -/
def dbC5 : DB :=
  { patients := []
    services := [⟨1, "Массаж спины", 60⟩]
    specialists := [⟨1, "Анна Петрова", true⟩]
    appointments := []
    nextId := 1 }

/-- Tuesday 2025-10-14, 08:00. -/
def nowC5 : DT := ⟨⟨2025, 10, 14⟩, 480⟩

/-- The database after the failing `create_appointment` call with an
empty date and time: a patient row has appeared although the call
returned an error. -/
def dbC5after : DB :=
  { patients := [⟨1, "Иван", "+972501234567", "IL", "Иерусалим"⟩]
    services := [⟨1, "Массаж спины", 60⟩]
    specialists := [⟨1, "Анна Петрова", true⟩]
    appointments := []
    nextId := 2 }

/-!  Supporting lemmas for the `create_appointment` theorems.  -/

theorem isPrefixC_append (p t : List Char) : isPrefixC p (p ++ t) = true := by
  induction p with
  | nil => rfl
  | cons c cs ih => simpa [isPrefixC] using ih

theorem data_append (a b : String) : (a ++ b).data = a.data ++ b.data := rfl

theorem getOrCreatePatient_state (db : DB) (ph nm co ci : String) (p : Patient)
    (c : Bool) (db2 : DB)
    (h : getOrCreatePatient db ph nm co ci = Except.ok (p, c, db2)) :
    db2.appointments = db.appointments ∧ db2.services = db.services ∧
      db2.specialists = db.specialists ∧
      (db2.patients = db.patients ∨ db2.patients = db.patients ++ [p]) := by
  unfold getOrCreatePatient at h
  split at h
  · simp only [Except.ok.injEq, Prod.mk.injEq] at h
    obtain ⟨h1, h2, h3⟩ := h
    subst h3
    exact ⟨rfl, rfl, rfl, Or.inl rfl⟩
  · simp only [Except.ok.injEq, Prod.mk.injEq] at h
    obtain ⟨h1, h2, h3⟩ := h
    subst h3
    subst h1
    exact ⟨rfl, rfl, rfl, Or.inr rfl⟩
  · cases h

theorem createPreCheck_some (db : DB) (co : String) (now : DT)
    (spn sn d t m : String)
    (h : createPreCheck db co now spn sn d t = some m) :
    isPrefixC "⚠️ Время ".data m.data = true
      ∨ m = "⚠️ На сегодня все слоты заняты. Попробуйте выбрать другой день." := by
  unfold createPreCheck at h
  repeat' split at h
  all_goals cases h
  all_goals first
    | exact Or.inr rfl
    | (refine Or.inl ?_
       simp only [data_append, List.append_assoc]
       exact isPrefixC_append _ _)

theorem validateService_ok_some (db : DB) (n : String)
    (sv : Bool × String × Option Service)
    (h : validateService db n = Except.ok sv) (h1 : sv.1 = true) :
    sv.2.2.isSome = true := by
  unfold validateService at h
  repeat' split at h
  all_goals first
    | (cases h; rfl)
    | (cases h; cases h1)
    | cases h

theorem validateSpecialist_ok_some (db : DB) (n : String)
    (spv : Bool × String × Option Specialist)
    (h : validateSpecialist db n = Except.ok spv) (h1 : spv.1 = true) :
    spv.2.2.isSome = true := by
  unfold validateSpecialist at h
  repeat' split at h
  all_goals first
    | (cases h; rfl)
    | (cases h; cases h1)
    | cases h

theorem vstep5_data_keeps (db : DB) (co : String) (now : DT)
    (ds ts : String) (ex : Option Nat) (pv : String)
    (sv : Bool × String × Option Service)
    (spv : Bool × String × Option Specialist) (d4 : VData) :
    (vstep5 db co now ds ts ex pv sv spv d4).2.2.1.service = d4.service ∧
      (vstep5 db co now ds ts ex pv sv spv d4).2.2.1.specialist = d4.specialist := by
  unfold vstep5
  repeat' split
  all_goals simp

theorem validateAppointmentData_valid_some (db : DB) (co : String) (now : DT)
    (n p sn spn ds ts : String) (ex : Option Nat) (vr : VResult)
    (h : validateAppointmentData db co now n p sn spn ds ts ex = Except.ok vr)
    (hv : vr.isValid = true) :
    vr.data.service.isSome = true ∧ vr.data.specialist.isSome = true := by
  cases hsv : validateService db sn with
  | error e =>
    unfold validateAppointmentData at h
    rw [hsv] at h
    simp only at h
    cases h
  | ok sv =>
    cases hspv : validateSpecialist db spn with
    | error e =>
      unfold validateAppointmentData at h
      rw [hsv, hspv] at h
      simp only at h
      cases h
    | ok spv =>
      unfold validateAppointmentData at h
      rw [hsv, hspv] at h
      have hsv2 := validateService_ok_some db sn sv hsv
      have hspv2 := validateSpecialist_ok_some db spn spv hspv
      simp only at h
      cases h
      dsimp only at hv ⊢
      rw [(vstep5_data_keeps db co now ds ts ex _ sv spv _).1,
          (vstep5_data_keeps db co now ds ts ex _ sv spv _).2]
      revert hv
      repeat' split
      all_goals intro hv
      all_goals simp_all

theorem createSimpleAppointment_err (db : DB) (now : DT)
    (sid n ph sn spn d t m : String) (db2 : DB)
    (h : createSimpleAppointment db now sid n ph sn spn d t
        = (CreateResult.err m, db2)) :
    db2.appointments = db.appointments ∧
      (db2.patients = db.patients ∨ ∃ q, db2.patients = db.patients ++ [q]) ∧
      (isPrefixC "Не удалось создать запись: ".data m.data = true
        ∨ m = "Не удалось найти подходящую услугу"
        ∨ m = "Не удалось найти специалиста") := by
  unfold createSimpleAppointment at h
  split at h
  · simp only [Prod.mk.injEq, CreateResult.err.injEq] at h
    obtain ⟨hm, hdb⟩ := h
    subst hm
    subst hdb
    refine ⟨rfl, Or.inl rfl, Or.inl ?_⟩
    simp only [data_append, List.append_assoc]
    exact isPrefixC_append _ _
  · rename_i patient c dbp heqP
    have hstate := getOrCreatePatient_state _ _ _ _ _ _ _ _ heqP
    have hpat : dbp.patients = db.patients
        ∨ ∃ q, dbp.patients = db.patients ++ [q] := by
      rcases hstate.2.2.2 with hq | hq
      · exact Or.inl hq
      · exact Or.inr ⟨patient, hq⟩
    split at h
    · simp only [Prod.mk.injEq, CreateResult.err.injEq] at h
      obtain ⟨hm, hdb⟩ := h
      subst hm
      subst hdb
      refine ⟨hstate.1, hpat, Or.inl ?_⟩
      simp only [data_append, List.append_assoc]
      exact isPrefixC_append _ _
    · simp only [Prod.mk.injEq, CreateResult.err.injEq] at h
      obtain ⟨hm, hdb⟩ := h
      subst hm
      subst hdb
      exact ⟨hstate.1, hpat, Or.inr (Or.inl rfl)⟩
    · split at h
      · simp only [Prod.mk.injEq, CreateResult.err.injEq] at h
        obtain ⟨hm, hdb⟩ := h
        subst hm
        subst hdb
        refine ⟨hstate.1, hpat, Or.inl ?_⟩
        simp only [data_append, List.append_assoc]
        exact isPrefixC_append _ _
      · simp only [Prod.mk.injEq, CreateResult.err.injEq] at h
        obtain ⟨hm, hdb⟩ := h
        subst hm
        subst hdb
        exact ⟨hstate.1, hpat, Or.inr (Or.inr rfl)⟩
      · simp only [Prod.mk.injEq] at h
        obtain ⟨h1, h2⟩ := h
        cases h1

/-- The messages `create_appointment` can fail with: the two pre-check
templates, a `get_validation_summary` rendering of an invalid validation
result, the missing-data template, and the three fallback messages. -/
def isFailureTemplate (msg : String) : Prop :=
  isPrefixC "⚠️ Время ".data msg.data = true
  ∨ msg = "⚠️ На сегодня все слоты заняты. Попробуйте выбрать другой день."
  ∨ (∃ vr : VResult, vr.isValid = false ∧ getValidationSummary vr = Except.ok msg)
  ∨ isPrefixC "Ошибка валидации: отсутствуют данные ".data msg.data = true
  ∨ isPrefixC "Не удалось создать запись: ".data msg.data = true
  ∨ msg = "Не удалось найти подходящую услугу"
  ∨ msg = "Не удалось найти специалиста"

theorem missingDataMsg_starts (vd : VData) :
    isPrefixC "Ошибка валидации: отсутствуют данные ".data
      (missingDataMsg vd).data = true := by
  unfold missingDataMsg
  simp only [data_append, List.append_assoc]
  exact isPrefixC_append _ _

/-- C5 (amended): whenever `create_appointment` returns an error, the
message is one of the fixed Russian templates, the appointment table and
the session store are unchanged — but the patient table may have grown
by one row (`get_or_create` runs before the missing-data check and the
fallback creates patients too), contrary to the original claim. -/
theorem c5_error_effects (db : DB) (st : Store) (now : DT)
    (sid name phone serviceName specialistName day time msg : String)
    (db2 : DB) (st2 : Store)
    (h : createAppointment db st now sid name phone serviceName specialistName
        day time = (CreateResult.err msg, db2, st2)) :
    db2.appointments = db.appointments ∧ st2 = st ∧
      (db2.patients = db.patients ∨ ∃ q, db2.patients = db.patients ++ [q]) ∧
      isFailureTemplate msg := by
  unfold createAppointment at h
  split at h
  · rename_i p hpre
    simp only [Prod.mk.injEq, CreateResult.err.injEq] at h
    obtain ⟨hm, hdb, hst⟩ := h
    subst hm
    subst hdb
    subst hst
    refine ⟨rfl, rfl, Or.inl rfl, ?_⟩
    rcases createPreCheck_some _ _ _ _ _ _ _ _ hpre with hp | hp
    · exact Or.inl hp
    · exact Or.inr (Or.inl hp)
  · split at h
    · split at h
      rename_i r1 r2 hCSA
      simp only [Prod.mk.injEq] at h
      obtain ⟨h1, h2, h3⟩ := h
      subst h1
      subst h2
      subst h3
      have hx := createSimpleAppointment_err _ _ _ _ _ _ _ _ _ _ _ hCSA
      refine ⟨hx.1, rfl, hx.2.1, ?_⟩
      rcases hx.2.2 with hp | hp | hp
      · exact Or.inr (Or.inr (Or.inr (Or.inr (Or.inl hp))))
      · exact Or.inr (Or.inr (Or.inr (Or.inr (Or.inr (Or.inl hp)))))
      · exact Or.inr (Or.inr (Or.inr (Or.inr (Or.inr (Or.inr hp)))))
    · rename_i vr hVal
      split at h
      · rename_i hinv
        split at h
        · rename_i m hSum
          simp only [Prod.mk.injEq, CreateResult.err.injEq] at h
          obtain ⟨hm, hdb, hst⟩ := h
          subst hm
          subst hdb
          subst hst
          refine ⟨rfl, rfl, Or.inl rfl,
            Or.inr (Or.inr (Or.inl ⟨vr, ?_, hSum⟩))⟩
          simpa using hinv
        · split at h
          rename_i r1 r2 hCSA
          simp only [Prod.mk.injEq] at h
          obtain ⟨h1, h2, h3⟩ := h
          subst h1
          subst h2
          subst h3
          have hx := createSimpleAppointment_err _ _ _ _ _ _ _ _ _ _ _ hCSA
          refine ⟨hx.1, rfl, hx.2.1, ?_⟩
          rcases hx.2.2 with hp | hp | hp
          · exact Or.inr (Or.inr (Or.inr (Or.inr (Or.inl hp))))
          · exact Or.inr (Or.inr (Or.inr (Or.inr (Or.inr (Or.inl hp)))))
          · exact Or.inr (Or.inr (Or.inr (Or.inr (Or.inr (Or.inr hp)))))
      · rename_i hval'
        split at h
        · split at h
          rename_i r1 r2 hCSA
          simp only [Prod.mk.injEq] at h
          obtain ⟨h1, h2, h3⟩ := h
          subst h1
          subst h2
          subst h3
          have hx := createSimpleAppointment_err _ _ _ _ _ _ _ _ _ _ _ hCSA
          refine ⟨hx.1, rfl, hx.2.1, ?_⟩
          rcases hx.2.2 with hp | hp | hp
          · exact Or.inr (Or.inr (Or.inr (Or.inr (Or.inl hp))))
          · exact Or.inr (Or.inr (Or.inr (Or.inr (Or.inr (Or.inl hp)))))
          · exact Or.inr (Or.inr (Or.inr (Or.inr (Or.inr (Or.inr hp)))))
        · rename_i patient cr dbp hP
          have hstate := getOrCreatePatient_state _ _ _ _ _ _ _ _ hP
          have hpat : dbp.patients = db.patients
              ∨ ∃ q, dbp.patients = db.patients ++ [q] := by
            rcases hstate.2.2.2 with hq | hq
            · exact Or.inl hq
            · exact Or.inr ⟨patient, hq⟩
          split at h
          · rename_i sv sp hsv hsp
            split at h
            · simp only [Prod.mk.injEq, CreateResult.err.injEq] at h
              obtain ⟨hm, hdb, hst⟩ := h
              subst hm
              subst hdb
              subst hst
              exact ⟨hstate.1, rfl, hpat,
                Or.inr (Or.inr (Or.inr (Or.inl (missingDataMsg_starts _))))⟩
            · rename_i hcond
              split at h
              · exact absurd (congrArg Prod.fst h) (by simp)
              · rename_i hnone
                cases hd : vr.data.date with
                | none =>
                  rw [hd] at hcond
                  simp at hcond
                | some dd =>
                  cases ht : vr.data.timeMin with
                  | none =>
                    rw [ht] at hcond
                    simp at hcond
                  | some tt => exact (hnone dd tt hd ht).elim
          · rename_i hno
            have hvv : vr.isValid = true := by
              cases hb : vr.isValid
              · exact absurd (by simp [hb]) hval'
              · rfl
            obtain ⟨hs1, hs2⟩ :=
              validateAppointmentData_valid_some _ _ _ _ _ _ _ _ _ _ _ hVal hvv
            cases hservo : vr.data.service with
            | none =>
              rw [hservo] at hs1
              simp at hs1
            | some sv0 =>
              cases hspo : vr.data.specialist with
              | none =>
                rw [hspo] at hs2
                simp at hs2
              | some sp0 => exact (hno sv0 sp0 hservo hspo).elim

/-- C4: when `create_appointment` passes the pre-check and validation
succeeds (`is_valid`, with the validated service, specialist, date and
time present in `data`), then: if exactly one patient already has the
validated phone number, the patient table is unchanged (the existing row
is reused, none of its fields overwritten) and exactly one appointment
row is appended for that patient, with `end_time = start_time +
service.duration` minutes, status `pending`; if no patient has that
phone, exactly one patient row (keyed by the validated phone) and one
appointment row are appended, the appointment referring to the new
patient. -/
theorem c4_create_success (db : DB) (st : Store) (now : DT)
    (sid name phone serviceName specialistName day time : String)
    (vr : VResult) (sv : Service) (sp : Specialist) (d : Date) (tmin : Nat)
    (hpre : createPreCheck db "IL" now specialistName serviceName day time = none)
    (hv : validateAppointmentData db "IL" now name phone serviceName
        specialistName day time none = Except.ok vr)
    (hvalid : vr.isValid = true)
    (hsv : vr.data.service = some sv) (hsp : vr.data.specialist = some sp)
    (hd : vr.data.date = some d) (ht : vr.data.timeMin = some tmin) :
    (∀ q, db.patients.filter (fun p => p.phone == vr.data.phone.getD "") = [q] →
      createAppointment db st now sid name phone serviceName specialistName
          day time
        = (CreateResult.ok db.nextId,
           { db with
               appointments := db.appointments ++
                 [⟨db.nextId, q.id, sp.id, sv.id, ⟨d, tmin⟩,
                   DT.addMinutes ⟨d, tmin⟩ sv.duration, "pending", "web",
                   "Запись через ИИ-чат (сессия: " ++ sid ++ ")"⟩]
               nextId := db.nextId + 1 },
           storeSet (getSession st sid now).2 sid
             { (getSession st sid now).1 with
                 entities := { (getSession st sid now).1.entities with
                   appointmentId := some db.nextId }
                 state := "completed" })) ∧
    (db.patients.filter (fun p => p.phone == vr.data.phone.getD "") = [] →
      createAppointment db st now sid name phone serviceName specialistName
          day time
        = (CreateResult.ok (db.nextId + 1),
           { db with
               patients := db.patients ++
                 [⟨db.nextId, vr.data.name.getD "", vr.data.phone.getD "",
                   vr.data.phoneCountry.getD "Israel", "Иерусалим"⟩]
               appointments := db.appointments ++
                 [⟨db.nextId + 1, db.nextId, sp.id, sv.id, ⟨d, tmin⟩,
                   DT.addMinutes ⟨d, tmin⟩ sv.duration, "pending", "web",
                   "Запись через ИИ-чат (сессия: " ++ sid ++ ")"⟩]
               nextId := db.nextId + 2 },
           storeSet (getSession st sid now).2 sid
             { (getSession st sid now).1 with
                 entities := { (getSession st sid now).1.entities with
                   appointmentId := some (db.nextId + 1) }
                 state := "completed" })) := by
  constructor
  · intro q hfilter
    have hgo : getOrCreatePatient db (vr.data.phone.getD "")
        (vr.data.name.getD "") (vr.data.phoneCountry.getD "Israel") "Иерусалим"
        = Except.ok (q, false, db) := by
      unfold getOrCreatePatient
      rw [hfilter]
    unfold createAppointment
    simp only [hpre, hv, hvalid, hgo, hsv, hsp, hd, ht, Bool.not_true,
      Bool.false_eq_true, if_false, Option.isNone_some, Bool.or_self]
  · intro hfilter
    have hgo : getOrCreatePatient db (vr.data.phone.getD "")
        (vr.data.name.getD "") (vr.data.phoneCountry.getD "Israel") "Иерусалим"
        = Except.ok
            (⟨db.nextId, vr.data.name.getD "", vr.data.phone.getD "",
              vr.data.phoneCountry.getD "Israel", "Иерусалим"⟩, true,
             { db with
                 patients := db.patients ++
                   [⟨db.nextId, vr.data.name.getD "", vr.data.phone.getD "",
                     vr.data.phoneCountry.getD "Israel", "Иерусалим"⟩]
                 nextId := db.nextId + 1 }) := by
      unfold getOrCreatePatient
      rw [hfilter]
    unfold createAppointment
    simp only [hpre, hv, hvalid, hgo, hsv, hsp, hd, ht, Bool.not_true,
      Bool.false_eq_true, if_false, Option.isNone_some, Bool.or_self]

/-- Counterexample to C5 as stated: with valid name, phone, service and
specialist but empty day and time, the call fails (missing-data message)
yet a new patient row has been created. -/
theorem c5_counterexample :
    createAppointment dbC5 [] nowC5 "s1" "Иван" "+972501234567"
        "Массаж спины" "Анна Петрова" "" ""
      = (CreateResult.err "Ошибка валидации: отсутствуют данные date, time",
         dbC5after, []) ∧ dbC5.patients = [] ∧ dbC5after.patients.length = 1 :=
  ⟨rfl, rfl, rfl⟩

/-- Witness for C5: the amended theorem applied to the concrete failing
call. -/
theorem c5_witness :
    dbC5after.appointments = dbC5.appointments
    ∧ ([] : Store) = ([] : Store)
    ∧ (dbC5after.patients = dbC5.patients
        ∨ ∃ q, dbC5after.patients = dbC5.patients ++ [q])
    ∧ isFailureTemplate "Ошибка валидации: отсутствуют данные date, time" :=
  c5_error_effects dbC5 [] nowC5 "s1" "Иван" "+972501234567" "Массаж спины"
    "Анна Петрова" "" "" "Ошибка валидации: отсутствуют данные date, time"
    dbC5after [] rfl

/-- Witness for C4: the success theorem applied to the concrete valid
booking; since `dbC4` has no patients, the create branch fires, producing
patient 1 and appointment 2 (12:00–13:00, pending). -/
theorem c4_witness :
    createAppointment dbC4 [] nowC4 "s1" "Иван" "+972501234567" "Массаж спины"
        "Анна Петрова" "2025-10-15" "12:00"
      = (CreateResult.ok 2,
         { patients := [⟨1, "Иван", "+972501234567", "IL", "Иерусалим"⟩]
           services := [⟨1, "Массаж спины", 60⟩]
           specialists := [⟨1, "Анна Петрова", true⟩]
           appointments := [⟨2, 1, 1, 1, ⟨⟨2025, 10, 15⟩, 720⟩,
             ⟨⟨2025, 10, 15⟩, 780⟩, "pending", "web",
             "Запись через ИИ-чат (сессия: s1)"⟩]
           nextId := 3 },
         [("s1", { state := "completed"
                   entities := ⟨none, none, none, none, none, none, some 2⟩
                   history := []
                   createdAt := nowC4
                   lastUpdate := nowC4 })]) :=
  (c4_create_success dbC4 [] nowC4 "s1" "Иван" "+972501234567" "Массаж спины"
    "Анна Петрова" "2025-10-15" "12:00" vrC4 ⟨1, "Массаж спины", 60⟩
    ⟨1, "Анна Петрова", true⟩ ⟨2025, 10, 15⟩ 720 rfl rfl rfl rfl rfl rfl
    rfl).2 rfl


/-!  `core/calendar_manager.py` — `DateParser`, and
`LiteSmartSecretary.process_message` with its dialog flow.  The response
dict is reduced to its `reply` string: the other fields (`intent`,
`next_field`, `progress`, `session_data`) are pure functions of the same
state and never flow back into the store or the database. -/

/-- Digit value of a character. -/
def digitVal (c : Char) : Nat := c.toNat - 48

/-- Leftmost-match scanner for the `DateParser` time patterns. -/
def searchHM (m : List Char → Option (Nat × Nat)) : List Char → Option (Nat × Nat)
  | [] => m []
  | c :: t =>
    match m (c :: t) with
    | some r => some r
    | none => searchHM m t

/-- Pattern `(\d{1,2}):(\d{2})` at the current position (two-digit hour
preferred, with backtracking to one digit). -/
def dpP1 (l : List Char) : Option (Nat × Nat) :=
  match
    (match l with
     | a :: b :: c :: d :: e :: _ =>
       if isDigitC a && isDigitC b && c == ':' && isDigitC d && isDigitC e then
         some (digitVal a * 10 + digitVal b, digitVal d * 10 + digitVal e)
       else none
     | _ => none) with
  | some r => some r
  | none =>
    match l with
    | a :: c :: d :: e :: _ =>
      if isDigitC a && c == ':' && isDigitC d && isDigitC e then
        some (digitVal a, digitVal d * 10 + digitVal e)
      else none
    | _ => none

/-- Pattern `(\d{1,2})\s*часов?` at the current position (`часов?` is the
literal `часо` with an optional `в`, so matching `часо` suffices). -/
def dpP2 (l : List Char) : Option (Nat × Nat) :=
  match
    (match l with
     | a :: b :: t =>
       if isDigitC a && isDigitC b
          && isPrefixC "часо".data (t.dropWhile isSpacePy) then
         some (digitVal a * 10 + digitVal b, 0)
       else none
     | _ => none) with
  | some r => some r
  | none =>
    match l with
    | a :: t =>
      if isDigitC a && isPrefixC "часо".data (t.dropWhile isSpacePy) then
        some (digitVal a, 0)
      else none
    | _ => none

/-- Pattern `в\s*(\d{1,2})` at the current position. -/
def dpP3 (l : List Char) : Option (Nat × Nat) :=
  match l with
  | c :: t =>
    if c == 'в' then
      match t.dropWhile isSpacePy with
      | a :: b :: _ =>
        if isDigitC a && isDigitC b then some (digitVal a * 10 + digitVal b, 0)
        else if isDigitC a then some (digitVal a, 0)
        else none
      | [a] => if isDigitC a then some (digitVal a, 0) else none
      | [] => none
    else none
  | [] => none

/-- The optional `\s*:?\s*(\d{2})?` tail of pattern 4: the minutes, when
a two-digit group follows. -/
def dpP4Tail (t : List Char) : Nat :=
  match (t.dropWhile isSpacePy) with
  | c :: r =>
    match (if c == ':' then r.dropWhile isSpacePy else c :: r) with
    | d :: e :: _ => if isDigitC d && isDigitC e then digitVal d * 10 + digitVal e else 0
    | _ => 0
  | [] => 0

/-- Pattern `на\s*(\d{1,2})\s*:?\s*(\d{2})?` at the current position. -/
def dpP4 (l : List Char) : Option (Nat × Nat) :=
  match l with
  | c1 :: c2 :: t =>
    if c1 == 'н' && c2 == 'а' then
      match t.dropWhile isSpacePy with
      | a :: b :: r =>
        if isDigitC a && isDigitC b then
          some (digitVal a * 10 + digitVal b, dpP4Tail r)
        else if isDigitC a then some (digitVal a, dpP4Tail (b :: r))
        else none
      | [a] => if isDigitC a then some (digitVal a, 0) else none
      | [] => none
    else none
  | _ => none

/-- The `\s*:\s*(\d{2})` tail of pattern 5. -/
def dpP5Tail (t : List Char) : Option Nat :=
  match t.dropWhile isSpacePy with
  | c :: r =>
    if c == ':' then
      match r.dropWhile isSpacePy with
      | d :: e :: _ =>
        if isDigitC d && isDigitC e then some (digitVal d * 10 + digitVal e)
        else none
      | _ => none
    else none
  | [] => none

/-- Pattern `(\d{1,2})\s*:\s*(\d{2})` at the current position (two-digit
hour preferred, with backtracking). -/
def dpP5 (l : List Char) : Option (Nat × Nat) :=
  match
    (match l with
     | a :: b :: t =>
       if isDigitC a && isDigitC b then
         match dpP5Tail t with
         | some mi => some (digitVal a * 10 + digitVal b, mi)
         | none => none
       else none
     | _ => none) with
  | some r => some r
  | none =>
    match l with
    | a :: t =>
      if isDigitC a then
        match dpP5Tail t with
        | some mi => some (digitVal a, mi)
        | none => none
      else none
    | [] => none

/-- The `0 <= hour <= 23 and 0 <= minute <= 59` check of
`DateParser._extract_time`; a match failing it falls through to the next
pattern (Python breaks out of the `if match` block, not the loop). -/
def dpValid : Option (Nat × Nat) → Option (Nat × Nat)
  | some (h, m) => if h ≤ 23 && m ≤ 59 then some (h, m) else none
  | none => none

/-- `DateParser._extract_time`: the five patterns in order, each searched
leftmost on the original (not lowercased) text. -/
def dpExtractTime (text : String) : Option (Nat × Nat) :=
  match dpValid (searchHM dpP1 text.data) with
  | some r => some r
  | none =>
    match dpValid (searchHM dpP2 text.data) with
    | some r => some r
    | none =>
      match dpValid (searchHM dpP3 text.data) with
      | some r => some r
      | none =>
        match dpValid (searchHM dpP4 text.data) with
        | some r => some r
        | none => dpValid (searchHM dpP5 text.data)

/-- `DateParser._get_next_weekday` (offset to the next such weekday,
always 1–7). -/
def nextWeekdayOffset (now : DT) (w : Nat) : Nat :=
  if w ≤ now.date.weekday then w + 7 - now.date.weekday
  else w - now.date.weekday

/-- `DateParser.relative_dates` in insertion order (`завтра` before the
weekday words, so `послезавтра` in a message is caught by the substring
`завтра` first — the dict is scanned in order by `extract_datetime`). -/
def dpRelativeDates (now : DT) : List (String × Nat) :=
  [("сегодня", 0), ("завтра", 1), ("послезавтра", 2),
   ("понедельник", nextWeekdayOffset now 0),
   ("вторник", nextWeekdayOffset now 1),
   ("среду", nextWeekdayOffset now 2),
   ("четверг", nextWeekdayOffset now 3),
   ("пятницу", nextWeekdayOffset now 4),
   ("субботу", nextWeekdayOffset now 5),
   ("воскресенье", nextWeekdayOffset now 6)]

/-- `DateParser.extract_datetime`: first relative-date word contained in
the lowercased stripped text, with the extracted time (default 9:00). -/
def dpExtractDatetime (now : DT) (text : String) : Option DT :=
  match (dpRelativeDates now).find? (fun p =>
      containsSub p.1.data (lowerL (stripL text.data))) with
  | some po =>
    match dpExtractTime text with
    | some (h, m) => some ⟨now.date.addDays po.2, 60 * h + m⟩
    | none => some ⟨now.date.addDays po.2, 540⟩
  | none => none

/-- Order-preserving grouping of slots by formatted date
(`format_available_slots`). -/
def fasInsert (acc : List (String × List String)) (s : CalSlot) :
    List (String × List String) :=
  if acc.any (fun p => p.1 == s.formattedDate) then
    acc.map (fun p =>
      if p.1 == s.formattedDate then (p.1, p.2 ++ [s.formattedTime]) else p)
  else acc ++ [(s.formattedDate, [s.formattedTime])]

/-- `DateParser.format_available_slots`. -/
def formatAvailableSlots (slots : List CalSlot) : String :=
  match slots with
  | [] => "К сожалению, на эту дату нет свободного времени."
  | [s] => "Доступно время: " ++ s.formattedTime ++ " (" ++ s.formattedDate ++ ")"
  | _ =>
    stripS ((slots.foldl fasInsert []).foldl (fun acc p =>
      acc ++ "• " ++ p.1 ++ ": " ++ String.intercalate ", " p.2 ++ "\n")
      "Доступное время:\n")

/-- `LiteSmartSecretary._is_memory_complaint`. -/
def isMemoryComplaint (msg : String) : Bool :=
  ["уже говорил", "уже сказал", "уже называл", "я тебе говорил", "повторяю",
   "забыл", "не помнишь", "уже отвечал", "я же говорил"].any
    (fun c => containsSub c.data (lowerL msg.data))

/-- The reply of `LiteSmartSecretary._handle_memory_complaint`. -/
def handleMemoryComplaintReply (e : Entities) : String :=
  match (if truthy e.name then ["имя: " ++ e.name.getD ""] else [])
      ++ (if truthy e.phone then ["телефон: " ++ e.phone.getD ""] else [])
      ++ (if truthy e.service then ["услуга: " ++ e.service.getD ""] else []) with
  | [] => "Простите за недоразумение! Давайте продолжим. Чем могу помочь?"
  | r :: t =>
    "Извините за путаницу! У меня записано: "
      ++ String.intercalate ", " (r :: t) ++ ". Что нужно уточнить дальше?"

/-- `LiteSmartSecretary._get_specialists_for_service` (static mapping,
default all three). -/
def getSpecialistsForService (serviceName : String) : List String :=
  if serviceName = "Лечебный массаж (женщины) - классический шведский" then ["Авраам"]
  else if serviceName = "Лечебный массаж (мужчины) - классический шведский" then ["Авраам"]
  else if serviceName = "Лечебный массаж (мужчины) - спортивный" then ["Авраам"]
  else if serviceName = "Лечебный массаж (мужчины) - лечебный" then ["Авраам"]
  else if serviceName = "Детский массаж" then ["Авраам"]
  else if serviceName = "Массаж для грудных детей" then ["Авраам"]
  else if serviceName = "Массаж для беременных" then ["Авраам"]
  else if serviceName = "Консультация остеопата" then ["Екатерина"]
  else if serviceName = "Консультация реабилитолога" then ["Екатерина"]
  else if serviceName = "Консультация нутрициолога" then ["Римма"]
  else if serviceName = "Диагностика биорезонансным сканированием (базовая)" then ["Екатерина"]
  else if serviceName = "Диагностика биорезонансным сканированием (расширенная)" then ["Екатерина"]
  else if serviceName = "Диагностика биорезонансным сканированием (VIP)" then ["Екатерина"]
  else if serviceName = "Кинезиотейпирование" then ["Екатерина"]
  else if serviceName = "Подбор и демонстрация комплекса упражнений" then ["Екатерина"]
  else ["Авраам", "Екатерина", "Римма"]

/-- `LiteSmartSecretary._ask_for_service`. -/
def askForService (msg : String) : String :=
  if ["услуги", "что у вас", "расскажи"].any
      (fun w => containsSub w.data (lowerL msg.data)) then
    "У нас доступны:\n• Лечебный массаж - 250₪ (Авраам)\n• Консультация остеопата - 80₪ (Екатерина)  \n• Консультация реабилитолога - 80₪ (Екатерина)\n• Консультация нутрициолога - 450₪ (Римма)\n• Диагностика - 300-750₪ (Екатерина)\n\nНа что хотите записаться?"
  else if containsSub "консультация".data (lowerL msg.data)
      || containsSub "консультацию".data (lowerL msg.data) then
    "Отлично! На консультацию к какому специалисту хотите записаться?"
  else if containsSub "массаж".data (lowerL msg.data) then
    "Отлично! На массаж к какому специалисту хотите записаться?"
  else if containsSub "диагностика".data (lowerL msg.data)
      || containsSub "диагностику".data (lowerL msg.data) then
    "Отлично! На диагностику к какому специалисту хотите записаться?"
  else "На какую услугу записываемся? (массаж, консультация, диагностика, остеопат)"

/-- `LiteSmartSecretary._ask_for_specialist`. -/
def askForSpecialist (msg : String) : String :=
  if containsSub "к аврааму".data (lowerL msg.data)
      || containsSub "авраам".data (lowerL msg.data) then
    "Отлично! К Аврааму. Как вас зовут?"
  else if containsSub "к екатерине".data (lowerL msg.data)
      || containsSub "екатерина".data (lowerL msg.data) then
    "Отлично! К Екатерине. Как вас зовут?"
  else if containsSub "к римме".data (lowerL msg.data)
      || containsSub "римма".data (lowerL msg.data) then
    "Отлично! К Римме. Как вас зовут?"
  else "К какому специалисту хотите записаться? (Авраам, Екатерина, Римма)"

/-- `LiteSmartSecretary._ask_for_phone`. -/
def askForPhone (e : Entities) : String :=
  "Спасибо" ++ (if truthy e.name then ", " ++ e.name.getD "" else "")
    ++ "! Укажите ваш номер телефона."

/-- Python `f"{value}"` on an entity value (`None` renders as `"None"`;
the `.get(key, default)` defaults of `_create_final_confirmation` are
dead because `get_session` initialises every key). -/
def pyStr : Option String → String
  | some s => s
  | none => "None"

/-- `LiteSmartSecretary._create_final_confirmation`. -/
def createFinalConfirmation (e : Entities) : String :=
  "✅ Отлично! Запись создана:\n\n👤 Клиент: " ++ pyStr e.name
    ++ "\n📞 Телефон: " ++ pyStr e.phone
    ++ "\n🏥 Услуга: " ++ pyStr e.service
    ++ "\n📅 Дата: " ++ pyStr e.date
    ++ "\n⏰ Время: " ++ pyStr e.time
    ++ "\n\nМы свяжемся с вами для подтверждения!"

/-- `extracted.get(key)`. -/
def exGet (ex : List (String × String)) (k : String) : Option String :=
  (ex.find? (fun p => p.1 == k)).map Prod.snd

/-- `entities[key] = value` for the six known keys. -/
def entitySet (e : Entities) (f v : String) : Entities :=
  if f = "name" then { e with name := some v }
  else if f = "phone" then { e with phone := some v }
  else if f = "service" then { e with service := some v }
  else if f = "specialist" then { e with specialist := some v }
  else if f = "date" then { e with date := some v }
  else if f = "time" then { e with time := some v }
  else e

/-- The `for key, value in extracted.items(): entities[key] = value`
merge at the top of `_handle_normal_flow`. -/
def applyExtracted (e : Entities) (ex : List (String × String)) : Entities :=
  ex.foldl (fun acc p => entitySet acc p.1 p.2) e

/-- The merged-и-autoselected entities of `_handle_normal_flow` (merge the
extracted dict, then auto-pick the specialist when the service was just
extracted, the specialist is unset and the service maps to exactly one
specialist). -/
def hnfMergedEntities (e : Entities) (extracted : List (String × String)) :
    Entities :=
  if truthy (exGet extracted "service")
      && !truthy (applyExtracted e extracted).specialist then
    match getSpecialistsForService
        ((applyExtracted e extracted).service.getD "") with
    | [sp1] => { applyExtracted e extracted with specialist := some sp1 }
    | _ => applyExtracted e extracted
  else applyExtracted e extracted

/-- The store after `_handle_normal_flow`'s in-place entity mutations
(the session dict is aliased into the store, so the merge and the
auto-selection are immediately visible there). -/
def hnfStore (st : Store) (sid : String) (now : DT)
    (extracted : List (String × String)) : Store :=
  storeSet (getSession st sid now).2 sid
    { (getSession st sid now).1 with
        entities := hnfMergedEntities (getSession st sid now).1.entities
          extracted }

/-- `LiteSmartSecretary._ask_for_date_with_calendar`; `Except.error` is a
`MultipleObjectsReturned` escaping to `process_message`'s blanket
`except` (only `DoesNotExist` is caught locally). -/
def askForDateWithCalendar (db : DB) (now : DT) (msg : String) (e : Entities) :
    Except String String :=
  match dpExtractDatetime now msg with
  | none => Except.ok "На какой день вам удобно?"
  | some pdt =>
    if truthy e.specialist then
      match db.specialists.filter (fun sp =>
          icontains sp.name (e.specialist.getD "")) with
      | [sp] =>
        match (if truthy e.service then
            match db.services.filter (fun sv =>
                icontains sv.name (e.service.getD "")) with
            | [sv] => Except.ok sv.duration
            | [] => Except.ok 60
            | l =>
              Except.error ("get() returned more than one Service -- it returned "
                ++ toString l.length ++ "!")
          else Except.ok 60) with
        | Except.error er => Except.error er
        | Except.ok dur =>
          match internalGetAvailableSlots db sp.id pdt.date dur with
          | [] =>
            Except.ok ("К сожалению, " ++ pdt.date.fmtDMY ++ " у " ++ sp.name
              ++ " нет свободного времени. Предлагаю другие даты: завтра, послезавтра, или следующий вторник.")
          | s :: t =>
            Except.ok ("Отлично! " ++ pdt.date.fmtDMY ++ " у " ++ sp.name
              ++ " доступно:\n" ++ formatAvailableSlots (s :: t)
              ++ "\n\nВыберите удобное время.")
      | [] => Except.ok "На какой день вам удобно?"
      | l =>
        Except.error ("get() returned more than one Specialist -- it returned "
          ++ toString l.length ++ "!")
    else Except.ok "На какой день вам удобно?"

/-- `LiteSmartSecretary._ask_for_time_with_calendar` (fixed 60-minute
duration, as in the source). -/
def askForTimeWithCalendar (db : DB) (now : DT) (msg : String) (e : Entities) :
    Except String String :=
  match dpExtractDatetime now msg with
  | none => Except.ok "Какое время вам подойдет?"
  | some pdt =>
    if truthy e.specialist then
      match db.specialists.filter (fun sp =>
          icontains sp.name (e.specialist.getD "")) with
      | [sp] =>
        if internalCheckConflict db sp.id pdt.abs (pdt.abs + 60) then
          match internalGetAvailableSlots db sp.id pdt.date 60 with
          | [] =>
            Except.ok ("К сожалению, " ++ fmtHM pdt.min
              ++ " занято. Предлагаю выбрать другую дату.")
          | s :: t =>
            Except.ok ("К сожалению, " ++ fmtHM pdt.min ++ " занято. Доступно:\n"
              ++ formatAvailableSlots (s :: t) ++ "\n\nВыберите другое время.")
        else
          Except.ok ("Отлично! " ++ pdt.date.fmtDMY ++ " в " ++ fmtHM pdt.min
            ++ " свободно. Подтверждаете запись?")
      | [] => Except.ok "Какое время вам подойдет?"
      | l =>
        Except.error ("get() returned more than one Specialist -- it returned "
          ++ toString l.length ++ "!")
    else Except.ok "Какое время вам подойдет?"

/-- `LiteSmartSecretary._handle_normal_flow`, reduced to
`(reply-or-raised-exception, db, store)`.  The store argument is the
state after `update_entities`; the in-place merge and auto-selection are
applied first (`hnfStore`). -/
def handleNormalFlow (db : DB) (st : Store) (now : DT) (sid msg : String)
    (extracted : List (String × String)) :
    Except String String × DB × Store :=
  match getNextRequiredField
      (hnfMergedEntities (getSession st sid now).1.entities extracted) with
  | none =>
    match createAppointment db (hnfStore st sid now extracted) now sid
        ((hnfMergedEntities (getSession st sid now).1.entities extracted).name.getD "")
        ((hnfMergedEntities (getSession st sid now).1.entities extracted).phone.getD "")
        ((hnfMergedEntities (getSession st sid now).1.entities extracted).service.getD "")
        ((hnfMergedEntities (getSession st sid now).1.entities extracted).specialist.getD "")
        ((hnfMergedEntities (getSession st sid now).1.entities extracted).date.getD "")
        ((hnfMergedEntities (getSession st sid now).1.entities extracted).time.getD "") with
    | (CreateResult.ok _, db2, st2) =>
      (Except.ok (createFinalConfirmation
        (hnfMergedEntities (getSession st sid now).1.entities extracted)),
       db2, st2)
    | (CreateResult.err result, db2, st2) =>
      if containsSub "✅ Доступные слоты".data result.data then
        (Except.ok result, db2,
         storeSet (getSession st2 sid now).2 sid
           { (getSession st2 sid now).1 with
               entities := { (getSession st2 sid now).1.entities with
                 time := none }
               state := "collecting_time" })
      else if containsSub "Центр не работает".data result.data
          || containsSub "суббот".data (lowerL result.data)
          || containsSub "воскресен".data (lowerL result.data) then
        (Except.ok (result ++ "\n\nПожалуйста, выберите другую дату."), db2,
         storeSet (getSession st2 sid now).2 sid
           { (getSession st2 sid now).1 with
               entities := { (getSession st2 sid now).1.entities with
                 date := none
                 time := none }
               state := "collecting_date" })
      else if containsSub "💡 Рекомендуемые времена".data result.data then
        (Except.ok result, db2,
         storeSet (getSession st2 sid now).2 sid
           { (getSession st2 sid now).1 with
               entities := { (getSession st2 sid now).1.entities with
                 time := none }
               state := "collecting_time" })
      else
        (Except.ok ("Извините, произошла ошибка при создании записи: " ++ result),
         db2, st2)
  | some f =>
    if f = "service" then
      (Except.ok
        (if containsSub "консультация".data (lowerL msg.data)
            || containsSub "консультацию".data (lowerL msg.data) then
          "Отлично! На консультацию к какому специалисту хотите записаться?"
        else if containsSub "массаж".data (lowerL msg.data) then
          "Отлично! На массаж к какому специалисту хотите записаться?"
        else if containsSub "диагностика".data (lowerL msg.data)
            || containsSub "диагностику".data (lowerL msg.data) then
          "Отлично! На диагностику к какому специалисту хотите записаться?"
        else askForService msg), db, hnfStore st sid now extracted)
    else if f = "specialist" then
      if truthy (hnfMergedEntities (getSession st sid now).1.entities
          extracted).service then
        match getSpecialistsForService ((hnfMergedEntities
            (getSession st sid now).1.entities extracted).service.getD "") with
        | [sp1] =>
          (Except.ok ("Отлично! К " ++ sp1 ++ ". Как вас зовут?"), db,
           storeSet
             (getSession (hnfStore st sid now extracted) sid now).2 sid
             { (getSession (hnfStore st sid now extracted) sid now).1 with
                 entities := { (getSession (hnfStore st sid now extracted)
                     sid now).1.entities with
                   specialist := some sp1 } })
        | specs =>
          if containsSub "к аврааму".data (lowerL msg.data)
              || containsSub "авраам".data (lowerL msg.data) then
            (Except.ok "Отлично! К Аврааму. Как вас зовут?", db,
             storeSet
               (getSession (hnfStore st sid now extracted) sid now).2 sid
               { (getSession (hnfStore st sid now extracted) sid now).1 with
                   entities := { (getSession (hnfStore st sid now extracted)
                       sid now).1.entities with
                     specialist := some "Авраам" } })
          else if containsSub "к екатерине".data (lowerL msg.data)
              || containsSub "екатерина".data (lowerL msg.data) then
            (Except.ok "Отлично! К Екатерине. Как вас зовут?", db,
             storeSet
               (getSession (hnfStore st sid now extracted) sid now).2 sid
               { (getSession (hnfStore st sid now extracted) sid now).1 with
                   entities := { (getSession (hnfStore st sid now extracted)
                       sid now).1.entities with
                     specialist := some "Екатерина" } })
          else if containsSub "к римме".data (lowerL msg.data)
              || containsSub "римма".data (lowerL msg.data) then
            (Except.ok "Отлично! К Римме. Как вас зовут?", db,
             storeSet
               (getSession (hnfStore st sid now extracted) sid now).2 sid
               { (getSession (hnfStore st sid now extracted) sid now).1 with
                   entities := { (getSession (hnfStore st sid now extracted)
                       sid now).1.entities with
                     specialist := some "Римма" } })
          else
            (Except.ok ("К какому специалисту хотите записаться? ("
              ++ String.intercalate ", " specs ++ ")"), db,
             hnfStore st sid now extracted)
      else
        (Except.ok (askForSpecialist msg), db, hnfStore st sid now extracted)
    else if f = "name" then
      (Except.ok
        (if truthy (exGet extracted "service")
            || truthy (exGet extracted "specialist") then
          if truthy (hnfMergedEntities (getSession st sid now).1.entities
              extracted).specialist then
            "Отлично! К " ++ (hnfMergedEntities (getSession st sid now).1.entities
              extracted).specialist.getD "" ++ ". Как вас зовут?"
          else "Как вас зовут?"
        else "Как вас зовут?"), db, hnfStore st sid now extracted)
    else if f = "phone" then
      (Except.ok (askForPhone (hnfMergedEntities
        (getSession st sid now).1.entities extracted)), db,
       hnfStore st sid now extracted)
    else if f = "date" then
      match askForDateWithCalendar db now msg (hnfMergedEntities
          (getSession st sid now).1.entities extracted) with
      | Except.error er => (Except.error er, db, hnfStore st sid now extracted)
      | Except.ok r => (Except.ok r, db, hnfStore st sid now extracted)
    else if f = "time" then
      match askForTimeWithCalendar db now msg (hnfMergedEntities
          (getSession st sid now).1.entities extracted) with
      | Except.error er => (Except.error er, db, hnfStore st sid now extracted)
      | Except.ok r => (Except.ok r, db, hnfStore st sid now extracted)
    else (Except.ok "Чем могу помочь?", db, hnfStore st sid now extracted)

/-- `LiteSmartSecretary.process_message` for an explicit `session_id`,
reduced to `(reply, db, store)`: user turn appended to the history,
memory-complaint short circuit, otherwise entity extraction and the
normal flow; the assistant turn is appended only when no exception was
raised (the blanket `except` returns the apology reply without reaching
the second `add_to_history`). -/
def processMessage (db : DB) (st : Store) (now : DT) (sid msg : String) :
    String × DB × Store :=
  if isMemoryComplaint msg then
    (handleMemoryComplaintReply
       (getSession (addToHistory st sid "user" msg now) sid now).1.entities,
     db,
     addToHistory (addToHistory st sid "user" msg now) sid "assistant"
       (handleMemoryComplaintReply
         (getSession (addToHistory st sid "user" msg now) sid now).1.entities)
       now)
  else
    match handleNormalFlow db
        (updateEntitiesStore (addToHistory st sid "user" msg now) sid msg
          now.date now).2
        now sid msg
        (updateEntitiesStore (addToHistory st sid "user" msg now) sid msg
          now.date now).1 with
    | (Except.ok reply, db2, st3) =>
      (reply, db2, addToHistory st3 sid "assistant" reply now)
    | (Except.error _, db2, st3) =>
      ("Извините, произошла ошибка. Давайте начнем сначала. Чем могу помочь?",
       db2, st3)

/-!  Store lemmas: every operation preserves existing session entries.  -/

theorem lookupSession_storeSet_pres (st : Store) (sid2 : String) (s : Session)
    (sid : String) (h : (lookupSession st sid).isSome = true) :
    (lookupSession (storeSet st sid2 s) sid).isSome = true := by
  induction st with
  | nil => simp [lookupSession] at h
  | cons hd tl ih =>
    obtain ⟨k, v⟩ := hd
    by_cases hk : (k == sid2) = true
    · simp only [storeSet, hk, if_true]
      by_cases hks : (k == sid) = true
      · simp [lookupSession, List.find?, hks]
      · simp only [lookupSession, List.find?, hks] at h ⊢
        exact h
    · simp only [storeSet, hk, if_false]
      by_cases hks : (k == sid) = true
      · simp [lookupSession, List.find?, hks]
      · simp only [lookupSession, List.find?, hks] at h ⊢
        exact ih h

theorem getSession_store_pres (st : Store) (sid2 : String) (now : DT)
    (sid : String) (h : (lookupSession st sid).isSome = true) :
    (lookupSession (getSession st sid2 now).2 sid).isSome = true := by
  unfold getSession
  split
  · exact h
  · exact lookupSession_storeSet_pres _ _ _ _ h

theorem addToHistory_pres (st : Store) (sid2 role msg : String) (now : DT)
    (sid : String) (h : (lookupSession st sid).isSome = true) :
    (lookupSession (addToHistory st sid2 role msg now) sid).isSome = true := by
  unfold addToHistory
  exact lookupSession_storeSet_pres _ _ _ _ (getSession_store_pres _ _ _ _ h)

theorem addToHistory_self (st : Store) (sid role msg : String) (now : DT) :
    (lookupSession (addToHistory st sid role msg now) sid).isSome = true := by
  unfold addToHistory
  rw [lookupSession_storeSet_self]
  rfl

theorem updateEntitiesStore_pres (st : Store) (sid2 msg : String) (today : Date)
    (now : DT) (sid : String) (h : (lookupSession st sid).isSome = true) :
    (lookupSession (updateEntitiesStore st sid2 msg today now).2 sid).isSome
      = true := by
  unfold updateEntitiesStore
  exact lookupSession_storeSet_pres _ _ _ _ (getSession_store_pres _ _ _ _ h)

theorem hnfStore_pres (st : Store) (sid2 : String) (now : DT)
    (ex : List (String × String)) (sid : String)
    (h : (lookupSession st sid).isSome = true) :
    (lookupSession (hnfStore st sid2 now ex) sid).isSome = true := by
  unfold hnfStore
  exact lookupSession_storeSet_pres _ _ _ _ (getSession_store_pres _ _ _ _ h)

theorem createAppointment_store_pres (db : DB) (st : Store) (now : DT)
    (sid2 n p sn spn d t : String) (sid : String)
    (h : (lookupSession st sid).isSome = true) :
    (lookupSession (createAppointment db st now sid2 n p sn spn d t).2.2
      sid).isSome = true := by
  unfold createAppointment
  repeat' split
  all_goals first
    | exact h
    | exact lookupSession_storeSet_pres _ _ _ _ (getSession_store_pres _ _ _ _ h)

theorem handleNormalFlow_store_pres (db : DB) (st : Store) (now : DT)
    (sid2 msg : String) (ex : List (String × String)) (sid : String)
    (h : (lookupSession st sid).isSome = true) :
    (lookupSession (handleNormalFlow db st now sid2 msg ex).2.2 sid).isSome
      = true := by
  have hA : (lookupSession (hnfStore st sid2 now ex) sid).isSome = true :=
    hnfStore_pres st sid2 now ex sid h
  unfold handleNormalFlow
  split
  · split
    · rename_i aid db2 st2 heq
      have hp := createAppointment_store_pres db (hnfStore st sid2 now ex) now
        sid2
        ((hnfMergedEntities (getSession st sid2 now).1.entities ex).name.getD "")
        ((hnfMergedEntities (getSession st sid2 now).1.entities ex).phone.getD "")
        ((hnfMergedEntities (getSession st sid2 now).1.entities ex).service.getD "")
        ((hnfMergedEntities (getSession st sid2 now).1.entities ex).specialist.getD "")
        ((hnfMergedEntities (getSession st sid2 now).1.entities ex).date.getD "")
        ((hnfMergedEntities (getSession st sid2 now).1.entities ex).time.getD "")
        sid hA
      rw [heq] at hp
      exact hp
    · rename_i result db2 st2 heq
      have hp := createAppointment_store_pres db (hnfStore st sid2 now ex) now
        sid2
        ((hnfMergedEntities (getSession st sid2 now).1.entities ex).name.getD "")
        ((hnfMergedEntities (getSession st sid2 now).1.entities ex).phone.getD "")
        ((hnfMergedEntities (getSession st sid2 now).1.entities ex).service.getD "")
        ((hnfMergedEntities (getSession st sid2 now).1.entities ex).specialist.getD "")
        ((hnfMergedEntities (getSession st sid2 now).1.entities ex).date.getD "")
        ((hnfMergedEntities (getSession st sid2 now).1.entities ex).time.getD "")
        sid hA
      rw [heq] at hp
      split
      · exact lookupSession_storeSet_pres _ _ _ _ (getSession_store_pres _ _ _ _ hp)
      · split
        · exact lookupSession_storeSet_pres _ _ _ _ (getSession_store_pres _ _ _ _ hp)
        · split
          · exact lookupSession_storeSet_pres _ _ _ _ (getSession_store_pres _ _ _ _ hp)
          · exact hp
  · split
    · exact hA
    · split
      · split
        · split
          · exact lookupSession_storeSet_pres _ _ _ _ (getSession_store_pres _ _ _ _ hA)
          · split
            · exact lookupSession_storeSet_pres _ _ _ _ (getSession_store_pres _ _ _ _ hA)
            · split
              · exact lookupSession_storeSet_pres _ _ _ _ (getSession_store_pres _ _ _ _ hA)
              · split
                · exact lookupSession_storeSet_pres _ _ _ _ (getSession_store_pres _ _ _ _ hA)
                · exact hA
        · exact hA
      · split
        · exact hA
        · split
          · exact hA
          · split
            · split
              · exact hA
              · exact hA
            · split
              · split
                · exact hA
                · exact hA
              · exact hA

theorem processMessage_sid_present (db : DB) (st : Store) (now : DT)
    (sid msg : String) :
    (lookupSession (processMessage db st now sid msg).2.2 sid).isSome = true := by
  unfold processMessage
  split
  · exact addToHistory_self _ _ _ _ _
  · split
    · exact addToHistory_self _ _ _ _ _
    · rename_i e db2 st3 heq
      have hp := handleNormalFlow_store_pres db
        (updateEntitiesStore (addToHistory st sid "user" msg now) sid msg
          now.date now).2 now sid msg
        (updateEntitiesStore (addToHistory st sid "user" msg now) sid msg
          now.date now).1 sid
        (updateEntitiesStore_pres _ _ _ _ _ _ (addToHistory_self _ _ _ _ _))
      rw [heq] at hp
      exact hp

theorem processMessage_store_pres (db : DB) (st : Store) (now : DT)
    (sid2 msg : String) (sid : String)
    (h : (lookupSession st sid).isSome = true) :
    (lookupSession (processMessage db st now sid2 msg).2.2 sid).isSome = true := by
  unfold processMessage
  split
  · exact addToHistory_pres _ _ _ _ _ _ (addToHistory_pres _ _ _ _ _ _ h)
  · split
    · rename_i reply db2 st3 heq
      have hp := handleNormalFlow_store_pres db
        (updateEntitiesStore (addToHistory st sid2 "user" msg now) sid2 msg
          now.date now).2 now sid2 msg
        (updateEntitiesStore (addToHistory st sid2 "user" msg now) sid2 msg
          now.date now).1 sid
        (updateEntitiesStore_pres _ _ _ _ _ _ (addToHistory_pres _ _ _ _ _ _ h))
      rw [heq] at hp
      exact addToHistory_pres _ _ _ _ _ _ hp
    · rename_i e db2 st3 heq
      have hp := handleNormalFlow_store_pres db
        (updateEntitiesStore (addToHistory st sid2 "user" msg now) sid2 msg
          now.date now).2 now sid2 msg
        (updateEntitiesStore (addToHistory st sid2 "user" msg now) sid2 msg
          now.date now).1 sid
        (updateEntitiesStore_pres _ _ _ _ _ _ (addToHistory_pres _ _ _ _ _ _ h))
      rw [heq] at hp
      exact hp

/-- One session-manager operation, as invoked by the web layer: a full
`process_message` turn, or a direct `get_session` / `add_to_history` /
`update_entities` call. -/
inductive SecOp
  | procMsg (db : DB) (sid msg : String)
  | getSess (sid : String)
  | addHist (sid role msg : String)
  | updEnt (sid msg : String)

/-- Store effect of one operation. -/
def runOp (now : DT) (st : Store) : SecOp → Store
  | SecOp.procMsg db sid msg => (processMessage db st now sid msg).2.2
  | SecOp.getSess sid => (getSession st sid now).2
  | SecOp.addHist sid role msg => addToHistory st sid role msg now
  | SecOp.updEnt sid msg => (updateEntitiesStore st sid msg now.date now).2

/-- Store effect of a sequence of operations. -/
def runOps (now : DT) (st : Store) : List SecOp → Store
  | [] => st
  | op :: t => runOps now (runOp now st op) t

theorem runOps_pres (now : DT) (ops : List SecOp) :
    ∀ (st : Store) (sid : String), (lookupSession st sid).isSome = true →
      (lookupSession (runOps now st ops) sid).isSome = true := by
  induction ops with
  | nil => exact fun st sid h => h
  | cons op t ih =>
    intro st sid h
    refine ih (runOp now st op) sid ?_
    cases op with
    | procMsg db sid2 m => exact processMessage_store_pres db st now sid2 m sid h
    | getSess sid2 => exact getSession_store_pres st sid2 now sid h
    | addHist sid2 r m => exact addToHistory_pres st sid2 r m now sid h
    | updEnt sid2 m => exact updateEntitiesStore_pres st sid2 m now.date now sid h

/-- C8: the session store is a process-lifetime map: `get_session` on an
existing id returns the stored record itself without resetting it and
leaves the store unchanged; a `process_message` turn leaves its
session id present in the store; and over any sequence of
`process_message` / `get_session` / `add_to_history` / `update_entities`
operations, an id once present stays present. -/
theorem c8_session_lifetime (now : DT) (st : Store) (sid : String) :
    (∀ s, lookupSession st sid = some s → getSession st sid now = (s, st))
    ∧ (∀ db msg,
        (lookupSession (processMessage db st now sid msg).2.2 sid).isSome = true)
    ∧ (∀ ops, (lookupSession st sid).isSome = true →
        (lookupSession (runOps now st ops) sid).isSome = true) := by
  refine ⟨?_, ?_, ?_⟩
  · intro s hs
    unfold getSession
    rw [hs]
  · intro db msg
    exact processMessage_sid_present db st now sid msg
  · intro ops h
    exact runOps_pres now ops st sid h

/-- A fixed store with one session, an empty clinic database and a short
operation sequence touching two session ids. -/
def nowC8 : DT := ⟨⟨2025, 10, 14⟩, 480⟩

def dbC8 : DB := ⟨[], [], [], [], 1⟩

def stC8 : Store := [("a", defaultSession nowC8)]

def opsC8 : List SecOp :=
  [SecOp.procMsg dbC8 "b" "привет", SecOp.getSess "a",
   SecOp.addHist "a" "user" "ещё", SecOp.updEnt "a" "завтра в 10:00"]

/-- Witness for C8 at the concrete store and operation list. -/
theorem c8_witness :
    getSession stC8 "a" nowC8 = (defaultSession nowC8, stC8)
    ∧ (lookupSession (processMessage dbC8 stC8 nowC8 "b" "привет").2.2
        "b").isSome = true
    ∧ (lookupSession (runOps nowC8 stC8 opsC8) "a").isSome = true :=
  ⟨(c8_session_lifetime nowC8 stC8 "a").1 (defaultSession nowC8) rfl,
   (c8_session_lifetime nowC8 stC8 "b").2.1 dbC8 "привет",
   (c8_session_lifetime nowC8 stC8 "a").2.2 opsC8 rfl⟩

end Health
